import Mathlib

/-!
# DECaxp: Cbox definitions and 21274 system allocation

A shallow embedding of

* `Includes/CPU/Cbox/AXP_21264_CboxDefs.h` (probe pack/unpack macros, backup-cache
  size codes), and
* `Motherboard/AXP_21274_System.c` (`AXP_21274_AllocateSystem`),

followed by the properties established about them.  Machine integers are modelled as
natural numbers; every external routine called by `AXP_21274_AllocateSystem` is an
oracle in the environment record `Env`, and every call it makes is logged in a trace.
-/

namespace DECaxp

/-! ## Part 1: definitions -/

/-! ### Probe command fields (HRM Tables 4-21 and 4-22) -/

def AXP_21264_DM_NOP : Nat := 0
def AXP_21264_DM_RDHIT : Nat := 1
def AXP_21264_DM_RDDIRTY : Nat := 2
def AXP_21264_DM_RDANY : Nat := 3

def AXP_21264_NS_NOP : Nat := 0
def AXP_21264_NS_CLEAN : Nat := 1
def AXP_21264_NS_CLEAN_SHARED : Nat := 2
def AXP_21264_NS_TRANS3 : Nat := 3
def AXP_21264_NS_DIRTY_SHARED : Nat := 4
def AXP_21264_NS_INVALID : Nat := 5
def AXP_21264_NS_TRANS1 : Nat := 6
def AXP_21264_NS_RES : Nat := 7

/-- The C operator `||`: 1 when either operand is non-zero, otherwise 0. -/
def logicalOr (a b : Nat) : Nat :=
  if a ≠ 0 ∨ b ≠ 0 then 1 else 0

/-- The macro `AXP_21264_GET_PROBE_DM(probe)`, `(((probe) & 0x18) >> 3)`. -/
def AXP_21264_GET_PROBE_DM (probe : Nat) : Nat :=
  (probe &&& 0x18) >>> 3

/-- The macro `AXP_21264_GET_PROBE_NS(probe)`, `((probe) & 0x07)`. -/
def AXP_21264_GET_PROBE_NS (probe : Nat) : Nat :=
  probe &&& 0x07

/-- The macro `AXP_21264_SET_PROBE(dm, ns)`,
`((((dm) & 0x03) << 3) || ((ns) & 0x07))`, with the logical OR of the source. -/
def AXP_21264_SET_PROBE (dm ns : Nat) : Nat :=
  logicalOr ((dm &&& 0x03) <<< 3) (ns &&& 0x07)

/-- The four named `dm` codes. -/
def dmCodes : List Nat :=
  [AXP_21264_DM_NOP, AXP_21264_DM_RDHIT, AXP_21264_DM_RDDIRTY, AXP_21264_DM_RDANY]

/-- The eight named `ns` codes. -/
def nsCodes : List Nat :=
  [AXP_21264_NS_NOP, AXP_21264_NS_CLEAN, AXP_21264_NS_CLEAN_SHARED, AXP_21264_NS_TRANS3,
   AXP_21264_NS_DIRTY_SHARED, AXP_21264_NS_INVALID, AXP_21264_NS_TRANS1, AXP_21264_NS_RES]

/-! ### Backup-cache sizes (HRM Table 4-42) -/

/-- The five backup-cache sizes for which the header defines both a capacity
(`AXP_21264_nMB`) and a `BC_SIZE` code (`AXP_BCACHE_nMB`). -/
inductive BcacheSize where
  | mb1
  | mb2
  | mb4
  | mb8
  | mb16
  deriving DecidableEq, Repr

def AXP_21264_1MB (ONE_M : Nat) : Nat := 1 * ONE_M
def AXP_21264_2MB (ONE_M : Nat) : Nat := 2 * ONE_M
def AXP_21264_4MB (ONE_M : Nat) : Nat := 4 * ONE_M
def AXP_21264_8MB (ONE_M : Nat) : Nat := 8 * ONE_M
def AXP_21264_16MB (ONE_M : Nat) : Nat := 16 * ONE_M

def AXP_BCACHE_1MB : Nat := 0
def AXP_BCACHE_2MB : Nat := 1
def AXP_BCACHE_4MB : Nat := 3
def AXP_BCACHE_8MB : Nat := 7
def AXP_BCACHE_16MB : Nat := 15

/-- Capacity in bytes of a backup-cache size; `ONE_M` is the byte count of a megabyte,
a constant of the utility header that the capacities are multiples of. -/
def BcacheSize.capacity (ONE_M : Nat) : BcacheSize → Nat
  | .mb1 => AXP_21264_1MB ONE_M
  | .mb2 => AXP_21264_2MB ONE_M
  | .mb4 => AXP_21264_4MB ONE_M
  | .mb8 => AXP_21264_8MB ONE_M
  | .mb16 => AXP_21264_16MB ONE_M

/-- Capacity in megabytes, the multiplier written in `AXP_21264_nMB`. -/
def BcacheSize.megabytes : BcacheSize → Nat
  | .mb1 => 1
  | .mb2 => 2
  | .mb4 => 4
  | .mb8 => 8
  | .mb16 => 16

/-- The `BC_SIZE` code of a backup-cache size. -/
def BcacheSize.code : BcacheSize → Nat
  | .mb1 => AXP_BCACHE_1MB
  | .mb2 => AXP_BCACHE_2MB
  | .mb4 => AXP_BCACHE_4MB
  | .mb8 => AXP_BCACHE_8MB
  | .mb16 => AXP_BCACHE_16MB

/-- All five sizes, in header order. -/
def BcacheSize.all : List BcacheSize :=
  [.mb1, .mb2, .mb4, .mb8, .mb16]

/-- The code the header gives to a capacity of `mb` megabytes, if it gives one. -/
def bcSizeCode (mb : Nat) : Option Nat :=
  (BcacheSize.all.find? (fun s => s.megabytes == mb)).map BcacheSize.code

/-- The capacity in megabytes that the header gives to a `BC_SIZE` code, if any. -/
def bcSizeMegabytes (code : Nat) : Option Nat :=
  (BcacheSize.all.find? (fun s => s.code == code)).map BcacheSize.megabytes

/-! ### System allocation (`AXP_21274_AllocateSystem`) -/

/-- A block handled by `AXP_Allocate_Block` / `AXP_Deallocate_Block`.  The block that
`AXP_21264_AllocateCPU(ii)` returns is `cpu ii`; `stray` stands for whatever the
uninitialised local array `cpu[]` may hold. -/
inductive Block where
  | sys
  | cpu (ii : Nat)
  | array (ii : Nat)
  | stray (addr : Nat)
  deriving DecidableEq, Repr

/-- Fields of one per-CPU record `sys->cpu[ii]`. -/
inductive CpuField where
  | mutex
  | cond
  | pq
  | pqTop
  | pqBottom
  | irq_H
  deriving DecidableEq, Repr

/-- Fields of the system record shared by all CPUs. -/
inductive HubField where
  | cChipMutex
  | cChipCond
  | skidBufferQ
  deriving DecidableEq, Repr

/-- An address handed to `AXP_21264_Save_SystemInterfaces`: `&sys->cpu[ii].f` or
`&sys->f`. -/
inductive Ref where
  | cpu (ii : Nat) (f : CpuField)
  | hub (f : HubField)
  deriving DecidableEq, Repr

/-- The seven mutexes and condition variables initialised at the start, in source
order. -/
inductive SyncObj where
  | cChipMutex
  | memMutex
  | p0Mutex
  | p1Mutex
  | cChipCond
  | p0Cond
  | p1Cond
  deriving DecidableEq, Repr

/-- The three chipset threads, in creation order. -/
inductive ChipThread where
  | cChip
  | p0
  | p1
  deriving DecidableEq, Repr

/-- One call made by `AXP_21274_AllocateSystem`, with what it returned. -/
inductive Event where
  | allocSys (ok : Bool)
  | syncInit (o : SyncObj) (ret : Int)
  | allocCPU (ii : Nat) (ok : Bool)
  | saveSystemInterfaces (cpu : Block) (refs : List Ref)
  | allocArray (ii : Nat) (ok : Bool)
  | cchipInit
  | dchipInit
  | pchipInit (n : Nat)
  | threadCreate (t : ChipThread) (ret : Int)
  | deallocate (b : Block)
  deriving DecidableEq, Repr

/-- The two counters of a system record as `AXP_Allocate_Block(AXP_21274_SYS_BLK)`
delivers it, before the function stores anything in them. -/
structure SysBlock where
  cpuCount : Nat
  arrayCount : Nat
  deriving DecidableEq, Repr

/-- Everything outside `AXP_21274_AllocateSystem` that decides its behaviour: the two
capacity constants of the system header and the results of the routines it calls. -/
structure Env where
  /-- Capacity of `sys->cpu[]` and of the local `cpu[]`. -/
  AXP_21274_MAX_CPUS : Nat
  /-- Capacity of `sys->array[]`. -/
  AXP_21274_MAX_ARRAYS : Nat
  /-- Result of `AXP_Allocate_Block(AXP_21274_SYS_BLK)`; `none` is NULL. -/
  sysBlock : Option SysBlock
  /-- Return value of each `pthread_mutex_init` / `pthread_cond_init`. -/
  syncInit : SyncObj → Int
  /-- Result of `AXP_ConfigGet_CPUCount()`. -/
  AXP_ConfigGet_CPUCount : Nat
  /-- Whether `AXP_21264_AllocateCPU(ii)` returns a CPU (non-NULL). -/
  AXP_21264_AllocateCPU : Nat → Bool
  /-- Array count stored by `AXP_ConfigGet_DarrayInfo`. -/
  darrayCount : Nat
  /-- Array size stored by `AXP_ConfigGet_DarrayInfo`. -/
  darraySizes : Nat
  /-- Whether `AXP_Allocate_Block(-sys->arraySizes, sys->array[ii])` is non-NULL. -/
  allocArray : Nat → Bool
  /-- Return value of each `pthread_create`. -/
  threadCreate : ChipThread → Int
  /-- Contents of the local array `cpu[]` on entry (it has no initialiser). -/
  cpuGarbage : Nat → Option Block

/-- The variables of `AXP_21274_AllocateSystem` once `sys` is non-NULL: the fields of
`*sys` it reads or writes, its locals, and the calls made so far. -/
structure SysState where
  cpuCount : Nat
  arrayCount : Nat
  arraySizes : Nat
  array : Nat → Option Block
  cpu : Nat → Option Block
  pthreadRet : Int
  qRet : Bool
  trace : List Event

/-- The system record handed back to the caller. -/
structure System where
  cpuCount : Nat
  arrayCount : Nat
  arraySizes : Nat
  array : Nat → Option Block

/-- Return value (`none` is NULL) and the calls made, in order. -/
structure Outcome where
  sys : Option System
  trace : List Event

/-- Assignment `a[ii] = v`. -/
def setAt (a : Nat → Option Block) (ii : Nat) (v : Option Block) : Nat → Option Block :=
  fun jj => if jj = ii then v else a jj

/-- The nine addresses passed after `cpu[ii]` to `AXP_21264_Save_SystemInterfaces`
(lines 96-104). -/
def interfaceRefs (ii : Nat) : List Ref :=
  [.cpu ii .mutex, .cpu ii .cond, .cpu ii .pq, .cpu ii .pqTop, .cpu ii .pqBottom,
   .cpu ii .irq_H, .hub .cChipMutex, .hub .cChipCond, .hub .skidBufferQ]

/-- One guarded initialisation: `if (pthreadRet == 0) pthreadRet = init(o);`. -/
def syncInitStep (env : Env) (st : SysState) (o : SyncObj) : SysState :=
  if st.pthreadRet = 0 then
    { st with pthreadRet := env.syncInit o,
              trace := st.trace ++ [.syncInit o (env.syncInit o)] }
  else st

/-- Lines 46-70: the first initialisation is unconditional, the other six are guarded
by `pthreadRet == 0`. -/
def syncInitPhase (env : Env) (st : SysState) : SysState :=
  let st0 : SysState :=
    { st with pthreadRet := env.syncInit .cChipMutex,
              trace := st.trace ++ [.syncInit .cChipMutex (env.syncInit .cChipMutex)] }
  [SyncObj.memMutex, .p0Mutex, .p1Mutex, .cChipCond, .p0Cond, .p1Cond].foldl
    (syncInitStep env) st0

/-- Body of the CPU loop (lines 84-114) for index `ii`. -/
def cpuLoopBody (env : Env) (st : SysState) (ii : Nat) : SysState :=
  if ii < st.cpuCount then
    if env.AXP_21264_AllocateCPU ii then
      { st with cpu := setAt st.cpu ii (some (.cpu ii)),
                trace := st.trace ++
                  [.allocCPU ii true, .saveSystemInterfaces (.cpu ii) (interfaceRefs ii)] }
    else
      { st with cpu := setAt st.cpu ii none,
                qRet := false,
                trace := st.trace ++ [.allocCPU ii false] }
  else
    { st with cpu := setAt st.cpu ii none }

/-- Lines 77-115: fetch the CPU count, then loop over `0 .. AXP_21274_MAX_CPUS - 1`. -/
def cpuPhase (env : Env) (st : SysState) : SysState :=
  (List.range env.AXP_21274_MAX_CPUS).foldl (cpuLoopBody env)
    { st with cpuCount := env.AXP_ConfigGet_CPUCount }

/-- Body of the array loop (lines 132-140) for index `ii`; the result of the
allocation is stored unchecked. -/
def arrayLoopBody (env : Env) (st : SysState) (ii : Nat) : SysState :=
  if ii < st.arrayCount then
    { st with array := setAt st.array ii
                (if env.allocArray ii then some (.array ii) else none),
              trace := st.trace ++ [.allocArray ii (env.allocArray ii)] }
  else
    { st with array := setAt st.array ii none }

/-- Lines 124-141: fetch the array description, then loop over
`0 .. AXP_21274_MAX_ARRAYS - 1`. -/
def arrayPhase (env : Env) (st : SysState) : SysState :=
  (List.range env.AXP_21274_MAX_ARRAYS).foldl (arrayLoopBody env)
    { st with arrayCount := env.darrayCount, arraySizes := env.darraySizes }

/-- One guarded thread creation: `if (pthreadRet == 0) pthreadRet = pthread_create(t);`. -/
def threadCreateStep (env : Env) (st : SysState) (t : ChipThread) : SysState :=
  if st.pthreadRet = 0 then
    { st with pthreadRet := env.threadCreate t,
              trace := st.trace ++ [.threadCreate t (env.threadCreate t)] }
  else st

/-- Lines 154-175: chip initialisation, then the Cchip thread unconditionally and the
two Pchip threads guarded by `pthreadRet == 0`. -/
def threadPhase (env : Env) (st : SysState) : SysState :=
  let st0 : SysState :=
    { st with pthreadRet := env.threadCreate .cChip,
              trace := st.trace ++
                [.cchipInit, .dchipInit, .pchipInit 0, .pchipInit 1,
                 .threadCreate .cChip (env.threadCreate .cChip)] }
  [ChipThread.p0, .p1].foldl (threadCreateStep env) st0

/-- Body of the clean-up loop (lines 190-193) for index `ii`. -/
def cleanupBody (cpu : Nat → Option Block) (tr : List Event) (ii : Nat) : List Event :=
  match cpu ii with
  | some b => tr ++ [.deallocate b]
  | none => tr

/-- Lines 188-195: release every non-NULL `cpu[ii]`, then the system record. -/
def cleanup (env : Env) (st : SysState) : List Event :=
  (List.range env.AXP_21274_MAX_CPUS).foldl (cleanupBody st.cpu) st.trace
    ++ [.deallocate .sys]

/-- The test of line 183-186 (the `sys != NULL` conjunct is decided by the caller). -/
def somethingFailed (st : SysState) : Bool :=
  st.pthreadRet != 0 || st.qRet != true || st.cpuCount == 0 || st.arrayCount == 0

/-- The function `AXP_21274_AllocateSystem`. -/
def AXP_21274_AllocateSystem (env : Env) : Outcome :=
  match env.sysBlock with
  | none => { sys := none, trace := [.allocSys false] }
  | some blk =>
    let st0 : SysState :=
      { cpuCount := blk.cpuCount, arrayCount := blk.arrayCount, arraySizes := 0,
        array := fun _ => none, cpu := env.cpuGarbage, pthreadRet := 0, qRet := true,
        trace := [.allocSys true] }
    let st1 := syncInitPhase env st0
    let st2 := if st1.pthreadRet = 0 then cpuPhase env st1 else st1
    let st3 := if st2.qRet = true then arrayPhase env st2 else st2
    let st4 := if st3.qRet = true then threadPhase env st3 else st3
    if somethingFailed st4 = true then
      { sys := none, trace := cleanup env st4 }
    else
      { sys := some { cpuCount := st4.cpuCount, arrayCount := st4.arrayCount,
                      arraySizes := st4.arraySizes, array := st4.array },
        trace := st4.trace }

/-! ### Reading a trace -/

/-- The blocks passed to `AXP_Deallocate_Block`, in call order. -/
def deallocated (tr : List Event) : List Block :=
  tr.filterMap fun e => match e with
    | .deallocate b => some b
    | _ => none

/-- The indices for which `AXP_21264_AllocateCPU` returned a CPU, in call order. -/
def allocatedCpus (tr : List Event) : List Nat :=
  tr.filterMap fun e => match e with
    | .allocCPU ii true => some ii
    | _ => none

/-- The indices for which `AXP_21264_AllocateCPU` returned NULL, in call order. -/
def failedCpus (tr : List Event) : List Nat :=
  tr.filterMap fun e => match e with
    | .allocCPU ii false => some ii
    | _ => none

/-- The calls of `AXP_21264_Save_SystemInterfaces` (CPU block and the nine addresses),
in call order. -/
def saveCalls (tr : List Event) : List (Block × List Ref) :=
  tr.filterMap fun e => match e with
    | .saveSystemInterfaces c refs => some (c, refs)
    | _ => none

/-- The chipset threads that were created (`pthread_create` returned 0), in order. -/
def threadsCreated (tr : List Event) : List ChipThread :=
  tr.filterMap fun e => match e with
    | .threadCreate t ret => if ret = 0 then some t else none
    | _ => none

/-! ### Summaries of the CPU loop -/

/-- What iteration `ii` of the CPU loop leaves in `cpu[ii]` when the CPU count is `cc`. -/
def cpuSlot (env : Env) (cc ii : Nat) : Option Block :=
  if ii < cc ∧ env.AXP_21264_AllocateCPU ii = true then some (.cpu ii) else none

/-- Whether iteration `ii` of the CPU loop leaves `qRet` alone. -/
def cpuOk (env : Env) (cc ii : Nat) : Bool :=
  !decide (ii < cc) || env.AXP_21264_AllocateCPU ii

/-- The calls made by iteration `ii` of the CPU loop. -/
def cpuEvents (env : Env) (cc ii : Nat) : List Event :=
  if ii < cc then
    if env.AXP_21264_AllocateCPU ii then
      [.allocCPU ii true, .saveSystemInterfaces (.cpu ii) (interfaceRefs ii)]
    else [.allocCPU ii false]
  else []

/-- Every event is a mutex or condition-variable initialisation. -/
def SyncInitOnly (evs : List Event) : Prop :=
  ∀ e ∈ evs, ∃ o ret, e = Event.syncInit o ret

/-- Every event is a memory-array allocation. -/
def AllocArrayOnly (evs : List Event) : Prop :=
  ∀ e ∈ evs, ∃ ii ok, e = Event.allocArray ii ok

/-- Every event is a chip initialisation or a `pthread_create`. -/
def ThreadPhaseOnly (evs : List Event) : Prop :=
  ∀ e ∈ evs, (∃ t ret, e = Event.threadCreate t ret) ∨ e = .cchipInit ∨
    e = .dchipInit ∨ ∃ n, e = .pchipInit n

/-! ### Concrete configurations -/

/-- A configuration in which every external call succeeds: 4 CPU slots, 4 array
slots, `nCpu` CPUs and `nArr` arrays configured, zero-filled system block. -/
def goodEnv (nCpu nArr : Nat) : Env :=
  { AXP_21274_MAX_CPUS := 4, AXP_21274_MAX_ARRAYS := 4,
    sysBlock := some { cpuCount := 0, arrayCount := 0 },
    syncInit := fun _ => 0,
    AXP_ConfigGet_CPUCount := nCpu,
    AXP_21264_AllocateCPU := fun _ => true,
    darrayCount := nArr, darraySizes := 1024,
    allocArray := fun _ => true,
    threadCreate := fun _ => 0,
    cpuGarbage := fun ii => some (.stray ii) }

/-- Three CPUs configured, the allocation of the third (index 2) fails. -/
def envThirdCpuFails : Env :=
  { goodEnv 3 1 with AXP_21264_AllocateCPU := fun ii => ii != 2 }

/-- Everything succeeds up to the threads; creating the Pchip 0 thread fails. -/
def envPchip0ThreadFails : Env :=
  { goodEnv 2 1 with threadCreate := fun t => if t = .p0 then 11 else 0 }

/-- One CPU and one array configured; the array allocation returns NULL. -/
def envArrayFails : Env :=
  { goodEnv 1 1 with allocArray := fun _ => false }

/-- Two CPUs configured, the allocation of the first (index 0) fails. -/
def envCpu0Fails : Env :=
  { goodEnv 2 1 with AXP_21264_AllocateCPU := fun ii => ii != 0 }

/-- The third initialisation fails and the system block arrives with a non-zero
`cpuCount` field (a block that is not zero-filled). -/
def envMutexFailsDirtyBlock : Env :=
  { goodEnv 2 1 with
    sysBlock := some { cpuCount := 2, arrayCount := 0 },
    syncInit := fun o => if o = .p0Mutex then 12 else 0 }

/-- The third initialisation (`p0.mutex`) fails. -/
def envMutexFails : Env :=
  { goodEnv 2 1 with syncInit := fun o => if o = .p0Mutex then 12 else 0 }

/-! ### Cbox buffers: victim buffer, MAF and IOWB (`AXP_21264_CboxDefs.h`) -/

/-- Size in bytes of `u64`, "8 bytes (64 bits) in length" (`AXP_Utility.h`). -/
def sizeof_u64 : Nat := 8

/-- Size in bytes of `u8`, "1 byte (8 bits) in length" (`AXP_Utility.h`). -/
def sizeof_u8 : Nat := 1

/-- The constant `AXP_21264_DATA_SIZE`, the sysData size in quadwords. -/
def AXP_21264_DATA_SIZE : Nat := 8

/-- The constant `AXP_BCACHE_BLOCK_SIZE`. -/
def AXP_BCACHE_BLOCK_SIZE : Nat := 64

/-- The constant `AXP_21264_MBOX_MAX`. -/
def AXP_21264_MBOX_MAX : Nat := 8

/-- Bytes taken by the field `u64 sysData[AXP_21264_DATA_SIZE]` of
`AXP_21264_CBOX_VIC_BUF`. -/
def vicBufSysDataBytes : Nat := AXP_21264_DATA_SIZE * sizeof_u64

/-- Bytes taken by the field `u64 sysData[AXP_21264_DATA_SIZE]` of
`AXP_21264_CBOX_IOWB`. -/
def iowbSysDataBytes : Nat := AXP_21264_DATA_SIZE * sizeof_u64

/-- Bytes taken by `AXP_21264_BCACHE_BLK`, `u8[AXP_BCACHE_BLOCK_SIZE]`. -/
def bcacheBlkBytes : Nat := AXP_BCACHE_BLOCK_SIZE * sizeof_u8

/-- The enumeration `AXP_CBOX_MAF_TYPE`. -/
inductive AXP_CBOX_MAF_TYPE where
  | MAFNotInUse
  | LDx
  | STx
  | STx_C
  | STxChangeToDirty
  | STxCChangeToDirty
  | WH64
  | ECB
  | Istream
  | MemoryBarrier
  deriving DecidableEq, Repr

/-- The structure `AXP_21264_CBOX_MAF`, one entry of the Miss Address File. -/
structure AXP_21264_CBOX_MAF where
  type : AXP_CBOX_MAF_TYPE
  pa : Nat
  mask : Nat
  lqSqEntry : List Int
  dataLen : Int
  bufLen : Int
  valid : Bool
  complete : Bool
  shared : Bool
  ioReq : Bool
  deriving DecidableEq, Repr

/-- Number of MAF entries of a CPU: "The Cbox contains an 8-entry miss buffer (MAF)". -/
def AXP_21264_MAF_LEN : Nat := 8

/-- The MAF of a CPU: the entry of each slot; only slots below `AXP_21264_MAF_LEN`
exist. -/
abbrev MafTable := Nat → AXP_21264_CBOX_MAF

/-- An entry that is not in use. -/
def mafEmptyEntry : AXP_21264_CBOX_MAF :=
  { type := .MAFNotInUse, pa := 0, mask := 0, lqSqEntry := [], dataLen := 0, bufLen := 0,
    valid := false, complete := false, shared := false, ioReq := false }

/-- The MAF at start-up: no entry valid. -/
def mafInit : MafTable := fun _ => mafEmptyEntry

/-- Assignment `maf[ii] = e`. -/
def mafSet (maf : MafTable) (ii : Nat) (e : AXP_21264_CBOX_MAF) : MafTable :=
  fun jj => if jj = ii then e else maf jj

/-- Number of valid entries. -/
def mafValidCount (maf : MafTable) : Nat :=
  (List.range AXP_21264_MAF_LEN).countP (fun ii => (maf ii).valid)

/-- The error classes of the spec that the buffer operations report. -/
inductive CboxError where
  | ResourceExhausted
  | InvalidRequest
  deriving DecidableEq, Repr

/-- A request to the MAF: allocate / complete / free. -/
inductive MafOp where
  | allocate (type : AXP_CBOX_MAF_TYPE) (pa mask : Nat) (refs : List Int)
  | complete (handle : Nat)
  | free (handle : Nat)
  deriving DecidableEq, Repr

/-- What a MAF request reports: the handle of the allocated slot, plain success, or an
error. -/
inductive MafResult where
  | handle (ii : Nat)
  | done
  | rejected (e : CboxError)
  deriving DecidableEq, Repr

/-- Modelled from the spec: `allocateMiss(address, type, mask, refs)` of the coherence
controller (AXP_21264_Cbox.c, not among the sources): "fails with ResourceExhausted if
all 8 slots are occupied; fails with InvalidRequest if address is misaligned for
`type`"; otherwise a slot that is not valid becomes the new entry, valid and not
complete.  `aligned` is the alignment rule, which the spec leaves open. -/
def mafAllocate (aligned : AXP_CBOX_MAF_TYPE → Nat → Bool) (maf : MafTable)
    (type : AXP_CBOX_MAF_TYPE) (pa mask : Nat) (refs : List Int) : MafTable × MafResult :=
  if aligned type pa = false then (maf, .rejected .InvalidRequest)
  else
    match (List.range AXP_21264_MAF_LEN).find? (fun ii => !(maf ii).valid) with
    | none => (maf, .rejected .ResourceExhausted)
    | some ii =>
      (mafSet maf ii
        { type := type, pa := pa, mask := mask, lqSqEntry := refs, dataLen := 0,
          bufLen := 0, valid := true, complete := false, shared := false,
          ioReq := false },
       .handle ii)

/-- Modelled from the spec: `drainCompletion(handle)` on a MAF entry (AXP_21264_Cbox.c,
not among the sources): "sets `complete`", and "`complete` transitions false→true
exactly once"; a handle that names no in-flight entry is rejected. -/
def mafComplete (maf : MafTable) (handle : Nat) : MafTable × MafResult :=
  if handle < AXP_21264_MAF_LEN ∧ (maf handle).valid = true ∧ (maf handle).complete = false
  then (mafSet maf handle { maf handle with complete := true }, .done)
  else (maf, .rejected .InvalidRequest)

/-- Modelled from the spec: the last step of the entry lifecycle "completed →
freed(`valid=false`)" (AXP_21264_Cbox.c, not among the sources): "slot is reusable only
after the pipeline consumes completion", so only a valid, complete entry is freed. -/
def mafFree (maf : MafTable) (handle : Nat) : MafTable × MafResult :=
  if handle < AXP_21264_MAF_LEN ∧ (maf handle).valid = true ∧ (maf handle).complete = true
  then (mafSet maf handle { maf handle with valid := false }, .done)
  else (maf, .rejected .InvalidRequest)

/-- One MAF request. -/
def mafStep (aligned : AXP_CBOX_MAF_TYPE → Nat → Bool) (maf : MafTable) :
    MafOp → MafTable × MafResult
  | .allocate type pa mask refs => mafAllocate aligned maf type pa mask refs
  | .complete handle => mafComplete maf handle
  | .free handle => mafFree maf handle

/-- The MAF after a sequence of requests. -/
def mafExec (aligned : AXP_CBOX_MAF_TYPE → Nat → Bool) (maf : MafTable)
    (ops : List MafOp) : MafTable :=
  ops.foldl (fun m op => (mafStep aligned m op).1) maf

/-- The structure `AXP_21264_CBOX_IOWB`, one entry of the I/O write buffer. -/
structure AXP_21264_CBOX_IOWB where
  sysData : List Nat
  pa : Nat
  bufLen : Int
  processed : Bool
  valid : Bool
  mask : Nat
  storeLen : Nat
  lqSqEntry : List Int
  deriving DecidableEq, Repr

/-- The IOWB of a CPU: the entry of each slot; only the slots below the number of
entries of the buffer exist (that number is a parameter `len` of the operations: neither
the header nor the spec states it). -/
abbrev IowbTable := Nat → AXP_21264_CBOX_IOWB

/-- The IOWB at start-up: no entry valid. -/
def iowbInit : IowbTable := fun _ =>
  { sysData := [], pa := 0, bufLen := 0, processed := false, valid := false, mask := 0,
    storeLen := 0, lqSqEntry := [] }

/-- Assignment `iowb[ii] = e`. -/
def iowbSet (iowb : IowbTable) (ii : Nat) (e : AXP_21264_CBOX_IOWB) : IowbTable :=
  fun jj => if jj = ii then e else iowb jj

/-- An I/O store presented to the IOWB. -/
structure IoWrite where
  pa : Nat
  mask : Nat
  storeLen : Nat
  refs : List Int
  deriving DecidableEq, Repr

/-- Index of the 64-byte-aligned block that contains a physical address. -/
def blockOf (pa : Nat) : Nat := pa / AXP_BCACHE_BLOCK_SIZE

/-- The bytes of the store lie inside one 64-byte-aligned block. -/
def IoWrite.inOneBlock (w : IoWrite) : Bool :=
  decide (w.pa % AXP_BCACHE_BLOCK_SIZE + w.storeLen ≤ AXP_BCACHE_BLOCK_SIZE)

/-- Modelled from the spec: the merge rule of the IOWB, "a new write merges into an
existing unprocessed entry only if store lengths match and the combined address range
stays within one 64-byte block". -/
def iowbMergeable (e : AXP_21264_CBOX_IOWB) (w : IoWrite) : Bool :=
  e.valid && !e.processed && decide (e.storeLen = w.storeLen) &&
    decide (blockOf e.pa = blockOf w.pa)

/-- What an I/O write reports: merged into a slot, a new slot allocated, or an error. -/
inductive IowbResult where
  | merged (ii : Nat)
  | allocated (ii : Nat)
  | rejected (e : CboxError)
  deriving DecidableEq, Repr

/-- Modelled from the spec: `allocateIOWrite(address, data, mask, storeLength, refs)`
of the coherence controller (AXP_21264_Cbox.c, not among the sources): it "attempts a
merge (see §3 invariant) before allocating a new entry; fails with ResourceExhausted if
neither is possible"; a store "spanning a block boundary" is an InvalidRequest,
"rejected before any state mutation".  A merge ORs the lane mask of the store into the
entry; a new entry takes address, mask and store length of the store. -/
def iowbWrite (len : Nat) (iowb : IowbTable) (w : IoWrite) : IowbTable × IowbResult :=
  if w.inOneBlock = false then (iowb, .rejected .InvalidRequest)
  else
    match (List.range len).find? (fun ii => iowbMergeable (iowb ii) w) with
    | some ii =>
      (iowbSet iowb ii { iowb ii with mask := (iowb ii).mask ||| w.mask }, .merged ii)
    | none =>
      match (List.range len).find? (fun ii => !(iowb ii).valid) with
      | some ii =>
        (iowbSet iowb ii
          { sysData := [], pa := w.pa, bufLen := w.storeLen, processed := false,
            valid := true, mask := w.mask, storeLen := w.storeLen, lqSqEntry := w.refs },
         .allocated ii)
      | none => (iowb, .rejected .ResourceExhausted)

/-! ### Floating-point helpers (`AXP_21264_Fbox_FPFunctions.c`) -/

/-- Store into an unsigned bit-field of `w` bits: the value is reduced modulo `2^w`. -/
def bitField (w : Nat) (v : Int) : Nat :=
  (v % (2 : Int) ^ w).toNat

/-- The structure `AXP_FPR_REGISTER`, the fields of a 64-bit floating-point register:
sign (1 bit), exponent (11 bits), fraction (52 bits). -/
structure AXP_FPR_REGISTER where
  sign : Nat
  exponent : Nat
  fraction : Nat
  deriving DecidableEq, Repr

/-- The union `AXP_FP_REGISTER`: several views of the same 64 bits.  The record is the
view `fpr`; the views `fpr32` and `fprQ` share its sign and exponent and split its
fraction. -/
abbrev AXP_FP_REGISTER := AXP_FPR_REGISTER

/-- The field `fpr32.fraction`: the high 23 bits of the 52-bit fraction. -/
def AXP_FP_REGISTER.fpr32_fraction (r : AXP_FP_REGISTER) : Nat :=
  (r.fraction / 2 ^ 29) % 2 ^ 23

/-- The field `fpr32.zero`: the low 29 bits of the 52-bit fraction. -/
def AXP_FP_REGISTER.fpr32_zero (r : AXP_FP_REGISTER) : Nat :=
  r.fraction % 2 ^ 29

/-- The field `fprQ.quiet`: the most significant bit of the 52-bit fraction. -/
def AXP_FP_REGISTER.fprQ_quiet (r : AXP_FP_REGISTER) : Nat :=
  (r.fraction / 2 ^ 51) % 2

/-- A register written through the view `fpr32`: all four bit-fields assigned. -/
def AXP_FP_REGISTER.ofFpr32 (sign exponent fraction zero : Int) : AXP_FP_REGISTER :=
  { sign := bitField 1 sign, exponent := bitField 11 exponent,
    fraction := bitField 23 fraction * 2 ^ 29 + bitField 29 zero }

/-- The structure `AXP_S_MEMORY`, the fields of a 32-bit IEEE S value (a C `float`):
sign (1 bit), exponent (8 bits), fraction (23 bits). -/
structure AXP_S_MEMORY where
  sign : Nat
  exponent : Nat
  fraction : Nat
  deriving DecidableEq, Repr

/-- The structure `AXP_X_MEMORY`, the fields of a 128-bit IEEE X value (a C
`long double`) that the conversions use: sign, exponent (15 bits), the fraction bits
kept by a G value, and the remaining low bits `zero`. -/
structure AXP_X_MEMORY where
  sign : Nat
  exponent : Nat
  fraction : Nat
  zero : Nat
  deriving DecidableEq, Repr

/-- The enumeration `AXP_FP_ENCODING`, the classes `AXP_FP_ENCODE` tells apart. -/
inductive AXP_FP_ENCODING where
  | Reserved
  | Zero
  | Finite
  | Denormal
  | Infinity
  | NotANumber
  | DirtyZero
  deriving DecidableEq, Repr

/-- The structure `AXP_FP_FUNC` (`AXP_21264_Fbox.h`): the function field of an FP
operate instruction, `fnc` (4 bits), `src` (2), `rnd` (2), `trp` (3), `res` (21). -/
structure AXP_FP_FUNC where
  fnc : Nat
  src : Nat
  rnd : Nat
  trp : Nat
  res : Nat
  deriving DecidableEq, Repr

/-- The fields of the floating-point control register that the helpers read
(`cpu->fpcr`) or write (`instr->insFpcr`). -/
structure AXP_FBOX_FPCR where
  dyn : Nat
  dzed : Nat
  ined : Nat
  invd : Nat
  ovfd : Nat
  unfd : Nat
  dze : Nat
  inv : Nat
  ovf : Nat
  iov : Nat
  ine : Nat
  unf : Nat
  sum : Nat
  deriving DecidableEq, Repr

/-- Constants and macros that the floating-point helpers take from
`AXP_21264_Fbox_FPFunctions.h` and `AXP_Base_CPU.h`, headers that are not among the
sources.  The two exponent macros and `AXP_FP_ENCODE` are given the fields of their
operand. -/
structure FpHeader where
  AXP_S_NAN : Nat
  AXP_T_NAN : Nat
  AXP_S_BIAS : Nat
  AXP_T_BIAS : Nat
  AXP_X_BIAS : Nat
  /-- Value of `AXP_FP_CVT_EXP_X2G(fp)` from sign, exponent and fraction of `fp`. -/
  AXP_FP_CVT_EXP_X2G : Nat → Nat → Nat → Int
  /-- Value of `AXP_FP_CVT_EXP_G2X(fp)` from sign, exponent and fraction of `fp`. -/
  AXP_FP_CVT_EXP_G2X : Nat → Nat → Nat → Int
  /-- Value of `AXP_FP_ENCODE(&r, ieee)`. -/
  AXP_FP_ENCODE : AXP_FPR_REGISTER → Bool → AXP_FP_ENCODING
  AXP_FP_CHOPPED : Nat
  AXP_FP_MINUS_INF : Nat
  AXP_FP_NORMAL : Nat
  AXP_FP_DYNAMIC : Nat
  AXP_FP_PLUS_INF : Nat
  AXP_FP_TRP_I : Nat
  AXP_FP_TRP_U : Nat
  AXP_FP_TRP_S : Nat
  AXP_EXC_SW_COMPL : Nat
  AXP_EXC_INV_OPER : Nat
  AXP_EXC_DIV_BY_ZERO : Nat
  AXP_EXC_FP_OVERFLOW : Nat
  AXP_EXC_UNDERFLOW : Nat
  AXP_EXC_INEXACT_RES : Nat
  AXP_EXC_INT_OVERFLOW : Nat

/-- The exponent constants have the values of the IEEE S and T formats: all-ones
exponents 0xff and 0x7ff, biases 0x7f and 0x3ff. -/
def FpHeader.IEEE (h : FpHeader) : Prop :=
  h.AXP_S_NAN = 0xff ∧ h.AXP_T_NAN = 0x7ff ∧ h.AXP_S_BIAS = 0x7f ∧ h.AXP_T_BIAS = 0x3ff

/-- The macros of the C header `fenv.h` that the helpers use. -/
structure FenvConsts where
  FE_DIVBYZERO : Nat
  FE_INEXACT : Nat
  FE_INVALID : Nat
  FE_OVERFLOW : Nat
  FE_UNDERFLOW : Nat
  FE_TONEAREST : Int
  FE_DOWNWARD : Int
  FE_UPWARD : Int
  FE_TOWARDZERO : Int

/-- The floating-point environment of the host thread: rounding direction and the set
of enabled (trapping) exceptions. -/
structure FenvState where
  rounding : Int
  enabled : Nat
  deriving DecidableEq, Repr

/-- The rounding directions `fesetround` accepts. -/
def FenvConsts.roundingModes (fe : FenvConsts) : List Int :=
  [fe.FE_TONEAREST, fe.FE_DOWNWARD, fe.FE_UPWARD, fe.FE_TOWARDZERO]

/-- The C library routine `fegetround`. -/
def fegetround (st : FenvState) : Int :=
  st.rounding

/-- The C library routine `fesetround`: a rounding-direction macro is installed and 0
returned; for any other argument the direction is unchanged and the result non-zero. -/
def fesetround (fe : FenvConsts) (round : Int) (st : FenvState) : Int × FenvState :=
  if round ∈ fe.roundingModes then (0, { st with rounding := round }) else (1, st)

/-- The function `AXP_FP_CvtFPRToFloat`; the `float` it returns is given by its
`AXP_S_MEMORY` fields. -/
def AXP_FP_CvtFPRToFloat (fpr : AXP_FP_REGISTER) : AXP_S_MEMORY :=
  { sign := bitField 1 fpr.sign,
    exponent := bitField 8
      ((((fpr.exponent &&& 0x400) >>> 3) ||| (fpr.exponent &&& 0x07f) : Nat) : Int),
    fraction := bitField 23 fpr.fpr32_fraction }

/-- The function `AXP_FP_CvtFloatToFPR`; the `float` it is given is described by its
`AXP_S_MEMORY` fields. -/
def AXP_FP_CvtFloatToFPR (h : FpHeader) (real32 : AXP_S_MEMORY) : AXP_FP_REGISTER :=
  let exponent : Int :=
    if real32.exponent = h.AXP_S_NAN then h.AXP_T_NAN
    else if real32.exponent = 0 then 0
    else (real32.exponent : Int) + h.AXP_T_BIAS - h.AXP_S_BIAS
  AXP_FP_REGISTER.ofFpr32 real32.sign exponent real32.fraction 0

/-- The function `AXP_FP_CvtG2X`: the values left in `*xSrc1` and `*xSrc2`
(`xSrc2` is the old content of `*xSrc2`, kept when `src2` is NULL). -/
def AXP_FP_CvtG2X (h : FpHeader) (src1 : AXP_FPR_REGISTER) (src2 : Option AXP_FPR_REGISTER)
    (xSrc2 : AXP_X_MEMORY) : AXP_X_MEMORY × AXP_X_MEMORY :=
  ({ sign := bitField 1 src1.sign,
     exponent := bitField 15 (h.AXP_FP_CVT_EXP_G2X src1.sign src1.exponent src1.fraction),
     fraction := bitField 52 src1.fraction, zero := 0 },
   match src2 with
   | some s2 =>
     { sign := bitField 1 s2.sign,
       exponent := bitField 15 (h.AXP_FP_CVT_EXP_G2X s2.sign s2.exponent s2.fraction),
       fraction := bitField 52 s2.fraction, zero := 0 }
   | none => xSrc2)

/-- The function `AXP_FP_CvtX2G`: the values left in `*gSrc1` and `*gSrc2`
(`gSrc2` is the old content of `*gSrc2`, kept when `src2` is NULL).  The exponent of
the second operand goes through `AXP_FP_CVT_EXP_G2X` (line 222). -/
def AXP_FP_CvtX2G (h : FpHeader) (src1 : AXP_X_MEMORY) (src2 : Option AXP_X_MEMORY)
    (gSrc2 : AXP_FPR_REGISTER) : AXP_FPR_REGISTER × AXP_FPR_REGISTER :=
  ({ sign := bitField 1 src1.sign,
     exponent := bitField 11 (h.AXP_FP_CVT_EXP_X2G src1.sign src1.exponent src1.fraction),
     fraction := bitField 52 src1.fraction },
   match src2 with
   | some s2 =>
     { sign := bitField 1 s2.sign,
       exponent := bitField 11 (h.AXP_FP_CVT_EXP_G2X s2.sign s2.exponent s2.fraction),
       fraction := bitField 52 s2.fraction }
   | none => gSrc2)

/-- The function `AXP_FP_CvtX2GOverUnderflow`: return value and the value left in
`*gSrc1`.  `retVal` is what the local `int retVal;`, declared without initialiser,
holds on entry. -/
def AXP_FP_CvtX2GOverUnderflow (h : FpHeader) (fe : FenvConsts) (retVal : Int)
    (src1 : AXP_X_MEMORY) : Int × AXP_FPR_REGISTER :=
  let gSrc1 : AXP_FPR_REGISTER :=
    { sign := bitField 1 src1.sign,
      exponent := bitField 11 (h.AXP_FP_CVT_EXP_X2G src1.sign src1.exponent src1.fraction),
      fraction := bitField 52 src1.fraction }
  if (src1.exponent : Int) - h.AXP_X_BIAS > h.AXP_S_BIAS then (fe.FE_OVERFLOW, gSrc1)
  else
    match h.AXP_FP_ENCODE gSrc1 false with
    | .DirtyZero => (fe.FE_UNDERFLOW, gSrc1)
    | .Reserved => (fe.FE_UNDERFLOW, gSrc1)
    | .Finite => (retVal, gSrc1)
    | .Zero => (retVal, gSrc1)
    | .Denormal => (retVal, gSrc1)
    | .Infinity => (retVal, gSrc1)
    | .NotANumber => (retVal, gSrc1)

/-- Outcome of `AXP_FP_SetRoundingMode`: return value, environment afterwards, and
whether the "Internal error" line was printed. -/
structure RoundingOutcome where
  ret : Int
  env : FenvState
  complained : Bool
  deriving DecidableEq, Repr

/-- The function `AXP_FP_SetRoundingMode`.  `cpu` is `none` for a NULL pointer and
otherwise the `fpcr` of the CPU; `newRoundingMode` is what the local of that name,
declared without initialiser, holds on entry (it survives when no `case` matches). -/
def AXP_FP_SetRoundingMode (h : FpHeader) (fe : FenvConsts) (cpu : Option AXP_FBOX_FPCR)
    (func : AXP_FP_FUNC) (resetRoundingMode : Int) (newRoundingMode : Int)
    (st : FenvState) : RoundingOutcome :=
  let savedRoundingMode := fegetround st
  let newRoundingMode : Int :=
    match cpu with
    | some fpcr =>
      if func.rnd = h.AXP_FP_CHOPPED then fe.FE_TOWARDZERO
      else if func.rnd = h.AXP_FP_MINUS_INF then fe.FE_DOWNWARD
      else if func.rnd = h.AXP_FP_NORMAL then fe.FE_TONEAREST
      else if func.rnd = h.AXP_FP_DYNAMIC then
        if fpcr.dyn = h.AXP_FP_CHOPPED then fe.FE_TOWARDZERO
        else if fpcr.dyn = h.AXP_FP_MINUS_INF then fe.FE_DOWNWARD
        else if fpcr.dyn = h.AXP_FP_NORMAL then fe.FE_TONEAREST
        else if fpcr.dyn = h.AXP_FP_PLUS_INF then fe.FE_UPWARD
        else newRoundingMode
      else newRoundingMode
    | none => resetRoundingMode
  let r := fesetround fe newRoundingMode st
  { ret := savedRoundingMode, env := r.2, complained := decide (r.1 ≠ 0) }

/-- The function `AXP_FP_SetExcSum`: the mask passed to `AXP_SetException`, or `none`
when that routine is not called. -/
def AXP_FP_SetExcSum (h : FpHeader) (fe : FenvConsts) (func : AXP_FP_FUNC) (raised : Nat)
    (integerOverflow : Bool) : Option Nat :=
  let e0 : Nat := 0
  let e1 := if raised &&& fe.FE_DIVBYZERO ≠ 0 then e0 ||| h.AXP_EXC_DIV_BY_ZERO else e0
  let e2 := if raised &&& fe.FE_INVALID ≠ 0 then e1 ||| h.AXP_EXC_INV_OPER else e1
  let e3 :=
    if raised &&& fe.FE_OVERFLOW ≠ 0 then
      e2 ||| (if integerOverflow then h.AXP_EXC_INT_OVERFLOW else h.AXP_EXC_FP_OVERFLOW)
    else e2
  let e4 :=
    if raised &&& fe.FE_INEXACT ≠ 0 ∧ func.trp &&& h.AXP_FP_TRP_I ≠ 0 then
      e3 ||| h.AXP_EXC_INEXACT_RES
    else e3
  let e5 :=
    if raised &&& fe.FE_UNDERFLOW ≠ 0 ∧ func.trp &&& h.AXP_FP_TRP_U ≠ 0 then
      e4 ||| h.AXP_EXC_UNDERFLOW
    else e4
  if e5 ≠ 0 then
    some (if func.trp &&& h.AXP_FP_TRP_S ≠ 0 then e5 ||| h.AXP_EXC_SW_COMPL else e5)
  else none

/-- The function `AXP_FP_SetFPCR`: the `insFpcr` of the instruction afterwards and the
mask that `AXP_FP_SetExcSum` passes on.  `func` is the function field of the
instruction. -/
def AXP_FP_SetFPCR (h : FpHeader) (fe : FenvConsts) (func : AXP_FP_FUNC)
    (insFpcr : AXP_FBOX_FPCR) (raised : Nat) (integerOverflow : Bool) :
    AXP_FBOX_FPCR × Option Nat :=
  let s0 : AXP_FBOX_FPCR × Bool := (insFpcr, false)
  let s1 := if raised &&& fe.FE_DIVBYZERO ≠ 0 then ({ s0.1 with dze := 1 }, true) else s0
  let s2 := if raised &&& fe.FE_INVALID ≠ 0 then ({ s1.1 with inv := 1 }, true) else s1
  let s3 :=
    if raised &&& fe.FE_OVERFLOW ≠ 0 then
      ((if integerOverflow then { s2.1 with iov := 1 } else { s2.1 with ovf := 1 }), true)
    else s2
  let s4 :=
    if raised &&& fe.FE_INEXACT ≠ 0 ∧ func.trp &&& h.AXP_FP_TRP_I = 0 then
      ({ s3.1 with ine := 1 }, true)
    else s3
  let s5 :=
    if raised &&& fe.FE_UNDERFLOW ≠ 0 ∧ func.trp &&& h.AXP_FP_TRP_U ≠ 0 then
      ({ s4.1 with unf := 1 }, true)
    else s4
  let fpcr := if s5.2 = true then { s5.1 with sum := 1 } else s5.1
  (fpcr, AXP_FP_SetExcSum h fe func raised integerOverflow)

/-- The function `AXP_FP_CheckForIEEEInvalid`.  `src2` is `none` for a NULL pointer;
the result is `none` when the function reads through a NULL pointer.  Line 667 hands
`&src2->fpr` to `AXP_FP_ENCODE`, which reads the register it points to. -/
def AXP_FP_CheckForIEEEInvalid (h : FpHeader) (src1 : AXP_FP_REGISTER)
    (src2 : Option AXP_FP_REGISTER) : Option Bool := do
  let src1Enc := h.AXP_FP_ENCODE src1 true
  let s2 ← src2
  let src2Enc := h.AXP_FP_ENCODE s2 true
  if src1Enc = .Infinity ∧ src2Enc = .Infinity then
    if src1.sign ≠ s2.sign then pure true else pure false
  else if src1Enc = .NotANumber ∧ src1.fprQ_quiet = 0 then pure true
  else if src2Enc = .NotANumber ∧ s2.fprQ_quiet = 0 then pure true
  else pure false

/-! ### Example values for the absent headers -/

/-- A classification of register contents in the manner of `AXP_FP_ENCODE`: by
exponent, fraction and sign, for IEEE (`ieee = true`) and VAX (`ieee = false`)
values. -/
def exampleEncode (r : AXP_FPR_REGISTER) (ieee : Bool) : AXP_FP_ENCODING :=
  if ieee then
    if r.exponent = 0x7ff then (if r.fraction = 0 then .Infinity else .NotANumber)
    else if r.exponent = 0 then (if r.fraction = 0 then .Zero else .Denormal)
    else .Finite
  else
    if r.exponent = 0 then
      (if r.sign = 0 then (if r.fraction = 0 then .Zero else .DirtyZero) else .Reserved)
    else .Finite

/-- Example header values: the IEEE and VAX exponent constants, exponent macros that
shift by the difference of the two biases (G bias 0x400, X bias 0x3fff), the rounding
and trap-qualifier encodings of the Alpha function field, and one bit per exception
summary flag. -/
def exampleFpHeader : FpHeader :=
  { AXP_S_NAN := 0xff, AXP_T_NAN := 0x7ff, AXP_S_BIAS := 0x7f, AXP_T_BIAS := 0x3ff,
    AXP_X_BIAS := 0x3fff,
    AXP_FP_CVT_EXP_X2G := fun _ e _ => if e = 0 then 0 else (e : Int) - 0x3fff + 0x400,
    AXP_FP_CVT_EXP_G2X := fun _ e _ => if e = 0 then 0 else (e : Int) - 0x400 + 0x3fff,
    AXP_FP_ENCODE := exampleEncode,
    AXP_FP_CHOPPED := 0, AXP_FP_MINUS_INF := 1, AXP_FP_NORMAL := 2, AXP_FP_DYNAMIC := 3,
    AXP_FP_PLUS_INF := 3,
    AXP_FP_TRP_I := 2, AXP_FP_TRP_U := 1, AXP_FP_TRP_S := 4,
    AXP_EXC_SW_COMPL := 1, AXP_EXC_INV_OPER := 2, AXP_EXC_DIV_BY_ZERO := 4,
    AXP_EXC_FP_OVERFLOW := 8, AXP_EXC_UNDERFLOW := 16, AXP_EXC_INEXACT_RES := 32,
    AXP_EXC_INT_OVERFLOW := 64 }

/-- The values `fenv.h` gives its macros on x86-64 with glibc. -/
def exampleFenv : FenvConsts :=
  { FE_DIVBYZERO := 0x04, FE_INEXACT := 0x20, FE_INVALID := 0x01, FE_OVERFLOW := 0x08,
    FE_UNDERFLOW := 0x10, FE_TONEAREST := 0, FE_DOWNWARD := 0x400, FE_UPWARD := 0x800,
    FE_TOWARDZERO := 0xc00 }

/-- The IEEE X value 1.0: sign 0, exponent equal to the bias, fraction 0. -/
def xOne : AXP_X_MEMORY :=
  { sign := 0, exponent := 0x3fff, fraction := 0, zero := 0 }

/-- The IEEE T value 1.0 in a register. -/
def tOne : AXP_FP_REGISTER :=
  { sign := 0, exponent := 0x3ff, fraction := 0 }

/-- An instruction status image with every bit clear. -/
def fpcrZero : AXP_FBOX_FPCR :=
  { dyn := 0, dzed := 0, ined := 0, invd := 0, ovfd := 0, unfd := 0, dze := 0, inv := 0,
    ovf := 0, iov := 0, ine := 0, unf := 0, sum := 0 }

/-! ### Exception mode (`AXP_FP_SetExceptionMode`) -/

/-- The macro `FE_ALL_EXCEPT` of `fenv.h`: the bitwise OR of the exception macros. -/
def FenvConsts.allExcept (fe : FenvConsts) : Nat :=
  fe.FE_DIVBYZERO ||| fe.FE_INEXACT ||| fe.FE_INVALID ||| fe.FE_OVERFLOW |||
    fe.FE_UNDERFLOW

/-- The C library routine `fegetexcept` (glibc): the set of enabled exceptions. -/
def fegetexcept (st : FenvState) : Nat :=
  st.enabled

/-- The C library routine `feenableexcept` (glibc): the supported exceptions among
`excepts` become enabled. -/
def feenableexcept (fe : FenvConsts) (excepts : Nat) (st : FenvState) : FenvState :=
  { st with enabled := st.enabled ||| (excepts &&& fe.allExcept) }

/-- The C library routine `fedisableexcept` (glibc): the supported exceptions among
`excepts` become disabled (those bits of the enabled set are cleared). -/
def fedisableexcept (fe : FenvConsts) (excepts : Nat) (st : FenvState) : FenvState :=
  { st with enabled := st.enabled ^^^ (st.enabled &&& (excepts &&& fe.allExcept)) }

/-- The local `exceptionBits` of `AXP_FP_SetExceptionMode` after lines 430-439. -/
def exceptionBitsOf (fe : FenvConsts) (fpcr : AXP_FBOX_FPCR) : Nat :=
  let b0 : Nat := 0
  let b1 := if fpcr.dzed = 1 then b0 ||| fe.FE_DIVBYZERO else b0
  let b2 := if fpcr.ined = 1 then b1 ||| fe.FE_INEXACT else b1
  let b3 := if fpcr.invd = 1 then b2 ||| fe.FE_INVALID else b2
  let b4 := if fpcr.ovfd = 1 then b3 ||| fe.FE_OVERFLOW else b3
  if fpcr.unfd = 1 then b4 ||| fe.FE_UNDERFLOW else b4

/-- The function `AXP_FP_SetExceptionMode`: return value and environment afterwards.
`cpu` is `none` for a NULL pointer and otherwise the `fpcr` of the CPU. -/
def AXP_FP_SetExceptionMode (fe : FenvConsts) (cpu : Option AXP_FBOX_FPCR)
    (resetExceptionMode : Nat) (st : FenvState) : Nat × FenvState :=
  let retVal := fegetexcept st
  match cpu with
  | some fpcr =>
    let exceptionBits := exceptionBitsOf fe fpcr
    if exceptionBits ≠ 0 then (retVal, fedisableexcept fe exceptionBits st)
    else (0, st)
  | none =>
    if resetExceptionMode ≠ 0 then (retVal, feenableexcept fe resetExceptionMode st)
    else (retVal, st)

/-- The five exception macros of `fenv.h` are non-zero, as the C standard requires. -/
def FenvConsts.FlagsNonzero (fe : FenvConsts) : Prop :=
  fe.FE_DIVBYZERO ≠ 0 ∧ fe.FE_INEXACT ≠ 0 ∧ fe.FE_INVALID ≠ 0 ∧ fe.FE_OVERFLOW ≠ 0 ∧
    fe.FE_UNDERFLOW ≠ 0

/-- At least one of the FPCR disable bits `dzed`, `ined`, `invd`, `ovfd`, `unfd` is 1. -/
def AXP_FBOX_FPCR.anyDisabled (fpcr : AXP_FBOX_FPCR) : Bool :=
  decide (fpcr.dzed = 1) || decide (fpcr.ined = 1) || decide (fpcr.invd = 1) ||
    decide (fpcr.ovfd = 1) || decide (fpcr.unfd = 1)

/-! ### Branch prediction (`AXP_21264_Ibox_Prediction.c`) -/

/-- Constants and macros that the branch predictor takes from
`AXP_21264_Ibox_Prediction.h`, `AXP_21264_Predictions.h` and `AXP_Base_CPU.h`, headers
that are not among the sources.  A macro that updates a counter or a history in place
is given as the function from the old to the new value. -/
structure PredHeader where
  AXP_I_CTL_BP_MODE_FALL : Nat
  AXP_I_CTL_BP_MODE_CHOICE : Nat
  /-- The field `index.index` of the union `LPTIndex` laid over a VPC ("bits 2-11 of
  the VPC"). -/
  lptIndex : Nat → Nat
  AXP_3BIT_TAKE : Nat → Bool
  AXP_2BIT_TAKE : Nat → Bool
  AXP_3BIT_INCR : Nat → Nat
  AXP_3BIT_DECR : Nat → Nat
  AXP_2BIT_INCR : Nat → Nat
  AXP_2BIT_DECR : Nat → Nat
  AXP_LOCAL_PATH_TAKEN : Nat → Nat
  AXP_LOCAL_PATH_NOT_TAKEN : Nat → Nat
  AXP_GLOBAL_PATH_TAKEN : Nat → Nat
  AXP_GLOBAL_PATH_NOT_TAKEN : Nat → Nat

/-- The fields of `AXP_21264_CPU` that the branch predictor uses: `iCtl.bp_mode`, the
four tables and the global path history. -/
structure PredictorState where
  bp_mode : Nat
  lcl_history : Nat → Nat
  lcl_pred : Nat → Nat
  gbl_pred : Nat → Nat
  choice_pred : Nat → Nat
  globalPathHistory : Nat

/-- What `AXP_Branch_Prediction` returns and stores through its three pointers. -/
structure Prediction where
  retVal : Bool
  localTaken : Bool
  globalTaken : Bool
  choice : Bool
  deriving DecidableEq, Repr

/-- Assignment `table[ii] = v`. -/
def tableSet (table : Nat → Nat) (ii : Nat) (v : Nat) : Nat → Nat :=
  fun jj => if jj = ii then v else table jj

/-- The function `AXP_Branch_Prediction` (the trace output is left out). -/
def AXP_Branch_Prediction (p : PredHeader) (cpu : PredictorState) (vpc : Nat) :
    Prediction :=
  if cpu.bp_mode &&& p.AXP_I_CTL_BP_MODE_FALL ≠ p.AXP_I_CTL_BP_MODE_FALL then
    let lcl_history_idx := p.lptIndex vpc
    let lcl_predictor_idx := cpu.lcl_history lcl_history_idx
    let localTaken := p.AXP_3BIT_TAKE (cpu.lcl_pred lcl_predictor_idx)
    let globalTaken :=
      if cpu.bp_mode = p.AXP_I_CTL_BP_MODE_CHOICE then
        p.AXP_2BIT_TAKE (cpu.gbl_pred cpu.globalPathHistory)
      else false
    let choice :=
      if cpu.bp_mode = p.AXP_I_CTL_BP_MODE_CHOICE then
        p.AXP_2BIT_TAKE (cpu.choice_pred cpu.globalPathHistory)
      else false
    let retVal :=
      if localTaken ≠ globalTaken then (if choice = true then globalTaken else localTaken)
      else localTaken
    { retVal := retVal, localTaken := localTaken, globalTaken := globalTaken,
      choice := choice }
  else
    { retVal := false, localTaken := false, globalTaken := false, choice := false }

/-- The function `AXP_Branch_Direction` (the trace output is left out): the predictor
state after the branch at `vpc` retired with outcome `taken`. -/
def AXP_Branch_Direction (p : PredHeader) (cpu : PredictorState) (vpc : Nat)
    (taken localTaken globalTaken : Bool) : PredictorState :=
  let lcl_history_idx := p.lptIndex vpc
  let lcl_predictor_idx := cpu.lcl_history lcl_history_idx
  let cpu1 : PredictorState :=
    if taken = localTaken ∧ taken ≠ globalTaken then
      { cpu with
        choice_pred := tableSet cpu.choice_pred cpu.globalPathHistory
          (p.AXP_2BIT_DECR (cpu.choice_pred cpu.globalPathHistory)) }
    else if taken ≠ localTaken ∧ taken = globalTaken then
      { cpu with
        choice_pred := tableSet cpu.choice_pred cpu.globalPathHistory
          (p.AXP_2BIT_INCR (cpu.choice_pred cpu.globalPathHistory)) }
    else cpu
  if taken = true then
    { cpu1 with
      lcl_pred := tableSet cpu1.lcl_pred lcl_predictor_idx
        (p.AXP_3BIT_INCR (cpu1.lcl_pred lcl_predictor_idx)),
      gbl_pred := tableSet cpu1.gbl_pred cpu1.globalPathHistory
        (p.AXP_2BIT_INCR (cpu1.gbl_pred cpu1.globalPathHistory)),
      lcl_history := tableSet cpu1.lcl_history lcl_history_idx
        (p.AXP_LOCAL_PATH_TAKEN (cpu1.lcl_history lcl_history_idx)),
      globalPathHistory := p.AXP_GLOBAL_PATH_TAKEN cpu1.globalPathHistory }
  else
    { cpu1 with
      lcl_pred := tableSet cpu1.lcl_pred lcl_predictor_idx
        (p.AXP_3BIT_DECR (cpu1.lcl_pred lcl_predictor_idx)),
      gbl_pred := tableSet cpu1.gbl_pred cpu1.globalPathHistory
        (p.AXP_2BIT_DECR (cpu1.gbl_pred cpu1.globalPathHistory)),
      lcl_history := tableSet cpu1.lcl_history lcl_history_idx
        (p.AXP_LOCAL_PATH_NOT_TAKEN (cpu1.lcl_history lcl_history_idx)),
      globalPathHistory := p.AXP_GLOBAL_PATH_NOT_TAKEN cpu1.globalPathHistory }

/-- Example header values: BP_MODE encodings 1x / 00 of the I_CTL register, the index
from bits 2-11 of the VPC, saturating 3-bit and 2-bit counters that predict taken in
their upper half, and histories that shift in the outcome (10 and 12 bits). -/
def examplePredHeader : PredHeader :=
  { AXP_I_CTL_BP_MODE_FALL := 2, AXP_I_CTL_BP_MODE_CHOICE := 0,
    lptIndex := fun vpc => (vpc >>> 2) % 1024,
    AXP_3BIT_TAKE := fun c => decide (4 ≤ c), AXP_2BIT_TAKE := fun c => decide (2 ≤ c),
    AXP_3BIT_INCR := fun c => if c < 7 then c + 1 else c,
    AXP_3BIT_DECR := fun c => if 0 < c then c - 1 else c,
    AXP_2BIT_INCR := fun c => if c < 3 then c + 1 else c,
    AXP_2BIT_DECR := fun c => if 0 < c then c - 1 else c,
    AXP_LOCAL_PATH_TAKEN := fun l => (l * 2 + 1) % 1024,
    AXP_LOCAL_PATH_NOT_TAKEN := fun l => (l * 2) % 1024,
    AXP_GLOBAL_PATH_TAKEN := fun g => (g * 2 + 1) % 4096,
    AXP_GLOBAL_PATH_NOT_TAKEN := fun g => (g * 2) % 4096 }

/-- An example predictor state: every local counter at 5 (taken), every global counter
at 1 (not taken), every choice counter at 2 (select global), empty histories. -/
def examplePredictorState (bp_mode : Nat) : PredictorState :=
  { bp_mode := bp_mode, lcl_history := fun _ => 0, lcl_pred := fun _ => 5,
    gbl_pred := fun _ => 1, choice_pred := fun _ => 2, globalPathHistory := 0 }

/-! ### The Cbox CSR bit-fields (`AXP_21264_CBOX_CSRS`) -/

/-- The bit-field members of the structure `AXP_21264_CBOX_CSRS` in declaration order:
name, width in bits of the declared type (`u64` or `u32`), and width of the field. -/
def cboxCsrBitFields : List (String × Nat × Nat) :=
  [("BcBankEnable", 64, 1), ("BcBurstModeEnable", 64, 1), ("BcCleanVictim", 64, 1),
   ("BcClkfwdEnable", 64, 1), ("BcClockOut", 64, 1), ("BcDdmFallEn", 64, 1),
   ("BcDdmfEnable", 64, 1), ("BcDdmrEnable", 64, 1), ("BcDdmRiseEn", 64, 1), ("BcEnable", 64, 1),
   ("BcFrmClk", 64, 1), ("BcLateWriteUpper", 64, 1), ("BcPentiumMode", 64, 1),
   ("BcRdRdBubble", 64, 1), ("BcRdvictim", 64, 1), ("BcSjBankEnable", 64, 1),
   ("BcTagDdmFallEn", 64, 1), ("BcTagDdmRiseEn", 64, 1), ("BcWrWrBubble", 64, 1),
   ("ThirtyTwoByteIo", 64, 1), ("DupTagEnable", 64, 1), ("EnableEvict", 64, 1),
   ("EnableProbeCheck", 64, 1), ("EnableStcCommand", 64, 1), ("FastModeDisable", 64, 1),
   ("InitMode", 64, 1), ("JitterCmd", 64, 1), ("MboxBcPrbStall", 64, 1), ("PrbTagOnly", 64, 1),
   ("RdvicAckInhibit", 64, 1), ("SkewedFillMode", 64, 1), ("SpecReadEnable", 64, 1),
   ("StcEnable", 64, 1), ("SysbusFormat", 64, 1), ("SysbusMbEnable", 64, 1),
   ("SysClkfwdEnable", 64, 1), ("SysDdmFallEn", 64, 1), ("SysDdmfEnable", 64, 1),
   ("SysDdmrEnable", 64, 1), ("SysDdmRdFallEn", 64, 1), ("SysDdmRdRiseEn", 64, 1),
   ("SysDdmRiseEn", 64, 1), ("BcClkDelay", 64, 2), ("BcCpuClkDelay", 64, 2),
   ("BcCpuLateWriteNum", 64, 2), ("BcRcvMuxCntPreset", 64, 2), ("CfrFrmclkDelay", 64, 2),
   ("DataValidDly", 64, 2), ("InvalToDirty", 64, 2), ("InvalToDirtyEnable", 64, 2),
   ("SysBusSize", 64, 2), ("SysClkDelay", 64, 2), ("res_1", 64, 2), ("SysCpuClkDelay", 64, 2),
   ("SysRcvMuxCntPreset", 64, 2), ("SysRcvMuxPreset", 64, 2), ("BcLateWriteNum", 64, 3),
   ("CfrEv6clkDelay", 64, 3), ("SetDirtyEnable", 64, 3), ("SysbusVicLimit", 64, 3),
   ("BcBphaseLdVector", 64, 4), ("BcSize", 64, 4), ("BcWrRdBubbles", 64, 4), ("BcWrtSts", 64, 4),
   ("CfrGclkDelay", 64, 4), ("MbCnt", 64, 4), ("SysBphaseLdVector", 64, 4), ("SysdcDelay", 64, 4),
   ("SysbusAckLimit", 64, 5), ("SysClkRatio", 64, 5), ("res_2", 64, 4),
   ("SysFrameLdVector", 32, 5), ("BcRdWrBubbles", 32, 6), ("res_3", 32, 21),
   ("BcLatTagPattern", 32, 24), ("res_4", 32, 8)]

/-- A reserved padding member (`res_1` .. `res_4`). -/
def isReservedField (f : String × Nat × Nat) : Bool :=
  decide (f.1 ∈ ["res_1", "res_2", "res_3", "res_4"])

/-- Cut a list of members after every reserved padding member: the groups that the
"Quadword align" / "Longword Align" comments close. -/
def splitAfterReserved : List (String × Nat × Nat) → List (List (String × Nat × Nat))
  | [] => []
  | f :: rest =>
    if isReservedField f then [f] :: splitAfterReserved rest
    else
      match splitAfterReserved rest with
      | [] => [[f]]
      | g :: gs => (f :: g) :: gs

/-- Sum of the field widths of a group of members. -/
def widthSum (g : List (String × Nat × Nat)) : Nat :=
  (g.map fun f => f.2.2).sum

/-- Width of the field `name`, if the structure has such a bit-field. -/
def csrFieldWidth (name : String) : Option Nat :=
  (cboxCsrBitFields.find? fun f => f.1 == name).map fun f => f.2.2

/-! ## Part 2: lemmas -/

/-! ### Traces -/

theorem deallocated_append (a b : List Event) :
    deallocated (a ++ b) = deallocated a ++ deallocated b := by
  simp [deallocated, List.filterMap_append]

theorem allocatedCpus_append (a b : List Event) :
    allocatedCpus (a ++ b) = allocatedCpus a ++ allocatedCpus b := by
  simp [allocatedCpus, List.filterMap_append]

theorem failedCpus_append (a b : List Event) :
    failedCpus (a ++ b) = failedCpus a ++ failedCpus b := by
  simp [failedCpus, List.filterMap_append]

theorem saveCalls_append (a b : List Event) :
    saveCalls (a ++ b) = saveCalls a ++ saveCalls b := by
  simp [saveCalls, List.filterMap_append]

theorem threadsCreated_append (a b : List Event) :
    threadsCreated (a ++ b) = threadsCreated a ++ threadsCreated b := by
  simp [threadsCreated, List.filterMap_append]

theorem mem_failedCpus (tr : List Event) (ii : Nat) :
    ii ∈ failedCpus tr ↔ Event.allocCPU ii false ∈ tr := by
  induction tr with
  | nil => simp [failedCpus]
  | cons e t ih =>
    have hc : failedCpus (e :: t) = failedCpus [e] ++ failedCpus t :=
      failedCpus_append [e] t
    rw [hc, List.mem_append, ih, List.mem_cons]
    cases e <;> simp [failedCpus]
    rename_i jj ok
    cases ok <;> simp [eq_comm]

theorem mem_allocatedCpus (tr : List Event) (ii : Nat) :
    ii ∈ allocatedCpus tr ↔ Event.allocCPU ii true ∈ tr := by
  induction tr with
  | nil => simp [allocatedCpus]
  | cons e t ih =>
    have hc : allocatedCpus (e :: t) = allocatedCpus [e] ++ allocatedCpus t :=
      allocatedCpus_append [e] t
    rw [hc, List.mem_append, ih, List.mem_cons]
    cases e <;> simp [allocatedCpus]
    rename_i jj ok
    cases ok <;> simp [eq_comm]

theorem mem_deallocated (tr : List Event) (b : Block) :
    b ∈ deallocated tr ↔ Event.deallocate b ∈ tr := by
  induction tr with
  | nil => simp [deallocated]
  | cons e t ih =>
    have hc : deallocated (e :: t) = deallocated [e] ++ deallocated t :=
      deallocated_append [e] t
    rw [hc, List.mem_append, ih, List.mem_cons]
    cases e <;> simp [deallocated, eq_comm]

theorem mem_saveCalls (tr : List Event) (c : Block) (refs : List Ref) :
    (c, refs) ∈ saveCalls tr ↔ Event.saveSystemInterfaces c refs ∈ tr := by
  induction tr with
  | nil => simp [saveCalls]
  | cons e t ih =>
    have hc : saveCalls (e :: t) = saveCalls [e] ++ saveCalls t :=
      saveCalls_append [e] t
    rw [hc, List.mem_append, ih, List.mem_cons]
    cases e <;> simp [saveCalls]

theorem mem_threadsCreated (tr : List Event) (t : ChipThread) :
    t ∈ threadsCreated tr ↔ Event.threadCreate t 0 ∈ tr := by
  induction tr with
  | nil => simp [threadsCreated]
  | cons e l ih =>
    have hc : threadsCreated (e :: l) = threadsCreated [e] ++ threadsCreated l :=
      threadsCreated_append [e] l
    rw [hc, List.mem_append, ih, List.mem_cons]
    cases e <;> simp [threadsCreated]
    rename_i t2 r2
    by_cases hr : r2 = 0
    · subst hr
      simp [eq_comm]
    · simp [hr]
      intro _ h
      exact absurd h.symm hr

/-! ### The initialisation chain -/

theorem foldl_syncInitStep_of_ne (env : Env) (l : List SyncObj) (st : SysState)
    (h : st.pthreadRet ≠ 0) : l.foldl (syncInitStep env) st = st := by
  induction l with
  | nil => rfl
  | cons o t ih => simp [List.foldl_cons, syncInitStep, h, ih]

theorem foldl_syncInitStep_frame (env : Env) (l : List SyncObj) (st : SysState) :
    ∃ r evs, l.foldl (syncInitStep env) st =
        { st with pthreadRet := r, trace := st.trace ++ evs } ∧
      (∀ e ∈ evs, ∃ o ret, e = Event.syncInit o ret) ∧
      (st.pthreadRet = 0 → (r = 0 ↔ ∀ o ∈ l, env.syncInit o = 0)) := by
  induction l generalizing st with
  | nil => exact ⟨st.pthreadRet, [], by simp, by simp, by simp⟩
  | cons o t ih =>
    by_cases h0 : st.pthreadRet = 0
    · obtain ⟨r, evs, hr, hev, hret⟩ := ih (syncInitStep env st o)
      refine ⟨r, Event.syncInit o (env.syncInit o) :: evs, ?_, ?_, ?_⟩
      · rw [List.foldl_cons, hr]
        simp [syncInitStep, h0]
      · intro e he
        rcases List.mem_cons.mp he with rfl | he
        · exact ⟨o, _, rfl⟩
        · exact hev e he
      · intro _
        by_cases ho : env.syncInit o = 0
        · have h1 : (syncInitStep env st o).pthreadRet = 0 := by
            simp [syncInitStep, h0, ho]
          rw [hret h1]
          simp [ho]
        · have h1 : (syncInitStep env st o).pthreadRet ≠ 0 := by
            simp [syncInitStep, h0, ho]
          have h2 := foldl_syncInitStep_of_ne env t _ h1
          have h3 : r = env.syncInit o := by
            have := congrArg SysState.pthreadRet hr
            rw [h2] at this
            simpa [syncInitStep, h0] using this.symm
          simp [h3, ho]
    · refine ⟨st.pthreadRet, [], ?_, by simp, fun h => absurd h h0⟩
      rw [foldl_syncInitStep_of_ne env _ st h0]
      simp

theorem syncInitPhase_spec (env : Env) (st : SysState) :
    ∃ r evs, syncInitPhase env st =
        { st with pthreadRet := r, trace := st.trace ++ evs } ∧
      (∀ e ∈ evs, ∃ o ret, e = Event.syncInit o ret) ∧
      (r = 0 ↔ ∀ o, env.syncInit o = 0) := by
  unfold syncInitPhase
  by_cases h0 : env.syncInit .cChipMutex = 0
  · obtain ⟨r, evs, hr, hev, hret⟩ := foldl_syncInitStep_frame env
      [SyncObj.memMutex, .p0Mutex, .p1Mutex, .cChipCond, .p0Cond, .p1Cond]
      { st with pthreadRet := env.syncInit .cChipMutex,
                trace := st.trace ++ [.syncInit .cChipMutex (env.syncInit .cChipMutex)] }
    refine ⟨r, Event.syncInit .cChipMutex (env.syncInit .cChipMutex) :: evs, ?_, ?_, ?_⟩
    · simp only [hr]
      simp
    · intro e he
      rcases List.mem_cons.mp he with rfl | he
      · exact ⟨_, _, rfl⟩
      · exact hev e he
    · rw [hret h0]
      constructor
      · intro h o
        cases o
        · exact h0
        all_goals exact h _ (by simp)
      · intro h o _
        exact h o
  · refine ⟨env.syncInit .cChipMutex,
      [Event.syncInit .cChipMutex (env.syncInit .cChipMutex)], ?_, ?_, ?_⟩
    · rw [foldl_syncInitStep_of_ne env _ _ h0]
    · intro e he
      exact ⟨_, _, List.mem_singleton.mp he⟩
    · constructor
      · intro h
        exact absurd h h0
      · intro h
        exact h _

/-! ### The thread-creation chain -/

theorem foldl_threadCreateStep_of_ne (env : Env) (l : List ChipThread) (st : SysState)
    (h : st.pthreadRet ≠ 0) : l.foldl (threadCreateStep env) st = st := by
  induction l with
  | nil => rfl
  | cons o t ih => simp [List.foldl_cons, threadCreateStep, h, ih]

theorem foldl_threadCreateStep_frame (env : Env) (l : List ChipThread) (st : SysState) :
    ∃ r evs, l.foldl (threadCreateStep env) st =
        { st with pthreadRet := r, trace := st.trace ++ evs } ∧
      (∀ e ∈ evs, ∃ t ret, e = Event.threadCreate t ret) := by
  induction l generalizing st with
  | nil => exact ⟨st.pthreadRet, [], by simp, by simp⟩
  | cons o t ih =>
    by_cases h0 : st.pthreadRet = 0
    · obtain ⟨r, evs, hr, hev⟩ := ih (threadCreateStep env st o)
      refine ⟨r, Event.threadCreate o (env.threadCreate o) :: evs, ?_, ?_⟩
      · rw [List.foldl_cons, hr]
        simp [threadCreateStep, h0]
      · intro e he
        rcases List.mem_cons.mp he with rfl | he
        · exact ⟨o, _, rfl⟩
        · exact hev e he
    · refine ⟨st.pthreadRet, [], ?_, by simp⟩
      rw [foldl_threadCreateStep_of_ne env _ st h0]
      simp

theorem threadPhase_spec (env : Env) (st : SysState) :
    ∃ r evs, threadPhase env st =
        { st with pthreadRet := r, trace := st.trace ++ evs } ∧
      ThreadPhaseOnly evs ∧
      (env.threadCreate .cChip ≠ 0 → r ≠ 0 ∧ threadsCreated evs = []) := by
  unfold threadPhase
  have hfive : ∀ e ∈ [Event.cchipInit, .dchipInit, .pchipInit 0, .pchipInit 1,
      .threadCreate .cChip (env.threadCreate .cChip)],
      (∃ t ret, e = Event.threadCreate t ret) ∨ e = .cchipInit ∨
        e = .dchipInit ∨ ∃ n, e = .pchipInit n := by
    intro e he
    simp only [List.mem_cons, List.mem_singleton, List.not_mem_nil, or_false] at he
    rcases he with rfl | rfl | rfl | rfl | rfl
    · exact Or.inr (Or.inl rfl)
    · exact Or.inr (Or.inr (Or.inl rfl))
    · exact Or.inr (Or.inr (Or.inr ⟨0, rfl⟩))
    · exact Or.inr (Or.inr (Or.inr ⟨1, rfl⟩))
    · exact Or.inl ⟨_, _, rfl⟩
  by_cases h0 : env.threadCreate .cChip = 0
  · obtain ⟨r, evs, hr, hev⟩ := foldl_threadCreateStep_frame env [ChipThread.p0, .p1]
      { st with pthreadRet := env.threadCreate .cChip,
                trace := st.trace ++
                  [.cchipInit, .dchipInit, .pchipInit 0, .pchipInit 1,
                   .threadCreate .cChip (env.threadCreate .cChip)] }
    refine ⟨r, [.cchipInit, .dchipInit, .pchipInit 0, .pchipInit 1,
                   .threadCreate .cChip (env.threadCreate .cChip)] ++ evs, ?_, ?_,
      fun h => absurd h0 h⟩
    · simp only [hr]
      simp
    · intro e he
      rcases List.mem_append.mp he with he | he
      · exact hfive e he
      · exact Or.inl (hev e he)
  · refine ⟨env.threadCreate .cChip, [.cchipInit, .dchipInit, .pchipInit 0, .pchipInit 1,
                   .threadCreate .cChip (env.threadCreate .cChip)], ?_, hfive, fun _ => ⟨h0, ?_⟩⟩
    · rw [foldl_threadCreateStep_of_ne env _ _ h0]
    · simp [threadsCreated, h0]

/-! ### The CPU loop -/

theorem foldl_cpuLoopBody (env : Env) (l : List Nat) (st : SysState) :
    l.foldl (cpuLoopBody env) st =
      { st with
        cpu := fun jj => if jj ∈ l then cpuSlot env st.cpuCount jj else st.cpu jj,
        qRet := st.qRet && l.all (cpuOk env st.cpuCount),
        trace := st.trace ++ l.flatMap (cpuEvents env st.cpuCount) } := by
  induction l generalizing st with
  | nil => simp
  | cons ii t ih =>
    rw [List.foldl_cons, ih]
    have hcc : (cpuLoopBody env st ii).cpuCount = st.cpuCount := by
      unfold cpuLoopBody
      split_ifs <;> rfl
    rw [hcc]
    have hcpu : (fun jj => if jj ∈ t then cpuSlot env st.cpuCount jj
          else (cpuLoopBody env st ii).cpu jj) =
        (fun jj => if jj ∈ ii :: t then cpuSlot env st.cpuCount jj else st.cpu jj) := by
      funext jj
      by_cases hj : jj ∈ t
      · simp [hj]
      · by_cases hji : jj = ii
        · subst hji
          simp only [hj, if_false, List.mem_cons, true_or, if_true]
          unfold cpuLoopBody cpuSlot setAt
          split_ifs <;> simp_all
        · simp only [hj, if_false, List.mem_cons, hji, or_self]
          unfold cpuLoopBody setAt
          split_ifs <;> simp_all
    have hq : ((cpuLoopBody env st ii).qRet && t.all (cpuOk env st.cpuCount)) =
        (st.qRet && (ii :: t).all (cpuOk env st.cpuCount)) := by
      unfold cpuLoopBody cpuOk
      by_cases h1 : ii < st.cpuCount <;>
        by_cases h2 : env.AXP_21264_AllocateCPU ii = true <;> simp [h1, h2]
    have htr : (cpuLoopBody env st ii).trace ++ t.flatMap (cpuEvents env st.cpuCount) =
        st.trace ++ (ii :: t).flatMap (cpuEvents env st.cpuCount) := by
      unfold cpuLoopBody cpuEvents
      split_ifs <;> simp_all
    rw [hcpu, hq, htr]
    unfold cpuLoopBody
    split_ifs <;> rfl

theorem allocatedCpus_cpuEvents (env : Env) (cc : Nat) (l : List Nat) :
    allocatedCpus (l.flatMap (cpuEvents env cc)) =
      l.filter (fun ii => decide (ii < cc) && env.AXP_21264_AllocateCPU ii) := by
  induction l with
  | nil => simp [allocatedCpus]
  | cons ii t ih =>
    rw [List.flatMap_cons, allocatedCpus_append, ih, List.filter_cons]
    by_cases h1 : ii < cc <;>
      by_cases h2 : env.AXP_21264_AllocateCPU ii = true <;>
        simp [cpuEvents, h1, h2, allocatedCpus]

theorem failedCpus_cpuEvents (env : Env) (cc : Nat) (l : List Nat) :
    failedCpus (l.flatMap (cpuEvents env cc)) =
      l.filter (fun ii => decide (ii < cc) && !env.AXP_21264_AllocateCPU ii) := by
  induction l with
  | nil => simp [failedCpus]
  | cons ii t ih =>
    rw [List.flatMap_cons, failedCpus_append, ih, List.filter_cons]
    by_cases h1 : ii < cc <;>
      by_cases h2 : env.AXP_21264_AllocateCPU ii = true <;>
        simp [cpuEvents, h1, h2, failedCpus]

theorem saveCalls_cpuEvents (env : Env) (cc : Nat) (l : List Nat) :
    saveCalls (l.flatMap (cpuEvents env cc)) =
      (l.filter (fun ii => decide (ii < cc) && env.AXP_21264_AllocateCPU ii)).map
        (fun ii => (Block.cpu ii, interfaceRefs ii)) := by
  induction l with
  | nil => simp [saveCalls]
  | cons ii t ih =>
    rw [List.flatMap_cons, saveCalls_append, ih, List.filter_cons]
    by_cases h1 : ii < cc <;>
      by_cases h2 : env.AXP_21264_AllocateCPU ii = true <;>
        simp [cpuEvents, h1, h2, saveCalls]

theorem deallocated_cpuEvents (env : Env) (cc : Nat) (l : List Nat) :
    deallocated (l.flatMap (cpuEvents env cc)) = [] := by
  induction l with
  | nil => simp [deallocated]
  | cons ii t ih =>
    rw [List.flatMap_cons, deallocated_append, ih]
    unfold cpuEvents
    split_ifs <;> simp [deallocated]

theorem threadsCreated_cpuEvents (env : Env) (cc : Nat) (l : List Nat) :
    threadsCreated (l.flatMap (cpuEvents env cc)) = [] := by
  induction l with
  | nil => simp [threadsCreated]
  | cons ii t ih =>
    rw [List.flatMap_cons, threadsCreated_append, ih]
    unfold cpuEvents
    split_ifs <;> simp [threadsCreated]

/-! ### The array loop -/

theorem foldl_arrayLoopBody_frame (env : Env) (l : List Nat) (st : SysState) :
    ∃ arr evs, l.foldl (arrayLoopBody env) st =
        { st with array := arr, trace := st.trace ++ evs } ∧
      (∀ e ∈ evs, ∃ ii ok, e = Event.allocArray ii ok) := by
  induction l generalizing st with
  | nil => exact ⟨st.array, [], by simp, by simp⟩
  | cons ii t ih =>
    obtain ⟨arr, evs, hr, hev⟩ := ih (arrayLoopBody env st ii)
    by_cases h : ii < st.arrayCount
    · refine ⟨arr, Event.allocArray ii (env.allocArray ii) :: evs, ?_, ?_⟩
      · rw [List.foldl_cons, hr]
        simp [arrayLoopBody, h]
      · intro e he
        rcases List.mem_cons.mp he with rfl | he
        · exact ⟨_, _, rfl⟩
        · exact hev e he
    · refine ⟨arr, evs, ?_, hev⟩
      rw [List.foldl_cons, hr]
      simp [arrayLoopBody, h]

theorem arrayPhase_spec (env : Env) (st : SysState) :
    ∃ arr evs, arrayPhase env st =
        { st with arrayCount := env.darrayCount, arraySizes := env.darraySizes,
                  array := arr, trace := st.trace ++ evs } ∧
      (∀ e ∈ evs, ∃ ii ok, e = Event.allocArray ii ok) := by
  unfold arrayPhase
  obtain ⟨arr, evs, hr, hev⟩ := foldl_arrayLoopBody_frame env
    (List.range env.AXP_21274_MAX_ARRAYS)
    { st with arrayCount := env.darrayCount, arraySizes := env.darraySizes }
  exact ⟨arr, evs, by rw [hr], hev⟩

/-! ### The clean-up loop -/

theorem foldl_cleanupBody (cpu : Nat → Option Block) (l : List Nat) (tr : List Event) :
    l.foldl (cleanupBody cpu) tr =
      tr ++ (l.filterMap cpu).map Event.deallocate := by
  induction l generalizing tr with
  | nil => simp
  | cons ii t ih =>
    rw [List.foldl_cons, ih, List.filterMap_cons]
    unfold cleanupBody
    cases cpu ii <;> simp

theorem deallocated_map_deallocate (bs : List Block) :
    deallocated (bs.map Event.deallocate) = bs := by
  induction bs with
  | nil => rfl
  | cons b t ih =>
    have hc : deallocated (Event.deallocate b :: t.map Event.deallocate) =
        deallocated [Event.deallocate b] ++ deallocated (t.map Event.deallocate) :=
      deallocated_append [_] _
    rw [List.map_cons, hc, ih]
    rfl

theorem allocatedCpus_map_deallocate (bs : List Block) :
    allocatedCpus (bs.map Event.deallocate) = [] := by
  simp [allocatedCpus, List.filterMap_eq_nil_iff]

theorem failedCpus_map_deallocate (bs : List Block) :
    failedCpus (bs.map Event.deallocate) = [] := by
  simp [failedCpus, List.filterMap_eq_nil_iff]

theorem saveCalls_map_deallocate (bs : List Block) :
    saveCalls (bs.map Event.deallocate) = [] := by
  simp [saveCalls, List.filterMap_eq_nil_iff]

theorem threadsCreated_map_deallocate (bs : List Block) :
    threadsCreated (bs.map Event.deallocate) = [] := by
  simp [threadsCreated, List.filterMap_eq_nil_iff]

/-! ### The whole function, case by case -/

theorem filterMap_range_ite (n : Nat) (f g : Nat → Option Block) :
    (List.range n).filterMap (fun jj => if jj ∈ List.range n then f jj else g jj) =
      (List.range n).filterMap f := by
  apply List.filterMap_congr
  intro x hx
  simp only [hx, if_true]

theorem allocateSystem_none (env : Env) (h : env.sysBlock = none) :
    AXP_21274_AllocateSystem env = { sys := none, trace := [.allocSys false] } := by
  unfold AXP_21274_AllocateSystem
  simp [h]

theorem allocateSystem_cpuFail (env : Env) (blk : SysBlock) (h : env.sysBlock = some blk)
    (hi : ∀ o, env.syncInit o = 0)
    (hc : (List.range env.AXP_21274_MAX_CPUS).all
      (cpuOk env env.AXP_ConfigGet_CPUCount) = false) :
    ∃ evs1, SyncInitOnly evs1 ∧
      AXP_21274_AllocateSystem env =
        { sys := none,
          trace := [.allocSys true] ++ evs1 ++
            (List.range env.AXP_21274_MAX_CPUS).flatMap
              (cpuEvents env env.AXP_ConfigGet_CPUCount) ++
            ((List.range env.AXP_21274_MAX_CPUS).filterMap
              (cpuSlot env env.AXP_ConfigGet_CPUCount)).map Event.deallocate ++
            [.deallocate .sys] } := by
  obtain ⟨r1, evs1, h1, hev1, hr1⟩ := syncInitPhase_spec env
    { cpuCount := blk.cpuCount, arrayCount := blk.arrayCount, arraySizes := 0,
      array := fun _ => none, cpu := env.cpuGarbage, pthreadRet := 0, qRet := true,
      trace := [.allocSys true] }
  have hr0 : r1 = 0 := hr1.mpr hi
  subst hr0
  refine ⟨evs1, hev1, ?_⟩
  unfold AXP_21274_AllocateSystem
  simp only [h, h1, if_true]
  unfold cpuPhase
  rw [foldl_cpuLoopBody]
  simp only [hc, Bool.and_false, Bool.false_eq_true, if_false]
  simp only [somethingFailed, cleanup, foldl_cleanupBody, filterMap_range_ite]
  simp

theorem allocateSystem_cpuOk (env : Env) (blk : SysBlock) (h : env.sysBlock = some blk)
    (hi : ∀ o, env.syncInit o = 0)
    (hc : (List.range env.AXP_21274_MAX_CPUS).all
      (cpuOk env env.AXP_ConfigGet_CPUCount) = true) :
    ∃ (evs1 : List Event) (arr : Nat → Option Block) (evs2 : List Event) (r2 : Int)
      (evs3 : List Event),
      SyncInitOnly evs1 ∧
      AllocArrayOnly evs2 ∧
      ThreadPhaseOnly evs3 ∧
      (env.threadCreate .cChip ≠ 0 → r2 ≠ 0 ∧ threadsCreated evs3 = []) ∧
      AXP_21274_AllocateSystem env =
        if r2 ≠ 0 ∨ env.AXP_ConfigGet_CPUCount = 0 ∨ env.darrayCount = 0 then
          { sys := none,
            trace := [.allocSys true] ++ evs1 ++
              (List.range env.AXP_21274_MAX_CPUS).flatMap
                (cpuEvents env env.AXP_ConfigGet_CPUCount) ++ evs2 ++ evs3 ++
              ((List.range env.AXP_21274_MAX_CPUS).filterMap
                (cpuSlot env env.AXP_ConfigGet_CPUCount)).map Event.deallocate ++
              [.deallocate .sys] }
        else
          { sys := some { cpuCount := env.AXP_ConfigGet_CPUCount,
                          arrayCount := env.darrayCount,
                          arraySizes := env.darraySizes, array := arr },
            trace := [.allocSys true] ++ evs1 ++
              (List.range env.AXP_21274_MAX_CPUS).flatMap
                (cpuEvents env env.AXP_ConfigGet_CPUCount) ++ evs2 ++ evs3 } := by
  obtain ⟨r1, evs1, h1, hev1, hr1⟩ := syncInitPhase_spec env
    { cpuCount := blk.cpuCount, arrayCount := blk.arrayCount, arraySizes := 0,
      array := fun _ => none, cpu := env.cpuGarbage, pthreadRet := 0, qRet := true,
      trace := [.allocSys true] }
  have hr0 : r1 = 0 := hr1.mpr hi
  subst hr0
  obtain ⟨arr, evs2, h2, hev2⟩ := arrayPhase_spec env
    { cpuCount := env.AXP_ConfigGet_CPUCount, arrayCount := blk.arrayCount,
      arraySizes := 0, array := fun _ => none,
      cpu := fun jj => if jj ∈ List.range env.AXP_21274_MAX_CPUS
        then cpuSlot env env.AXP_ConfigGet_CPUCount jj else env.cpuGarbage jj,
      pthreadRet := 0, qRet := true,
      trace := [.allocSys true] ++ evs1 ++
        (List.range env.AXP_21274_MAX_CPUS).flatMap
          (cpuEvents env env.AXP_ConfigGet_CPUCount) }
  obtain ⟨r2, evs3, h3, hev3, hthr⟩ := threadPhase_spec env
    { cpuCount := env.AXP_ConfigGet_CPUCount, arrayCount := env.darrayCount,
      arraySizes := env.darraySizes, array := arr,
      cpu := fun jj => if jj ∈ List.range env.AXP_21274_MAX_CPUS
        then cpuSlot env env.AXP_ConfigGet_CPUCount jj else env.cpuGarbage jj,
      pthreadRet := 0, qRet := true,
      trace := [.allocSys true] ++ evs1 ++
        (List.range env.AXP_21274_MAX_CPUS).flatMap
          (cpuEvents env env.AXP_ConfigGet_CPUCount) ++ evs2 }
  refine ⟨evs1, arr, evs2, r2, evs3, hev1, hev2, hev3, hthr, ?_⟩
  unfold AXP_21274_AllocateSystem
  simp only [h, h1, if_true]
  unfold cpuPhase
  rw [foldl_cpuLoopBody]
  simp only [hc, Bool.and_true, if_true]
  rw [h2]
  simp only [if_true]
  rw [h3]
  simp only [somethingFailed, cleanup, foldl_cleanupBody, filterMap_range_ite]
  by_cases hf : r2 ≠ 0 ∨ env.AXP_ConfigGet_CPUCount = 0 ∨ env.darrayCount = 0
  · rw [if_pos hf]
    rcases hf with hf | hf | hf <;> simp [hf]
  · rw [if_neg hf]
    push_neg at hf
    obtain ⟨hf1, hf2, hf3⟩ := hf
    simp [hf1, hf2, hf3]

theorem allocateSystem_initFail (env : Env) (blk : SysBlock) (h : env.sysBlock = some blk)
    (hi : ¬ ∀ o, env.syncInit o = 0) :
    ∃ (evs1 : List Event) (arr : Nat → Option Block) (evs2 : List Event) (r2 : Int)
      (evs3 : List Event),
      SyncInitOnly evs1 ∧
      AllocArrayOnly evs2 ∧
      ThreadPhaseOnly evs3 ∧
      (env.threadCreate .cChip ≠ 0 → r2 ≠ 0 ∧ threadsCreated evs3 = []) ∧
      AXP_21274_AllocateSystem env =
        if r2 ≠ 0 ∨ blk.cpuCount = 0 ∨ env.darrayCount = 0 then
          { sys := none,
            trace := [.allocSys true] ++ evs1 ++ evs2 ++ evs3 ++
              ((List.range env.AXP_21274_MAX_CPUS).filterMap
                env.cpuGarbage).map Event.deallocate ++
              [.deallocate .sys] }
        else
          { sys := some { cpuCount := blk.cpuCount,
                          arrayCount := env.darrayCount,
                          arraySizes := env.darraySizes, array := arr },
            trace := [.allocSys true] ++ evs1 ++ evs2 ++ evs3 } := by
  obtain ⟨r1, evs1, h1, hev1, hr1⟩ := syncInitPhase_spec env
    { cpuCount := blk.cpuCount, arrayCount := blk.arrayCount, arraySizes := 0,
      array := fun _ => none, cpu := env.cpuGarbage, pthreadRet := 0, qRet := true,
      trace := [.allocSys true] }
  have hr0 : r1 ≠ 0 := fun hr => hi (hr1.mp hr)
  obtain ⟨arr, evs2, h2, hev2⟩ := arrayPhase_spec env
    { cpuCount := blk.cpuCount, arrayCount := blk.arrayCount,
      arraySizes := 0, array := fun _ => none,
      cpu := env.cpuGarbage,
      pthreadRet := r1, qRet := true,
      trace := [.allocSys true] ++ evs1 }
  obtain ⟨r2, evs3, h3, hev3, hthr⟩ := threadPhase_spec env
    { cpuCount := blk.cpuCount, arrayCount := env.darrayCount,
      arraySizes := env.darraySizes, array := arr,
      cpu := env.cpuGarbage,
      pthreadRet := r1, qRet := true,
      trace := [.allocSys true] ++ evs1 ++ evs2 }
  refine ⟨evs1, arr, evs2, r2, evs3, hev1, hev2, hev3, hthr, ?_⟩
  unfold AXP_21274_AllocateSystem
  simp only [h, h1, hr0, if_false, if_true]
  rw [h2]
  simp only [if_true]
  rw [h3]
  simp only [somethingFailed, cleanup, foldl_cleanupBody]
  by_cases hf : r2 ≠ 0 ∨ blk.cpuCount = 0 ∨ env.darrayCount = 0
  · rw [if_pos hf]
    rcases hf with hf | hf | hf <;> simp [hf]
  · rw [if_neg hf]
    push_neg at hf
    obtain ⟨hf1, hf2, hf3⟩ := hf
    simp [hf1, hf2, hf3]

/-! ### Events that a phase cannot emit -/

theorem syncInitOnly_projections {evs : List Event} (h : SyncInitOnly evs) :
    deallocated evs = [] ∧ allocatedCpus evs = [] ∧ failedCpus evs = [] ∧
      saveCalls evs = [] ∧ threadsCreated evs = [] := by
  refine ⟨?_, ?_, ?_, ?_, ?_⟩ <;>
    · simp only [deallocated, allocatedCpus, failedCpus, saveCalls, threadsCreated,
        List.filterMap_eq_nil_iff]
      intro e he
      obtain ⟨o, ret, rfl⟩ := h e he
      rfl

theorem allocArrayOnly_projections {evs : List Event} (h : AllocArrayOnly evs) :
    deallocated evs = [] ∧ allocatedCpus evs = [] ∧ failedCpus evs = [] ∧
      saveCalls evs = [] ∧ threadsCreated evs = [] := by
  refine ⟨?_, ?_, ?_, ?_, ?_⟩ <;>
    · simp only [deallocated, allocatedCpus, failedCpus, saveCalls, threadsCreated,
        List.filterMap_eq_nil_iff]
      intro e he
      obtain ⟨o, ret, rfl⟩ := h e he
      rfl

theorem threadPhaseOnly_projections {evs : List Event} (h : ThreadPhaseOnly evs) :
    deallocated evs = [] ∧ allocatedCpus evs = [] ∧ failedCpus evs = [] ∧
      saveCalls evs = [] := by
  refine ⟨?_, ?_, ?_, ?_⟩ <;>
    · simp only [deallocated, allocatedCpus, failedCpus, saveCalls,
        List.filterMap_eq_nil_iff]
      intro e he
      rcases h e he with ⟨t, ret, rfl⟩ | rfl | rfl | ⟨n, rfl⟩ <;> rfl

theorem filterMap_cpuSlot (env : Env) (cc : Nat) (l : List Nat) :
    l.filterMap (cpuSlot env cc) =
      (l.filter (fun ii => decide (ii < cc) && env.AXP_21264_AllocateCPU ii)).map
        Block.cpu := by
  induction l with
  | nil => rfl
  | cons ii t ih =>
    rw [List.filterMap_cons, List.filter_cons, ih]
    by_cases h1 : ii < cc <;>
      by_cases h2 : env.AXP_21264_AllocateCPU ii = true <;> simp [cpuSlot, h1, h2]

theorem filter_failed_eq_nil (env : Env) (cc : Nat) (l : List Nat)
    (h : l.all (cpuOk env cc) = true) :
    l.filter (fun ii => decide (ii < cc) && !env.AXP_21264_AllocateCPU ii) = [] := by
  rw [List.filter_eq_nil_iff]
  intro ii hii
  have := List.all_eq_true.mp h ii hii
  unfold cpuOk at this
  by_cases h1 : ii < cc <;>
    by_cases h2 : env.AXP_21264_AllocateCPU ii = true <;> simp_all

theorem filter_alloc_eq_of_all (env : Env) (cc : Nat) (l : List Nat)
    (h : l.all (cpuOk env cc) = true) :
    l.filter (fun ii => decide (ii < cc) && env.AXP_21264_AllocateCPU ii) =
      l.filter (fun ii => decide (ii < cc)) := by
  apply List.filter_congr
  intro ii hii
  have := List.all_eq_true.mp h ii hii
  unfold cpuOk at this
  by_cases h1 : ii < cc <;>
    by_cases h2 : env.AXP_21264_AllocateCPU ii = true <;> simp_all

/-! ## Part 3: the claims -/

/-! ### Probe packing and unpacking -/

/-- C1: packing dm = 2, ns = 5 with `AXP_21264_SET_PROBE` and unpacking does not give the
fields back: the packed value is 1 (the bitwise composition is 21), so
`AXP_21264_GET_PROBE_DM` yields 0 instead of 2 and `AXP_21264_GET_PROBE_NS` yields 1
instead of 5. -/
theorem set_probe_loses_fields :
    AXP_21264_SET_PROBE 2 5 = 1 ∧
      (((2 &&& 0x03) <<< 3) ||| (5 &&& 0x07) : Nat) = 21 ∧
      AXP_21264_GET_PROBE_DM (AXP_21264_SET_PROBE 2 5) = 0 ∧
      AXP_21264_GET_PROBE_NS (AXP_21264_SET_PROBE 2 5) = 1 ∧
      AXP_21264_GET_PROBE_DM 21 = 2 ∧ AXP_21264_GET_PROBE_NS 21 = 5 := by
  decide

theorem get_probe_dm_le (p : Nat) : AXP_21264_GET_PROBE_DM p ≤ 3 := by
  unfold AXP_21264_GET_PROBE_DM
  have h : p &&& 0x18 ≤ 0x18 := Nat.and_le_right
  rw [Nat.shiftRight_eq_div_pow]
  omega

theorem get_probe_ns_le (p : Nat) : AXP_21264_GET_PROBE_NS p ≤ 7 := by
  unfold AXP_21264_GET_PROBE_NS
  exact Nat.and_le_right

/-- C10: the unpack macros invert the bitwise layout `(dm << 3) | ns` for dm in 0..3 and
ns in 0..7, and for every probe value `p` the unpacked dm is at most 3 and one of the
four named dm codes, the unpacked ns at most 7 and one of the eight named ns codes. -/
theorem get_probe_inverts_layout (dm ns p : Nat) (hdm : dm ≤ 3) (hns : ns ≤ 7) :
    AXP_21264_GET_PROBE_DM ((dm <<< 3) ||| ns) = dm ∧
      AXP_21264_GET_PROBE_NS ((dm <<< 3) ||| ns) = ns ∧
      AXP_21264_GET_PROBE_DM p ≤ 3 ∧ AXP_21264_GET_PROBE_NS p ≤ 7 ∧
      AXP_21264_GET_PROBE_DM p ∈ dmCodes ∧ AXP_21264_GET_PROBE_NS p ∈ nsCodes := by
  have h1 := get_probe_dm_le p
  have h2 := get_probe_ns_le p
  refine ⟨?_, ?_, h1, h2, ?_, ?_⟩
  · interval_cases dm <;> interval_cases ns <;> decide
  · interval_cases dm <;> interval_cases ns <;> decide
  · generalize AXP_21264_GET_PROBE_DM p = d at h1
    interval_cases d <;> decide
  · generalize AXP_21264_GET_PROBE_NS p = n at h2
    interval_cases n <;> decide

theorem get_probe_inverts_layout_witness :
    AXP_21264_GET_PROBE_DM ((2 <<< 3) ||| 5) = 2 ∧
      AXP_21264_GET_PROBE_NS ((2 <<< 3) ||| 5) = 5 ∧
      AXP_21264_GET_PROBE_DM 255 ≤ 3 ∧ AXP_21264_GET_PROBE_NS 255 ≤ 7 ∧
      AXP_21264_GET_PROBE_DM 255 ∈ dmCodes ∧ AXP_21264_GET_PROBE_NS 255 ∈ nsCodes :=
  get_probe_inverts_layout 2 5 255 (by decide) (by decide)

/-! ### Backup-cache size codes -/

theorem bcSizeCode_eq_some (mb c : Nat) :
    bcSizeCode mb = some c ↔ (mb, c) ∈ [(1, 0), (2, 1), (4, 3), (8, 7), (16, 15)] := by
  unfold bcSizeCode BcacheSize.all
  by_cases h1 : mb = 1
  · subst h1; simp [BcacheSize.megabytes, BcacheSize.code, AXP_BCACHE_1MB, eq_comm]
  by_cases h2 : mb = 2
  · subst h2; simp [BcacheSize.megabytes, BcacheSize.code, AXP_BCACHE_2MB, eq_comm]
  by_cases h4 : mb = 4
  · subst h4; simp [BcacheSize.megabytes, BcacheSize.code, AXP_BCACHE_4MB, eq_comm]
  by_cases h8 : mb = 8
  · subst h8; simp [BcacheSize.megabytes, BcacheSize.code, AXP_BCACHE_8MB, eq_comm]
  by_cases h16 : mb = 16
  · subst h16; simp [BcacheSize.megabytes, BcacheSize.code, AXP_BCACHE_16MB, eq_comm]
  have e1 : (1 == mb) = false := beq_false_of_ne (Ne.symm h1)
  have e2 : (2 == mb) = false := beq_false_of_ne (Ne.symm h2)
  have e4 : (4 == mb) = false := beq_false_of_ne (Ne.symm h4)
  have e8 : (8 == mb) = false := beq_false_of_ne (Ne.symm h8)
  have e16 : (16 == mb) = false := beq_false_of_ne (Ne.symm h16)
  simp [BcacheSize.megabytes, List.find?, e1, e2, e4, e8, e16, h1, h2, h4, h8, h16]

theorem bcSizeMegabytes_eq_some (c mb : Nat) :
    bcSizeMegabytes c = some mb ↔ (mb, c) ∈ [(1, 0), (2, 1), (4, 3), (8, 7), (16, 15)] := by
  unfold bcSizeMegabytes BcacheSize.all
  by_cases h1 : c = 0
  · subst h1; simp [BcacheSize.megabytes, BcacheSize.code, AXP_BCACHE_1MB, eq_comm]
  by_cases h2 : c = 1
  · subst h2
    simp [BcacheSize.megabytes, BcacheSize.code, AXP_BCACHE_1MB, AXP_BCACHE_2MB, eq_comm]
  by_cases h4 : c = 3
  · subst h4
    simp [BcacheSize.megabytes, BcacheSize.code, AXP_BCACHE_1MB, AXP_BCACHE_2MB,
      AXP_BCACHE_4MB, eq_comm]
  by_cases h8 : c = 7
  · subst h8
    simp [BcacheSize.megabytes, BcacheSize.code, AXP_BCACHE_1MB, AXP_BCACHE_2MB,
      AXP_BCACHE_4MB, AXP_BCACHE_8MB, eq_comm]
  by_cases h16 : c = 15
  · subst h16
    simp [BcacheSize.megabytes, BcacheSize.code, AXP_BCACHE_1MB, AXP_BCACHE_2MB,
      AXP_BCACHE_4MB, AXP_BCACHE_8MB, AXP_BCACHE_16MB, eq_comm]
  have e1 : (0 == c) = false := beq_false_of_ne (Ne.symm h1)
  have e2 : (1 == c) = false := beq_false_of_ne (Ne.symm h2)
  have e4 : (3 == c) = false := beq_false_of_ne (Ne.symm h4)
  have e8 : (7 == c) = false := beq_false_of_ne (Ne.symm h8)
  have e16 : (15 == c) = false := beq_false_of_ne (Ne.symm h16)
  simp [BcacheSize.code, AXP_BCACHE_1MB, AXP_BCACHE_2MB, AXP_BCACHE_4MB, AXP_BCACHE_8MB,
    AXP_BCACHE_16MB, List.find?, e1, e2, e4, e8, e16, h1, h2, h4, h8, h16]

/-- C8: the backup-cache size encoding is a bijection between the capacities
{1, 2, 4, 8, 16} MB and the codes {0, 1, 3, 7, 15}: the five capacities are distinct and
so are the five codes, the capacity-to-code and code-to-capacity lookups are inverse to
each other, a capacity has a code exactly when it is one of the five, and a code has a
capacity exactly when it is one of the five listed. -/
theorem bcache_size_encoding_bijection :
    BcacheSize.all.map BcacheSize.megabytes = [1, 2, 4, 8, 16] ∧
      BcacheSize.all.map BcacheSize.code = [0, 1, 3, 7, 15] ∧
      (BcacheSize.all.map BcacheSize.megabytes).Nodup ∧
      (BcacheSize.all.map BcacheSize.code).Nodup ∧
      (∀ s : BcacheSize, s ∈ BcacheSize.all) ∧
      (∀ (ONE_M : Nat) (s : BcacheSize), s.capacity ONE_M = s.megabytes * ONE_M) ∧
      (∀ mb c, bcSizeCode mb = some c ↔ bcSizeMegabytes c = some mb) ∧
      (∀ mb c, bcSizeCode mb = some c ↔
        (mb, c) ∈ [(1, 0), (2, 1), (4, 3), (8, 7), (16, 15)]) ∧
      (∀ mb, (bcSizeCode mb).isSome = true ↔ mb ∈ [1, 2, 4, 8, 16]) ∧
      (∀ c, (bcSizeMegabytes c).isSome = true ↔ c ∈ [0, 1, 3, 7, 15]) := by
  refine ⟨by decide, by decide, by decide, by decide, ?_, ?_, ?_, bcSizeCode_eq_some,
    ?_, ?_⟩
  · intro s
    cases s <;> decide
  · intro m s
    cases s <;> rfl
  · intro mb c
    rw [bcSizeCode_eq_some, bcSizeMegabytes_eq_some]
  · intro mb
    rw [Option.isSome_iff_exists]
    simp only [bcSizeCode_eq_some, List.mem_cons, Prod.mk.injEq, List.mem_singleton,
      List.not_mem_nil, or_false]
    constructor
    · rintro ⟨a, h⟩
      omega
    · intro h
      exact ⟨mb - 1, by omega⟩
  · intro c
    rw [Option.isSome_iff_exists]
    simp only [bcSizeMegabytes_eq_some, List.mem_cons, Prod.mk.injEq, List.mem_singleton,
      List.not_mem_nil, or_false]
    constructor
    · rintro ⟨a, h⟩
      omega
    · intro h
      exact ⟨c + 1, by omega⟩

/-- C9: for each of the five backup-cache sizes the capacity in megabytes is the BC_SIZE
code plus one, so the capacity in bytes is (code + 1) megabytes and the code of a
capacity of `mb` megabytes, when it has one, is `mb - 1`. -/
theorem bcache_megabytes_eq_code_succ :
    (∀ s : BcacheSize, s.megabytes = s.code + 1) ∧
      (∀ (ONE_M : Nat) (s : BcacheSize), s.capacity ONE_M = (s.code + 1) * ONE_M) ∧
      (∀ mb c, bcSizeCode mb = some c ↔ mb ∈ [1, 2, 4, 8, 16] ∧ c = mb - 1) := by
  refine ⟨?_, ?_, ?_⟩
  · intro s
    cases s <;> rfl
  · intro m s
    cases s <;> rfl
  · intro mb c
    rw [bcSizeCode_eq_some]
    simp only [List.mem_cons, Prod.mk.injEq, List.mem_singleton, List.not_mem_nil,
      or_false]
    omega

/-! ### System allocation -/

theorem projections_nil :
    deallocated [] = [] ∧ allocatedCpus [] = [] ∧ failedCpus [] = [] ∧
      saveCalls [] = [] ∧ threadsCreated [] = [] :=
  ⟨rfl, rfl, rfl, rfl, rfl⟩

theorem projections_allocSys (b : Bool) :
    deallocated [Event.allocSys b] = [] ∧ allocatedCpus [Event.allocSys b] = [] ∧
      failedCpus [Event.allocSys b] = [] ∧ saveCalls [Event.allocSys b] = [] ∧
      threadsCreated [Event.allocSys b] = [] :=
  ⟨rfl, rfl, rfl, rfl, rfl⟩

theorem projections_deallocate (b : Block) :
    deallocated [Event.deallocate b] = [b] ∧ allocatedCpus [Event.deallocate b] = [] ∧
      failedCpus [Event.deallocate b] = [] ∧ saveCalls [Event.deallocate b] = [] ∧
      threadsCreated [Event.deallocate b] = [] :=
  ⟨rfl, rfl, rfl, rfl, rfl⟩

theorem failedCpus_trace_of_initFail (env : Env) (blk : SysBlock)
    (h : env.sysBlock = some blk) (hi : ¬ ∀ o, env.syncInit o = 0) :
    failedCpus (AXP_21274_AllocateSystem env).trace = [] ∧
      allocatedCpus (AXP_21274_AllocateSystem env).trace = [] ∧
      saveCalls (AXP_21274_AllocateSystem env).trace = [] := by
  obtain ⟨evs1, arr, evs2, r2, evs3, h1, h2, h3, -, heq⟩ :=
    allocateSystem_initFail env blk h hi
  obtain ⟨-, a1, f1, s1, -⟩ := syncInitOnly_projections h1
  obtain ⟨-, a2, f2, s2, -⟩ := allocArrayOnly_projections h2
  obtain ⟨-, a3, f3, s3⟩ := threadPhaseOnly_projections h3
  rw [heq]
  split_ifs <;>
    simp only [failedCpus_append, allocatedCpus_append, saveCalls_append, a1, a2, a3, f1, f2,
      f3, s1, s2, s3, failedCpus_map_deallocate, allocatedCpus_map_deallocate,
      saveCalls_map_deallocate, projections_allocSys, projections_deallocate,
      List.append_nil, and_self]

theorem failedCpus_trace_of_cpuOk (env : Env) (blk : SysBlock)
    (h : env.sysBlock = some blk) (hi : ∀ o, env.syncInit o = 0)
    (hc : (List.range env.AXP_21274_MAX_CPUS).all
      (cpuOk env env.AXP_ConfigGet_CPUCount) = true) :
    failedCpus (AXP_21274_AllocateSystem env).trace = [] := by
  obtain ⟨evs1, arr, evs2, r2, evs3, h1, h2, h3, -, heq⟩ :=
    allocateSystem_cpuOk env blk h hi hc
  obtain ⟨-, -, f1, -, -⟩ := syncInitOnly_projections h1
  obtain ⟨-, -, f2, -, -⟩ := allocArrayOnly_projections h2
  obtain ⟨-, -, f3, -⟩ := threadPhaseOnly_projections h3
  have f4 := filter_failed_eq_nil env _ _ hc
  rw [heq]
  split_ifs <;>
    simp only [failedCpus_append, f1, f2, f3, failedCpus_map_deallocate,
      failedCpus_cpuEvents, f4, projections_allocSys, projections_deallocate,
      List.append_nil]

/-- A failed CPU allocation in the trace pins the run down: the system block was
obtained, the seven initialisations succeeded and the CPU loop cleared `qRet`. -/
theorem run_of_failed_cpu (env : Env) (ii : Nat)
    (hfail : Event.allocCPU ii false ∈ (AXP_21274_AllocateSystem env).trace) :
    ∃ blk, env.sysBlock = some blk ∧ (∀ o, env.syncInit o = 0) ∧
      (List.range env.AXP_21274_MAX_CPUS).all
        (cpuOk env env.AXP_ConfigGet_CPUCount) = false := by
  rw [← mem_failedCpus] at hfail
  cases hs : env.sysBlock with
  | none =>
    rw [allocateSystem_none env hs] at hfail
    simp only [projections_allocSys, List.not_mem_nil] at hfail
  | some blk =>
    refine ⟨blk, rfl, ?_⟩
    by_cases hi : ∀ o, env.syncInit o = 0
    · refine ⟨hi, ?_⟩
      by_contra hc
      rw [Bool.not_eq_false] at hc
      rw [failedCpus_trace_of_cpuOk env blk hs hi hc] at hfail
      simp at hfail
    · rw [(failedCpus_trace_of_initFail env blk hs hi).1] at hfail
      simp at hfail

/-- The shape of every run in which a CPU allocation failed. -/
theorem trace_of_failed_cpu (env : Env) (ii : Nat)
    (hfail : Event.allocCPU ii false ∈ (AXP_21274_AllocateSystem env).trace) :
    (AXP_21274_AllocateSystem env).sys = none ∧
      threadsCreated (AXP_21274_AllocateSystem env).trace = [] ∧
      allocatedCpus (AXP_21274_AllocateSystem env).trace =
        (List.range env.AXP_21274_MAX_CPUS).filter
          (fun jj => decide (jj < env.AXP_ConfigGet_CPUCount) &&
            env.AXP_21264_AllocateCPU jj) ∧
      deallocated (AXP_21274_AllocateSystem env).trace =
        (allocatedCpus (AXP_21274_AllocateSystem env).trace).map Block.cpu ++
          [Block.sys] := by
  obtain ⟨blk, hs, hi, hc⟩ := run_of_failed_cpu env ii hfail
  obtain ⟨evs1, h1, heq⟩ := allocateSystem_cpuFail env blk hs hi hc
  obtain ⟨d1, a1, -, -, t1⟩ := syncInitOnly_projections h1
  rw [heq]
  refine ⟨rfl, ?_, ?_, ?_⟩
  · simp only [threadsCreated_append, t1, threadsCreated_cpuEvents,
      threadsCreated_map_deallocate, projections_allocSys, projections_deallocate,
      List.append_nil]
  · simp only [allocatedCpus_append, a1, allocatedCpus_cpuEvents,
      allocatedCpus_map_deallocate, projections_allocSys, projections_deallocate,
      List.append_nil, List.nil_append]
  · simp only [allocatedCpus_append, deallocated_append, a1, d1, allocatedCpus_cpuEvents,
      allocatedCpus_map_deallocate, deallocated_cpuEvents, deallocated_map_deallocate,
      filterMap_cpuSlot, projections_allocSys, projections_deallocate, List.append_nil,
      List.nil_append]

theorem nodup_allocated_filter (env : Env) :
    ((List.range env.AXP_21274_MAX_CPUS).filter
      (fun jj => decide (jj < env.AXP_ConfigGet_CPUCount) &&
        env.AXP_21264_AllocateCPU jj)).Nodup :=
  (List.nodup_range _).filter _

theorem count_cpu_map_append_sys (l : List Nat) (hl : l.Nodup) (jj : Nat) (hj : jj ∈ l) :
    (l.map Block.cpu ++ [Block.sys]).count (Block.cpu jj) = 1 := by
  have hinj : Function.Injective Block.cpu := by
    intro a b hab
    injection hab
  rw [List.count_append, List.count_map_of_injective l Block.cpu hinj,
    List.count_eq_one_of_mem hl hj]
  simp

/-- C2: when the system block and the seven initialisations succeed and
`AXP_21264_AllocateCPU` returns NULL for some index, `AXP_21274_AllocateSystem` returns
NULL; the blocks passed to `AXP_Deallocate_Block` are, in order, the successfully
allocated CPUs followed by the system record, so every allocated CPU is released exactly
once and before the system record, which is released once, last. -/
theorem allocateSystem_cpu_failure_rollback (env : Env) (blk : SysBlock) (ii : Nat)
    (hsys : env.sysBlock = some blk) (hinit : ∀ o, env.syncInit o = 0)
    (hfail : Event.allocCPU ii false ∈ (AXP_21274_AllocateSystem env).trace) :
    ii < env.AXP_ConfigGet_CPUCount ∧
      (AXP_21274_AllocateSystem env).sys = none ∧
      deallocated (AXP_21274_AllocateSystem env).trace =
        (allocatedCpus (AXP_21274_AllocateSystem env).trace).map Block.cpu ++
          [Block.sys] ∧
      (∀ jj, Event.allocCPU jj true ∈ (AXP_21274_AllocateSystem env).trace →
        (deallocated (AXP_21274_AllocateSystem env).trace).count (Block.cpu jj) = 1) ∧
      (deallocated (AXP_21274_AllocateSystem env).trace).count Block.sys = 1 := by
  obtain ⟨hnone, -, halloc, hdealloc⟩ := trace_of_failed_cpu env ii hfail
  have hnd : (allocatedCpus (AXP_21274_AllocateSystem env).trace).Nodup := by
    rw [halloc]
    exact nodup_allocated_filter env
  refine ⟨?_, hnone, hdealloc, ?_, ?_⟩
  · obtain ⟨-, -, -, hc⟩ := run_of_failed_cpu env ii hfail
    obtain ⟨evs1, h1, heq⟩ := allocateSystem_cpuFail env blk hsys hinit hc
    obtain ⟨-, -, f1, -, -⟩ := syncInitOnly_projections h1
    rw [← mem_failedCpus, heq] at hfail
    simp only [failedCpus_append, f1, failedCpus_cpuEvents, failedCpus_map_deallocate,
      projections_allocSys, projections_deallocate, List.append_nil, List.nil_append,
      List.mem_filter, Bool.and_eq_true, decide_eq_true_eq] at hfail
    exact hfail.2.1
  · intro jj hj
    rw [hdealloc]
    exact count_cpu_map_append_sys _ hnd jj ((mem_allocatedCpus _ _).mpr hj)
  · rw [hdealloc, List.count_append]
    simp [List.count_eq_zero]

theorem allocateSystem_cpu_failure_rollback_witness :
    2 < envThirdCpuFails.AXP_ConfigGet_CPUCount ∧
      (AXP_21274_AllocateSystem envThirdCpuFails).sys = none ∧
      deallocated (AXP_21274_AllocateSystem envThirdCpuFails).trace =
        (allocatedCpus (AXP_21274_AllocateSystem envThirdCpuFails).trace).map Block.cpu ++
          [Block.sys] ∧
      (∀ jj, Event.allocCPU jj true ∈ (AXP_21274_AllocateSystem envThirdCpuFails).trace →
        (deallocated (AXP_21274_AllocateSystem envThirdCpuFails).trace).count
          (Block.cpu jj) = 1) ∧
      (deallocated (AXP_21274_AllocateSystem envThirdCpuFails).trace).count Block.sys = 1 :=
  allocateSystem_cpu_failure_rollback envThirdCpuFails ⟨0, 0⟩ 2 rfl (fun _ => rfl)
    (by decide)

theorem third_cpu_fails_releases_first_two :
    allocatedCpus (AXP_21274_AllocateSystem envThirdCpuFails).trace = [0, 1] ∧
      failedCpus (AXP_21274_AllocateSystem envThirdCpuFails).trace = [2] ∧
      deallocated (AXP_21274_AllocateSystem envThirdCpuFails).trace =
        [Block.cpu 0, Block.cpu 1, Block.sys] := by
  decide

/-- C3 (as stated, refuted): with every allocation and initialisation succeeding and the
creation of the Pchip 0 thread failing, `AXP_21274_AllocateSystem` returns NULL although
the Cchip thread has been created by that call. -/
theorem allocateSystem_null_with_thread_created :
    (AXP_21274_AllocateSystem envPchip0ThreadFails).sys = none ∧
      threadsCreated (AXP_21274_AllocateSystem envPchip0ThreadFails).trace =
        [ChipThread.cChip] ∧
      ¬ ((AXP_21274_AllocateSystem envPchip0ThreadFails).sys = none →
        threadsCreated (AXP_21274_AllocateSystem envPchip0ThreadFails).trace = []) :=
  ⟨rfl, by decide, fun h => absurd (h rfl) (by decide)⟩

theorem threadsCreated_of_cChip_fails (env : Env) (blk : SysBlock)
    (hs : env.sysBlock = some blk) (hthr : env.threadCreate .cChip ≠ 0) :
    (AXP_21274_AllocateSystem env).sys = none ∧
      threadsCreated (AXP_21274_AllocateSystem env).trace = [] := by
  by_cases hi : ∀ o, env.syncInit o = 0
  · cases hc : (List.range env.AXP_21274_MAX_CPUS).all
        (cpuOk env env.AXP_ConfigGet_CPUCount) with
    | false =>
      obtain ⟨evs1, h1, heq⟩ := allocateSystem_cpuFail env blk hs hi hc
      obtain ⟨-, -, -, -, t1⟩ := syncInitOnly_projections h1
      rw [heq]
      refine ⟨rfl, ?_⟩
      simp only [threadsCreated_append, t1, threadsCreated_cpuEvents,
        threadsCreated_map_deallocate, projections_allocSys, projections_deallocate,
        List.append_nil]
    | true =>
      obtain ⟨evs1, arr, evs2, r2, evs3, h1, h2, h3, ht, heq⟩ :=
        allocateSystem_cpuOk env blk hs hi hc
      obtain ⟨-, -, -, -, t1⟩ := syncInitOnly_projections h1
      obtain ⟨-, -, -, -, t2⟩ := allocArrayOnly_projections h2
      obtain ⟨hr2, t3⟩ := ht hthr
      rw [heq, if_pos (Or.inl hr2)]
      refine ⟨rfl, ?_⟩
      simp only [threadsCreated_append, t1, t2, t3, threadsCreated_cpuEvents,
        threadsCreated_map_deallocate, projections_allocSys, projections_deallocate,
        List.append_nil]
  · obtain ⟨evs1, arr, evs2, r2, evs3, h1, h2, h3, ht, heq⟩ :=
      allocateSystem_initFail env blk hs hi
    obtain ⟨-, -, -, -, t1⟩ := syncInitOnly_projections h1
    obtain ⟨-, -, -, -, t2⟩ := allocArrayOnly_projections h2
    obtain ⟨hr2, t3⟩ := ht hthr
    rw [heq, if_pos (Or.inl hr2)]
    refine ⟨rfl, ?_⟩
    simp only [threadsCreated_append, t1, t2, t3,
      threadsCreated_map_deallocate, projections_allocSys, projections_deallocate,
      List.append_nil]

/-- C3 (amended): when the system block cannot be allocated, or a CPU allocation fails,
or the creation of the first (Cchip) thread fails, `AXP_21274_AllocateSystem` returns
NULL and none of the three chipset threads has been created by that call. -/
theorem allocateSystem_no_thread_on_early_failure (env : Env)
    (h : env.sysBlock = none ∨
      (∃ ii, Event.allocCPU ii false ∈ (AXP_21274_AllocateSystem env).trace) ∨
      env.threadCreate .cChip ≠ 0) :
    (AXP_21274_AllocateSystem env).sys = none ∧
      threadsCreated (AXP_21274_AllocateSystem env).trace = [] := by
  rcases h with h | ⟨ii, h⟩ | h
  · rw [allocateSystem_none env h]
    exact ⟨rfl, rfl⟩
  · obtain ⟨hnone, hthr, -, -⟩ := trace_of_failed_cpu env ii h
    exact ⟨hnone, hthr⟩
  · cases hs : env.sysBlock with
    | none =>
      rw [allocateSystem_none env hs]
      exact ⟨rfl, rfl⟩
    | some blk => exact threadsCreated_of_cChip_fails env blk hs h

theorem allocateSystem_no_thread_on_early_failure_witness :
    (AXP_21274_AllocateSystem envCpu0Fails).sys = none ∧
      threadsCreated (AXP_21274_AllocateSystem envCpu0Fails).trace = [] :=
  allocateSystem_no_thread_on_early_failure envCpu0Fails
    (Or.inr (Or.inl ⟨0, by decide⟩))

/-- C4: with one CPU and one memory array configured and the array allocation returning
NULL (every other call succeeding), `AXP_21274_AllocateSystem` returns a system, not
NULL: its `arrayCount` is 1, its `array[0]` is NULL, and nothing was deallocated. -/
theorem allocateSystem_returns_system_without_array :
    (AXP_21274_AllocateSystem envArrayFails).sys.isSome = true ∧
      (AXP_21274_AllocateSystem envArrayFails).sys.map
        (fun s => (s.cpuCount, s.arrayCount, s.array 0)) = some (1, 1, none) ∧
      Event.allocArray 0 false ∈ (AXP_21274_AllocateSystem envArrayFails).trace ∧
      deallocated (AXP_21274_AllocateSystem envArrayFails).trace = [] :=
  ⟨rfl, rfl, by decide, by decide⟩

theorem threadPhase_of_all_created (env : Env) (st : SysState)
    (h : ∀ t, env.threadCreate t = 0) :
    threadPhase env st =
      { st with pthreadRet := 0,
                trace := st.trace ++
                  [.cchipInit, .dchipInit, .pchipInit 0, .pchipInit 1,
                   .threadCreate .cChip 0, .threadCreate .p0 0, .threadCreate .p1 0] } := by
  unfold threadPhase
  simp [threadCreateStep, h]

theorem allocateSystem_initFail_threads (env : Env) (blk : SysBlock)
    (h : env.sysBlock = some blk) (hi : ¬ ∀ o, env.syncInit o = 0)
    (ht : ∀ t, env.threadCreate t = 0) :
    ∃ (evs1 : List Event) (arr : Nat → Option Block) (evs2 : List Event),
      SyncInitOnly evs1 ∧
      AllocArrayOnly evs2 ∧
      AXP_21274_AllocateSystem env =
        if blk.cpuCount = 0 ∨ env.darrayCount = 0 then
          { sys := none,
            trace := [.allocSys true] ++ evs1 ++ evs2 ++
              [.cchipInit, .dchipInit, .pchipInit 0, .pchipInit 1,
               .threadCreate .cChip 0, .threadCreate .p0 0, .threadCreate .p1 0] ++
              ((List.range env.AXP_21274_MAX_CPUS).filterMap
                env.cpuGarbage).map Event.deallocate ++
              [.deallocate .sys] }
        else
          { sys := some { cpuCount := blk.cpuCount,
                          arrayCount := env.darrayCount,
                          arraySizes := env.darraySizes, array := arr },
            trace := [.allocSys true] ++ evs1 ++ evs2 ++
              [.cchipInit, .dchipInit, .pchipInit 0, .pchipInit 1,
               .threadCreate .cChip 0, .threadCreate .p0 0, .threadCreate .p1 0] } := by
  obtain ⟨r1, evs1, h1, hev1, hr1⟩ := syncInitPhase_spec env
    { cpuCount := blk.cpuCount, arrayCount := blk.arrayCount, arraySizes := 0,
      array := fun _ => none, cpu := env.cpuGarbage, pthreadRet := 0, qRet := true,
      trace := [.allocSys true] }
  have hr0 : r1 ≠ 0 := fun hr => hi (hr1.mp hr)
  obtain ⟨arr, evs2, h2, hev2⟩ := arrayPhase_spec env
    { cpuCount := blk.cpuCount, arrayCount := blk.arrayCount,
      arraySizes := 0, array := fun _ => none,
      cpu := env.cpuGarbage,
      pthreadRet := r1, qRet := true,
      trace := [.allocSys true] ++ evs1 }
  refine ⟨evs1, arr, evs2, hev1, hev2, ?_⟩
  unfold AXP_21274_AllocateSystem
  simp only [h, h1, hr0, if_false, if_true]
  rw [h2]
  simp only [if_true]
  rw [threadPhase_of_all_created env _ ht]
  simp only [somethingFailed, cleanup, foldl_cleanupBody]
  by_cases hf : blk.cpuCount = 0 ∨ env.darrayCount = 0
  · rw [if_pos hf]
    rcases hf with hf | hf <;> simp [hf]
  · rw [if_neg hf]
    push_neg at hf
    obtain ⟨hf2, hf3⟩ := hf
    simp [hf2, hf3]

theorem projections_chip_threads :
    deallocated [Event.cchipInit, .dchipInit, .pchipInit 0, .pchipInit 1,
        .threadCreate .cChip 0, .threadCreate .p0 0, .threadCreate .p1 0] = [] ∧
      threadsCreated [Event.cchipInit, .dchipInit, .pchipInit 0, .pchipInit 1,
        .threadCreate .cChip 0, .threadCreate .p0 0, .threadCreate .p1 0] =
        [.cChip, .p0, .p1] :=
  ⟨rfl, rfl⟩

/-- C5: a failed mutex / condition-variable initialisation is forgotten.  When one of the
seven initialisations returns non-zero (and the three `pthread_create` calls return 0),
`AXP_21274_AllocateSystem` skips the CPU loop, so no CPU is allocated and the local
`cpu[]` keeps its uninitialised contents, but still creates the three chipset threads,
and `pthread_create` overwrites `pthreadRet`.  The function then returns NULL only if the
`cpuCount` field of the block as `AXP_Allocate_Block` delivered it, or the configured
array count, is 0; otherwise it returns the system record, without any CPU.  When it
does return NULL, the blocks handed to `AXP_Deallocate_Block` are the uninitialised
entries of `cpu[]` followed by the system record. -/
theorem allocateSystem_forgets_init_failure (env : Env) (blk : SysBlock) (o : SyncObj)
    (hsys : env.sysBlock = some blk) (hfail : env.syncInit o ≠ 0)
    (hthreads : ∀ t, env.threadCreate t = 0) :
    allocatedCpus (AXP_21274_AllocateSystem env).trace = [] ∧
      threadsCreated (AXP_21274_AllocateSystem env).trace = [.cChip, .p0, .p1] ∧
      ((AXP_21274_AllocateSystem env).sys = none ↔
        blk.cpuCount = 0 ∨ env.darrayCount = 0) ∧
      (∀ s, (AXP_21274_AllocateSystem env).sys = some s →
        s.cpuCount = blk.cpuCount ∧ s.arrayCount = env.darrayCount ∧
          deallocated (AXP_21274_AllocateSystem env).trace = []) ∧
      ((AXP_21274_AllocateSystem env).sys = none →
        deallocated (AXP_21274_AllocateSystem env).trace =
          (List.range env.AXP_21274_MAX_CPUS).filterMap env.cpuGarbage ++ [.sys]) := by
  have hi : ¬ ∀ o, env.syncInit o = 0 := fun h => hfail (h o)
  obtain ⟨-, ha, -⟩ := failedCpus_trace_of_initFail env blk hsys hi
  obtain ⟨evs1, arr, evs2, h1, h2, heq⟩ :=
    allocateSystem_initFail_threads env blk hsys hi hthreads
  obtain ⟨d1, -, -, -, t1⟩ := syncInitOnly_projections h1
  obtain ⟨d2, -, -, -, t2⟩ := allocArrayOnly_projections h2
  obtain ⟨d3, t3⟩ := projections_chip_threads
  refine ⟨ha, ?_, ?_, ?_, ?_⟩
  · rw [heq]
    split_ifs <;>
      simp only [threadsCreated_append, t1, t2, t3, threadsCreated_map_deallocate,
        projections_allocSys, projections_deallocate, List.append_nil, List.nil_append]
  · rw [heq]
    by_cases hf : blk.cpuCount = 0 ∨ env.darrayCount = 0
    · rw [if_pos hf]
      exact ⟨fun _ => hf, fun _ => rfl⟩
    · rw [if_neg hf]
      exact ⟨fun h => Option.noConfusion h, fun h => absurd h hf⟩
  · intro s hs
    rw [heq] at hs ⊢
    by_cases hf : blk.cpuCount = 0 ∨ env.darrayCount = 0
    · rw [if_pos hf] at hs
      cases hs
    · rw [if_neg hf] at hs ⊢
      injection hs with hs
      subst hs
      refine ⟨rfl, rfl, ?_⟩
      simp only [deallocated_append, d1, d2, d3, projections_allocSys, List.append_nil]
  · intro hs
    rw [heq] at hs ⊢
    by_cases hf : blk.cpuCount = 0 ∨ env.darrayCount = 0
    · rw [if_pos hf]
      simp only [deallocated_append, d1, d2, d3, deallocated_map_deallocate,
        projections_allocSys, projections_deallocate, List.append_nil, List.nil_append]
    · rw [if_neg hf] at hs
      cases hs

theorem allocateSystem_forgets_init_failure_witness :
    (allocatedCpus (AXP_21274_AllocateSystem envMutexFailsDirtyBlock).trace = [] ∧
      threadsCreated (AXP_21274_AllocateSystem envMutexFailsDirtyBlock).trace =
        [.cChip, .p0, .p1] ∧
      ((AXP_21274_AllocateSystem envMutexFailsDirtyBlock).sys = none ↔
        (2 : Nat) = 0 ∨ envMutexFailsDirtyBlock.darrayCount = 0) ∧
      (∀ s, (AXP_21274_AllocateSystem envMutexFailsDirtyBlock).sys = some s →
        s.cpuCount = 2 ∧ s.arrayCount = envMutexFailsDirtyBlock.darrayCount ∧
          deallocated (AXP_21274_AllocateSystem envMutexFailsDirtyBlock).trace = []) ∧
      ((AXP_21274_AllocateSystem envMutexFailsDirtyBlock).sys = none →
        deallocated (AXP_21274_AllocateSystem envMutexFailsDirtyBlock).trace =
          (List.range envMutexFailsDirtyBlock.AXP_21274_MAX_CPUS).filterMap
            envMutexFailsDirtyBlock.cpuGarbage ++ [.sys])) ∧
      envMutexFailsDirtyBlock.syncInit .p0Mutex = 12 ∧
      (AXP_21274_AllocateSystem envMutexFailsDirtyBlock).sys.map
        (fun s => (s.cpuCount, s.arrayCount)) = some (2, 1) :=
  ⟨allocateSystem_forgets_init_failure envMutexFailsDirtyBlock
      { cpuCount := 2, arrayCount := 0 } .p0Mutex rfl (by decide) (fun _ => rfl),
    rfl, rfl⟩

/-- The same failed initialisation on a block that arrives zero-filled: NULL is returned
through the `cpuCount == 0` test after the three threads were created, and the four
uninitialised entries of `cpu[]` are handed to `AXP_Deallocate_Block` before the system
record. -/
theorem init_failure_on_zero_filled_block :
    (AXP_21274_AllocateSystem envMutexFails).sys.isNone = true ∧
      threadsCreated (AXP_21274_AllocateSystem envMutexFails).trace = [.cChip, .p0, .p1] ∧
      deallocated (AXP_21274_AllocateSystem envMutexFails).trace =
        [.stray 0, .stray 1, .stray 2, .stray 3, .sys] :=
  ⟨rfl, by decide, by decide⟩

/-- The failed initialisation on a block whose `cpuCount` field is not zero: a system
without any CPU is returned and the three threads run on it. -/
theorem init_failure_forgotten_on_dirty_block :
    (AXP_21274_AllocateSystem envMutexFailsDirtyBlock).sys.map
        (fun s => (s.cpuCount, s.arrayCount)) = some (2, 1) ∧
      allocatedCpus (AXP_21274_AllocateSystem envMutexFailsDirtyBlock).trace = [] ∧
      threadsCreated (AXP_21274_AllocateSystem envMutexFailsDirtyBlock).trace =
        [.cChip, .p0, .p1] :=
  ⟨rfl, by decide, by decide⟩

/-- The calls of the CPU loop in a run that reaches it. -/
theorem calls_of_cpu_loop (env : Env) (blk : SysBlock) (hs : env.sysBlock = some blk)
    (hi : ∀ o, env.syncInit o = 0) :
    allocatedCpus (AXP_21274_AllocateSystem env).trace =
        (List.range env.AXP_21274_MAX_CPUS).filter
          (fun jj => decide (jj < env.AXP_ConfigGet_CPUCount) &&
            env.AXP_21264_AllocateCPU jj) ∧
      saveCalls (AXP_21274_AllocateSystem env).trace =
        ((List.range env.AXP_21274_MAX_CPUS).filter
          (fun jj => decide (jj < env.AXP_ConfigGet_CPUCount) &&
            env.AXP_21264_AllocateCPU jj)).map
          (fun jj => (Block.cpu jj, interfaceRefs jj)) := by
  cases hc : (List.range env.AXP_21274_MAX_CPUS).all
      (cpuOk env env.AXP_ConfigGet_CPUCount) with
  | false =>
    obtain ⟨evs1, h1, heq⟩ := allocateSystem_cpuFail env blk hs hi hc
    obtain ⟨-, a1, -, s1, -⟩ := syncInitOnly_projections h1
    rw [heq]
    constructor <;>
      simp only [allocatedCpus_append, saveCalls_append, a1, s1, allocatedCpus_cpuEvents,
        saveCalls_cpuEvents, allocatedCpus_map_deallocate, saveCalls_map_deallocate,
        projections_allocSys, projections_deallocate, List.append_nil, List.nil_append]
  | true =>
    obtain ⟨evs1, arr, evs2, r2, evs3, h1, h2, h3, -, heq⟩ :=
      allocateSystem_cpuOk env blk hs hi hc
    obtain ⟨-, a1, -, s1, -⟩ := syncInitOnly_projections h1
    obtain ⟨-, a2, -, s2, -⟩ := allocArrayOnly_projections h2
    obtain ⟨-, a3, -, s3⟩ := threadPhaseOnly_projections h3
    rw [heq]
    split_ifs <;> constructor <;>
      simp only [allocatedCpus_append, saveCalls_append, a1, s1, a2, s2, a3, s3,
        allocatedCpus_cpuEvents, saveCalls_cpuEvents, allocatedCpus_map_deallocate,
        saveCalls_map_deallocate, projections_allocSys, projections_deallocate,
        List.append_nil, List.nil_append]

/-- C6: in every run in which the CPU loop executes, the calls of
`AXP_21264_Save_SystemInterfaces` are, in order, one call for each successfully
allocated CPU `ii` (the indices below both the CPU count and `AXP_21274_MAX_CPUS` whose
allocation succeeded, each occurring once), and that call passes the CPU block together
with the addresses of `mutex`, `cond`, `pq`, `pqTop`, `pqBottom`, `irq_H` of
`sys->cpu[ii]` and of the shared `cChipMutex`, `cChipCond`, `skidBufferQ`; no call
passes an address inside another CPU's record. -/
theorem save_interfaces_once_per_allocated_cpu (env : Env) (blk : SysBlock)
    (hsys : env.sysBlock = some blk) (hinit : ∀ o, env.syncInit o = 0) :
    allocatedCpus (AXP_21274_AllocateSystem env).trace =
        (List.range env.AXP_21274_MAX_CPUS).filter
          (fun ii => decide (ii < env.AXP_ConfigGet_CPUCount) &&
            env.AXP_21264_AllocateCPU ii) ∧
      (allocatedCpus (AXP_21274_AllocateSystem env).trace).Nodup ∧
      saveCalls (AXP_21274_AllocateSystem env).trace =
        (allocatedCpus (AXP_21274_AllocateSystem env).trace).map
          (fun ii => (Block.cpu ii,
            [Ref.cpu ii .mutex, Ref.cpu ii .cond, Ref.cpu ii .pq, Ref.cpu ii .pqTop,
             Ref.cpu ii .pqBottom, Ref.cpu ii .irq_H, Ref.hub .cChipMutex,
             Ref.hub .cChipCond, Ref.hub .skidBufferQ])) ∧
      (∀ c refs jj f,
        Event.saveSystemInterfaces c refs ∈ (AXP_21274_AllocateSystem env).trace →
        Ref.cpu jj f ∈ refs →
          c = Block.cpu jj ∧ Event.allocCPU jj true ∈ (AXP_21274_AllocateSystem env).trace)
      := by
  obtain ⟨ha, hsv⟩ := calls_of_cpu_loop env blk hsys hinit
  refine ⟨ha, ?_, ?_, ?_⟩
  · rw [ha]
    exact nodup_allocated_filter env
  · rw [hsv, ha]
    rfl
  · intro c refs jj f hmem hr
    rw [← mem_saveCalls, hsv, List.mem_map] at hmem
    obtain ⟨kk, hkk, heq⟩ := hmem
    injection heq with hc hrefs
    subst hc hrefs
    have hjk : jj = kk := by
      simp only [interfaceRefs, List.mem_cons, Ref.cpu.injEq, List.mem_singleton,
        List.not_mem_nil, or_false] at hr
      rcases hr with h | h | h | h | h | h | h | h | h
      all_goals first | exact h.1 | cases h
    subst hjk
    refine ⟨rfl, ?_⟩
    rw [← mem_allocatedCpus, ha]
    exact hkk

theorem save_interfaces_once_per_allocated_cpu_witness :
    allocatedCpus (AXP_21274_AllocateSystem envThirdCpuFails).trace =
        (List.range envThirdCpuFails.AXP_21274_MAX_CPUS).filter
          (fun ii => decide (ii < envThirdCpuFails.AXP_ConfigGet_CPUCount) &&
            envThirdCpuFails.AXP_21264_AllocateCPU ii) ∧
      (allocatedCpus (AXP_21274_AllocateSystem envThirdCpuFails).trace).Nodup ∧
      saveCalls (AXP_21274_AllocateSystem envThirdCpuFails).trace =
        (allocatedCpus (AXP_21274_AllocateSystem envThirdCpuFails).trace).map
          (fun ii => (Block.cpu ii,
            [Ref.cpu ii .mutex, Ref.cpu ii .cond, Ref.cpu ii .pq, Ref.cpu ii .pqTop,
             Ref.cpu ii .pqBottom, Ref.cpu ii .irq_H, Ref.hub .cChipMutex,
             Ref.hub .cChipCond, Ref.hub .skidBufferQ])) ∧
      (∀ c refs jj f,
        Event.saveSystemInterfaces c refs ∈
          (AXP_21274_AllocateSystem envThirdCpuFails).trace →
        Ref.cpu jj f ∈ refs →
          c = Block.cpu jj ∧
            Event.allocCPU jj true ∈ (AXP_21274_AllocateSystem envThirdCpuFails).trace) :=
  save_interfaces_once_per_allocated_cpu envThirdCpuFails ⟨0, 0⟩ rfl (fun _ => rfl)

/-- C7: the CPU count is stored unclamped.  For every system that
`AXP_21274_AllocateSystem` returns after the seven initialisations succeeded, `cpuCount`
is the configured count and at least 1, every index below both `cpuCount` and
`AXP_21274_MAX_CPUS` has a CPU that was allocated, registered with its own record and
not deallocated, and no CPU is allocated at an index of `AXP_21274_MAX_CPUS` or above.
Hence with a configured count above `AXP_21274_MAX_CPUS` the returned system has
`cpuCount` above `AXP_21274_MAX_CPUS` and indices below `cpuCount` without a CPU. -/
theorem returned_system_cpu_count_unclamped (env : Env) (s : System)
    (hinit : ∀ o, env.syncInit o = 0)
    (hret : (AXP_21274_AllocateSystem env).sys = some s) :
    1 ≤ s.cpuCount ∧ s.cpuCount = env.AXP_ConfigGet_CPUCount ∧
      (∀ ii, ii < s.cpuCount → ii < env.AXP_21274_MAX_CPUS →
        Event.allocCPU ii true ∈ (AXP_21274_AllocateSystem env).trace ∧
        Event.saveSystemInterfaces (.cpu ii) (interfaceRefs ii) ∈
          (AXP_21274_AllocateSystem env).trace ∧
        Event.deallocate (.cpu ii) ∉ (AXP_21274_AllocateSystem env).trace) ∧
      (∀ ii, env.AXP_21274_MAX_CPUS ≤ ii →
        Event.allocCPU ii true ∉ (AXP_21274_AllocateSystem env).trace) ∧
      (env.AXP_21274_MAX_CPUS < env.AXP_ConfigGet_CPUCount →
        env.AXP_21274_MAX_CPUS < s.cpuCount ∧
          ∃ ii, ii < s.cpuCount ∧
            Event.allocCPU ii true ∉ (AXP_21274_AllocateSystem env).trace) := by
  cases hs : env.sysBlock with
  | none =>
    rw [allocateSystem_none env hs] at hret
    cases hret
  | some blk =>
    obtain ⟨ha, hsv⟩ := calls_of_cpu_loop env blk hs hinit
    have hnone : ∀ ii, env.AXP_21274_MAX_CPUS ≤ ii →
        Event.allocCPU ii true ∉ (AXP_21274_AllocateSystem env).trace := by
      intro ii hii hmem
      rw [← mem_allocatedCpus, ha, List.mem_filter, List.mem_range] at hmem
      exact absurd hmem.1 (not_lt.mpr hii)
    cases hc : (List.range env.AXP_21274_MAX_CPUS).all
        (cpuOk env env.AXP_ConfigGet_CPUCount) with
    | false =>
      obtain ⟨evs1, h1, heq⟩ := allocateSystem_cpuFail env blk hs hinit hc
      rw [heq] at hret
      cases hret
    | true =>
      obtain ⟨evs1, arr, evs2, r2, evs3, h1, h2, h3, -, heq⟩ :=
        allocateSystem_cpuOk env blk hs hinit hc
      obtain ⟨d1, -, -, -, -⟩ := syncInitOnly_projections h1
      obtain ⟨d2, -, -, -, -⟩ := allocArrayOnly_projections h2
      obtain ⟨d3, -, -, -⟩ := threadPhaseOnly_projections h3
      by_cases hf : r2 ≠ 0 ∨ env.AXP_ConfigGet_CPUCount = 0 ∨ env.darrayCount = 0
      · rw [heq, if_pos hf] at hret
        cases hret
      · have hd : deallocated (AXP_21274_AllocateSystem env).trace = [] := by
          rw [heq, if_neg hf]
          simp only [deallocated_append, d1, d2, d3, deallocated_cpuEvents,
            projections_allocSys, List.append_nil]
        rw [heq, if_neg hf] at hret
        injection hret with hret
        subst hret
        push_neg at hf
        refine ⟨Nat.one_le_iff_ne_zero.mpr hf.2.1, rfl, ?_, hnone, ?_⟩
        · intro ii hii hcap
          have hii2 : ii < env.AXP_ConfigGet_CPUCount := hii
          have hrange : ii ∈ List.range env.AXP_21274_MAX_CPUS :=
            List.mem_range.mpr hcap
          have hok := List.all_eq_true.mp hc ii hrange
          have halloc : env.AXP_21264_AllocateCPU ii = true := by
            unfold cpuOk at hok
            simpa [hii2] using hok
          have hmem : ii ∈ (List.range env.AXP_21274_MAX_CPUS).filter
              (fun jj => decide (jj < env.AXP_ConfigGet_CPUCount) &&
                env.AXP_21264_AllocateCPU jj) := by
            rw [List.mem_filter]
            exact ⟨hrange, by simp [hii2, halloc]⟩
          refine ⟨?_, ?_, ?_⟩
          · rw [← mem_allocatedCpus, ha]
            exact hmem
          · rw [← mem_saveCalls, hsv, List.mem_map]
            exact ⟨ii, hmem, rfl⟩
          · rw [← mem_deallocated, hd]
            exact List.not_mem_nil _
        · intro hover
          exact ⟨hover, env.AXP_21274_MAX_CPUS, hover, hnone _ (le_refl _)⟩

theorem returned_system_cpu_count_unclamped_witness :
    (1 ≤ 5 ∧ 5 = (goodEnv 5 1).AXP_ConfigGet_CPUCount ∧
      (∀ ii, ii < 5 → ii < (goodEnv 5 1).AXP_21274_MAX_CPUS →
        Event.allocCPU ii true ∈ (AXP_21274_AllocateSystem (goodEnv 5 1)).trace ∧
        Event.saveSystemInterfaces (.cpu ii) (interfaceRefs ii) ∈
          (AXP_21274_AllocateSystem (goodEnv 5 1)).trace ∧
        Event.deallocate (.cpu ii) ∉ (AXP_21274_AllocateSystem (goodEnv 5 1)).trace) ∧
      (∀ ii, (goodEnv 5 1).AXP_21274_MAX_CPUS ≤ ii →
        Event.allocCPU ii true ∉ (AXP_21274_AllocateSystem (goodEnv 5 1)).trace) ∧
      ((goodEnv 5 1).AXP_21274_MAX_CPUS < (goodEnv 5 1).AXP_ConfigGet_CPUCount →
        (goodEnv 5 1).AXP_21274_MAX_CPUS < 5 ∧
          ∃ ii, ii < 5 ∧
            Event.allocCPU ii true ∉ (AXP_21274_AllocateSystem (goodEnv 5 1)).trace)) ∧
      (AXP_21274_AllocateSystem (goodEnv 5 1)).sys.map (fun s => s.cpuCount) = some 5 ∧
      (goodEnv 5 1).AXP_21274_MAX_CPUS = 4 ∧
      allocatedCpus (AXP_21274_AllocateSystem (goodEnv 5 1)).trace = [0, 1, 2, 3] :=
  have hsome : (AXP_21274_AllocateSystem (goodEnv 5 1)).sys.isSome = true := rfl
  ⟨returned_system_cpu_count_unclamped (goodEnv 5 1)
      ((AXP_21274_AllocateSystem (goodEnv 5 1)).sys.get hsome)
      (fun _ => rfl) (Option.some_get hsome).symm,
    rfl, rfl, by decide⟩

/-- Within the capacity the returned system is complete: three CPUs configured with four
slots give a system with `cpuCount` 3 and the CPUs 0, 1 and 2 allocated, each registered
and none deallocated. -/
theorem returned_system_within_capacity_example :
    (AXP_21274_AllocateSystem (goodEnv 3 2)).sys.map (fun s => s.cpuCount) = some 3 ∧
      allocatedCpus (AXP_21274_AllocateSystem (goodEnv 3 2)).trace = [0, 1, 2] ∧
      saveCalls (AXP_21274_AllocateSystem (goodEnv 3 2)).trace =
        [(.cpu 0, interfaceRefs 0), (.cpu 1, interfaceRefs 1), (.cpu 2, interfaceRefs 2)] ∧
      deallocated (AXP_21274_AllocateSystem (goodEnv 3 2)).trace = [] :=
  ⟨rfl, by decide, by decide, by decide⟩

/-! ### Cbox buffers -/

/-- C11: the data payload of a victim-buffer entry and of an IOWB entry,
`AXP_21264_DATA_SIZE` (8) quadwords of 8 bytes, is exactly 64 bytes, which is
`AXP_BCACHE_BLOCK_SIZE` and the size of one backup-cache block. -/
theorem sysData_is_one_bcache_block :
    vicBufSysDataBytes = 64 ∧ iowbSysDataBytes = 64 ∧
      AXP_21264_DATA_SIZE = 8 ∧ sizeof_u64 = 8 ∧
      AXP_21264_DATA_SIZE * sizeof_u64 = AXP_BCACHE_BLOCK_SIZE ∧
      vicBufSysDataBytes = AXP_BCACHE_BLOCK_SIZE ∧
      iowbSysDataBytes = AXP_BCACHE_BLOCK_SIZE ∧
      vicBufSysDataBytes = bcacheBlkBytes ∧ iowbSysDataBytes = bcacheBlkBytes := by
  decide

theorem mafValidCount_le (maf : MafTable) : mafValidCount maf ≤ AXP_21264_MAF_LEN := by
  unfold mafValidCount
  exact le_trans (List.countP_le_length _) (by simp)

theorem mafAllocate_handle (aligned : AXP_CBOX_MAF_TYPE → Nat → Bool) (maf : MafTable)
    (type : AXP_CBOX_MAF_TYPE) (pa mask : Nat) (refs : List Int) (ii : Nat)
    (h : (mafAllocate aligned maf type pa mask refs).2 = .handle ii) :
    ii < AXP_21264_MAF_LEN ∧ (maf ii).valid = false ∧
      (mafAllocate aligned maf type pa mask refs).1 =
        mafSet maf ii
          { type := type, pa := pa, mask := mask, lqSqEntry := refs, dataLen := 0,
            bufLen := 0, valid := true, complete := false, shared := false,
            ioReq := false } := by
  unfold mafAllocate at h ⊢
  by_cases ha : aligned type pa = false
  · simp [ha] at h
  · simp only [ha, if_false] at h ⊢
    cases hf : (List.range AXP_21264_MAF_LEN).find? (fun ii => !(maf ii).valid) with
    | none => simp [hf] at h
    | some jj =>
      simp only [hf] at h ⊢
      injection h with h
      subst h
      have hmem := List.mem_of_find?_eq_some hf
      have hp := List.find?_some hf
      exact ⟨List.mem_range.mp hmem, by simpa using hp, rfl⟩

theorem mafAllocate_exhausted_iff (aligned : AXP_CBOX_MAF_TYPE → Nat → Bool)
    (maf : MafTable) (type : AXP_CBOX_MAF_TYPE) (pa mask : Nat) (refs : List Int) :
    (mafAllocate aligned maf type pa mask refs).2 = .rejected .ResourceExhausted ↔
      aligned type pa = true ∧ mafValidCount maf = AXP_21264_MAF_LEN := by
  unfold mafAllocate mafValidCount
  by_cases ha : aligned type pa = false
  · simp [ha]
  · have ha2 : aligned type pa = true := by simpa using ha
    simp only [ha2, Bool.true_eq_false, if_false, true_and]
    cases hf : (List.range AXP_21264_MAF_LEN).find? (fun ii => !(maf ii).valid) with
    | none =>
      simp only [true_iff]
      rw [List.find?_eq_none] at hf
      have hall : ∀ ii ∈ List.range AXP_21264_MAF_LEN, (maf ii).valid = true := by
        intro ii hii
        simpa using hf ii hii
      rw [List.countP_eq_length.mpr (by simpa using hall)]
      simp
    | some jj =>
      have hmem := List.mem_of_find?_eq_some hf
      have hp := List.find?_some hf
      simp only [reduceCtorEq, false_iff]
      intro hc
      have hlen : (List.range AXP_21264_MAF_LEN).length = AXP_21264_MAF_LEN := by simp
      rw [← hlen] at hc
      have := (List.countP_eq_length.mp hc) jj hmem
      simp [this] at hp

theorem mafStep_keeps_completed (aligned : AXP_CBOX_MAF_TYPE → Nat → Bool)
    (maf : MafTable) (op : MafOp) (ii : Nat)
    (hv : (maf ii).valid = true ∧ (maf ii).complete = true) (hop : op ≠ .free ii) :
    ((mafStep aligned maf op).1 ii).valid = true ∧
      ((mafStep aligned maf op).1 ii).complete = true := by
  cases op with
  | allocate type pa mask refs =>
    cases hr : (mafAllocate aligned maf type pa mask refs).2 with
    | handle jj =>
      obtain ⟨-, hjj, heq⟩ := mafAllocate_handle aligned maf type pa mask refs jj hr
      have hne : ii ≠ jj := by
        intro h
        subst h
        rw [hv.1] at hjj
        cases hjj
      simp only [mafStep, heq, mafSet, hne, if_false]
      exact hv
    | done =>
      unfold mafAllocate at hr
      split_ifs at hr
      split at hr <;> cases hr
    | rejected e =>
      have heq : (mafAllocate aligned maf type pa mask refs).1 = maf := by
        unfold mafAllocate at hr ⊢
        split_ifs at hr ⊢
        · rfl
        · split at hr
          · simp_all
          · cases hr
      simp only [mafStep, heq]
      exact hv
  | complete handle =>
    simp only [mafStep, mafComplete]
    split_ifs with hc
    · have hne : ii ≠ handle := by
        intro h
        subst h
        rw [hv.2] at hc
        exact absurd hc.2.2 (by simp)
      simp only [mafSet, hne, if_false]
      exact hv
    · exact hv
  | free handle =>
    have hne : ii ≠ handle := by
      intro h
      subst h
      exact hop rfl
    simp only [mafStep, mafFree]
    split_ifs
    · simp only [mafSet, hne, if_false]
      exact hv
    · exact hv

theorem mafExec_keeps_completed (aligned : AXP_CBOX_MAF_TYPE → Nat → Bool)
    (ops : List MafOp) (maf : MafTable) (ii : Nat)
    (hv : (maf ii).valid = true ∧ (maf ii).complete = true)
    (hops : MafOp.free ii ∉ ops) :
    ((mafExec aligned maf ops) ii).valid = true ∧
      ((mafExec aligned maf ops) ii).complete = true := by
  induction ops generalizing maf with
  | nil => exact hv
  | cons op t ih =>
    have hop : op ≠ .free ii := fun h => hops (h ▸ List.mem_cons_self _ _)
    have ht : MafOp.free ii ∉ t := fun h => hops (List.mem_cons_of_mem _ h)
    exact ih _ (mafStep_keeps_completed aligned maf op ii hv hop) ht

theorem mafComplete_done (maf : MafTable) (ii : Nat)
    (h : (mafComplete maf ii).2 = .done) :
    ((mafComplete maf ii).1 ii).valid = true ∧
      ((mafComplete maf ii).1 ii).complete = true := by
  unfold mafComplete at h ⊢
  split_ifs at h ⊢ with hc
  simp [mafSet, hc.2.1]

theorem mafStep_valid_lt (aligned : AXP_CBOX_MAF_TYPE → Nat → Bool) (maf : MafTable)
    (op : MafOp) (hinv : ∀ jj, (maf jj).valid = true → jj < AXP_21264_MAF_LEN) :
    ∀ jj, ((mafStep aligned maf op).1 jj).valid = true → jj < AXP_21264_MAF_LEN := by
  intro jj hjj
  cases op with
  | allocate type pa mask refs =>
    simp only [mafStep, mafAllocate] at hjj
    split_ifs at hjj
    · exact hinv jj hjj
    · cases hf : (List.range AXP_21264_MAF_LEN).find? (fun ii => !(maf ii).valid) with
      | none =>
        simp only [hf] at hjj
        exact hinv jj hjj
      | some kk =>
        simp only [hf, mafSet] at hjj
        have hkk : kk < AXP_21264_MAF_LEN :=
          List.mem_range.mp (List.mem_of_find?_eq_some hf)
        by_cases hjk : jj = kk
        · rw [hjk]
          exact hkk
        · simp only [hjk, if_false] at hjj
          exact hinv jj hjj
  | complete handle =>
    simp only [mafStep, mafComplete] at hjj
    split_ifs at hjj with hc
    · by_cases hjk : jj = handle
      · rw [hjk]
        exact hc.1
      · simp only [mafSet, hjk, if_false] at hjj
        exact hinv jj hjj
    · exact hinv jj hjj
  | free handle =>
    simp only [mafStep, mafFree] at hjj
    split_ifs at hjj with hc
    · by_cases hjk : jj = handle
      · rw [hjk]
        exact hc.1
      · simp only [mafSet, hjk, if_false] at hjj
        exact hinv jj hjj
    · exact hinv jj hjj

theorem mafExec_valid_lt (aligned : AXP_CBOX_MAF_TYPE → Nat → Bool) (ops : List MafOp)
    (maf : MafTable) (hinv : ∀ jj, (maf jj).valid = true → jj < AXP_21264_MAF_LEN) :
    ∀ jj, ((mafExec aligned maf ops) jj).valid = true → jj < AXP_21264_MAF_LEN := by
  induction ops generalizing maf with
  | nil => exact hinv
  | cons op t ih => exact ih _ (mafStep_valid_lt aligned maf op hinv)

theorem countP_le_of_valid_lt (maf : MafTable)
    (hinv : ∀ jj, (maf jj).valid = true → jj < AXP_21264_MAF_LEN) (l : List Nat)
    (hl : l.Nodup) : l.countP (fun jj => (maf jj).valid) ≤ AXP_21264_MAF_LEN := by
  rw [List.countP_eq_length_filter]
  have hsub : l.filter (fun jj => (maf jj).valid) ⊆ List.range AXP_21264_MAF_LEN := by
    intro jj hjj
    rw [List.mem_filter] at hjj
    exact List.mem_range.mpr (hinv jj hjj.2)
  have hle := ((hl.filter _).subperm hsub).length_le
  simpa using hle

/-- C12: for every sequence of allocate / complete / free requests on the MAF (as the
spec describes the three operations), at most 8 entries are valid afterwards: every
valid entry sits in one of the slots 0..7, so among any slot indices without repetition,
whatever their range, at most 8 hold a valid entry.  An allocation is refused for lack
of room exactly when all 8 are valid, and between the completion of an entry and the
next allocation that hands out its slot the entry has been freed. -/
theorem maf_bounded_and_freed_before_reuse
    (aligned : AXP_CBOX_MAF_TYPE → Nat → Bool) (ops pre mid : List MafOp) (ii : Nat)
    (type : AXP_CBOX_MAF_TYPE) (pa mask : Nat) (refs : List Int)
    (hcomplete :
      (mafStep aligned (mafExec aligned mafInit pre) (.complete ii)).2 = .done)
    (hreuse :
      (mafStep aligned
        (mafExec aligned (mafStep aligned (mafExec aligned mafInit pre) (.complete ii)).1
          mid)
        (.allocate type pa mask refs)).2 = .handle ii) :
    (∀ jj, ((mafExec aligned mafInit ops) jj).valid = true → jj < 8) ∧
      (∀ l : List Nat, l.Nodup →
        l.countP (fun jj => ((mafExec aligned mafInit ops) jj).valid) ≤ 8) ∧
      mafValidCount (mafExec aligned mafInit ops) ≤ 8 ∧
      ((mafStep aligned (mafExec aligned mafInit ops) (.allocate type pa mask refs)).2 =
          .rejected .ResourceExhausted ↔
        aligned type pa = true ∧ mafValidCount (mafExec aligned mafInit ops) = 8) ∧
      MafOp.free ii ∈ mid := by
  have hvalid : ∀ jj, ((mafExec aligned mafInit ops) jj).valid = true →
      jj < AXP_21264_MAF_LEN :=
    mafExec_valid_lt aligned ops mafInit (fun jj h => by cases h)
  refine ⟨hvalid, countP_le_of_valid_lt _ hvalid, mafValidCount_le _,
    mafAllocate_exhausted_iff aligned _ type pa mask refs, ?_⟩
  by_contra hmid
  have h1 := mafComplete_done (mafExec aligned mafInit pre) ii hcomplete
  have h2 := mafExec_keeps_completed aligned mid _ ii h1 hmid
  obtain ⟨-, hinv, -⟩ := mafAllocate_handle aligned _ type pa mask refs ii hreuse
  simp only [mafStep] at hinv h2
  rw [h2.1] at hinv
  cases hinv

theorem maf_bounded_and_freed_before_reuse_witness :
    (∀ jj, ((mafExec (fun _ _ => true) mafInit
        [.allocate .LDx 4096 255 [], .allocate .STx 8192 255 []]) jj).valid = true →
        jj < 8) ∧
      (∀ l : List Nat, l.Nodup →
        l.countP (fun jj => ((mafExec (fun _ _ => true) mafInit
          [.allocate .LDx 4096 255 [], .allocate .STx 8192 255 []]) jj).valid) ≤ 8) ∧
      mafValidCount (mafExec (fun _ _ => true) mafInit
        [.allocate .LDx 4096 255 [], .allocate .STx 8192 255 []]) ≤ 8 ∧
      ((mafStep (fun _ _ => true) (mafExec (fun _ _ => true) mafInit
          [.allocate .LDx 4096 255 [], .allocate .STx 8192 255 []])
          (.allocate .LDx 64 255 [])).2 = .rejected .ResourceExhausted ↔
        (fun _ _ => true) AXP_CBOX_MAF_TYPE.LDx 64 = true ∧
          mafValidCount (mafExec (fun _ _ => true) mafInit
            [.allocate .LDx 4096 255 [], .allocate .STx 8192 255 []]) = 8) ∧
      MafOp.free 0 ∈ [MafOp.complete 1, MafOp.free 0] :=
  maf_bounded_and_freed_before_reuse (fun _ _ => true)
    [.allocate .LDx 4096 255 [], .allocate .STx 8192 255 []]
    [.allocate .LDx 4096 255 [], .allocate .STx 8192 255 []]
    [.complete 1, .free 0] 0 .LDx 64 255 [] (by decide) (by decide)

theorem find?_eq_some_of_unique (p : Nat → Bool) (l : List Nat) (ii : Nat)
    (hmem : ii ∈ l) (hp : p ii = true) (huniq : ∀ jj ∈ l, jj ≠ ii → p jj = false) :
    l.find? p = some ii := by
  induction l with
  | nil => cases hmem
  | cons a t ih =>
    by_cases ha : a = ii
    · subst ha
      simp [List.find?, hp]
    · have hpa : p a = false := huniq a (List.mem_cons_self _ _) ha
      have hmem2 : ii ∈ t := by
        rcases List.mem_cons.mp hmem with h | h
        · exact absurd h.symm ha
        · exact h
      simp only [List.find?, hpa]
      exact ih hmem2 (fun jj hjj => huniq jj (List.mem_cons_of_mem _ hjj))

theorem iowbMergeable_congr (e : AXP_21264_CBOX_IOWB) (w1 w2 : IoWrite)
    (hlen : w1.storeLen = w2.storeLen) (hblk : blockOf w1.pa = blockOf w2.pa) :
    iowbMergeable e w1 = iowbMergeable e w2 := by
  unfold iowbMergeable
  rw [hlen, hblk]

theorem iowbWrite_allocated (len : Nat) (iowb : IowbTable) (w : IoWrite) (ii : Nat)
    (h : (iowbWrite len iowb w).2 = .allocated ii) :
    ii < len ∧ (iowb ii).valid = false ∧
      (∀ jj ∈ List.range len, iowbMergeable (iowb jj) w = false) ∧
      (iowbWrite len iowb w).1 =
        iowbSet iowb ii
          { sysData := [], pa := w.pa, bufLen := w.storeLen, processed := false,
            valid := true, mask := w.mask, storeLen := w.storeLen,
            lqSqEntry := w.refs } := by
  unfold iowbWrite at h ⊢
  by_cases hin : w.inOneBlock = false
  · simp [hin] at h
  · simp only [hin, if_false] at h ⊢
    cases hm : (List.range len).find?
        (fun ii => iowbMergeable (iowb ii) w) with
    | some jj => simp [hm] at h
    | none =>
      simp only [hm] at h ⊢
      cases hf : (List.range len).find? (fun ii => !(iowb ii).valid) with
      | none => simp [hf] at h
      | some jj =>
        simp only [hf] at h ⊢
        injection h with h
        subst h
        have hmem := List.mem_of_find?_eq_some hf
        have hp := List.find?_some hf
        rw [List.find?_eq_none] at hm
        refine ⟨List.mem_range.mp hmem, by simpa using hp, ?_, rfl⟩
        intro kk hkk
        simpa using hm kk hkk

theorem iowbWrite_merged (len : Nat) (iowb : IowbTable) (w : IoWrite) (ii : Nat)
    (h : (iowbWrite len iowb w).2 = .merged ii) :
    ii < len ∧ iowbMergeable (iowb ii) w = true ∧
      (iowbWrite len iowb w).1 =
        iowbSet iowb ii { iowb ii with mask := (iowb ii).mask ||| w.mask } := by
  unfold iowbWrite at h ⊢
  by_cases hin : w.inOneBlock = false
  · simp [hin] at h
  · simp only [hin, if_false] at h ⊢
    cases hm : (List.range len).find?
        (fun ii => iowbMergeable (iowb ii) w) with
    | some jj =>
      simp only [hm] at h ⊢
      injection h with h
      subst h
      have hp := List.find?_some hm
      exact ⟨List.mem_range.mp (List.mem_of_find?_eq_some hm), by simpa using hp, rfl⟩
    | none =>
      simp only [hm] at h
      cases hf : (List.range len).find? (fun ii => !(iowb ii).valid) <;>
        simp [hf] at h

theorem iowbWrite_of_mergeable (len : Nat) (iowb : IowbTable) (w : IoWrite) (ii : Nat)
    (hin : w.inOneBlock = true)
    (hfind : (List.range len).find?
      (fun jj => iowbMergeable (iowb jj) w) = some ii) :
    iowbWrite len iowb w =
      (iowbSet iowb ii { iowb ii with mask := (iowb ii).mask ||| w.mask }, .merged ii) := by
  unfold iowbWrite
  simp only [hin, Bool.true_eq_false, if_false, hfind]

theorem iowbWrite_keeps_unmergeable_valid (len : Nat) (iowb : IowbTable) (w : IoWrite)
    (ii : Nat)
    (hv : (iowb ii).valid = true) (hm : iowbMergeable (iowb ii) w = false) :
    (iowbWrite len iowb w).2 ≠ .merged ii ∧ (iowbWrite len iowb w).1 ii = iowb ii := by
  constructor
  · intro h
    have := (iowbWrite_merged len iowb w ii h).2.1
    rw [hm] at this
    cases this
  · cases hr : (iowbWrite len iowb w).2 with
    | merged jj =>
      obtain ⟨-, hmj, heq⟩ := iowbWrite_merged len iowb w jj hr
      have hne : ii ≠ jj := by
        intro h
        subst h
        rw [hm] at hmj
        cases hmj
      rw [heq]
      simp [iowbSet, hne]
    | allocated jj =>
      obtain ⟨-, hvj, -, heq⟩ := iowbWrite_allocated len iowb w jj hr
      have hne : ii ≠ jj := by
        intro h
        subst h
        rw [hv] at hvj
        cases hvj
      rw [heq]
      simp [iowbSet, hne]
    | rejected e =>
      unfold iowbWrite at hr ⊢
      split_ifs at hr ⊢
      · rfl
      · split at hr
        · cases hr
        · split at hr
          · cases hr
          · simp_all

/-- C13: as the spec describes the IOWB, when an I/O write is given a new entry and a
second write to the same 64-byte-aligned block follows, then with equal store length
the second write merges into that entry, whose mask becomes the bitwise OR of the two
write masks, and every other entry is left as it was; with a different store length
the second write does not merge into that entry, which keeps the first mask; and a
write only ever merges into an entry of its own store length and block. -/
theorem iowb_merge_needs_equal_store_length (len : Nat) (iowb : IowbTable) (w1 w2 : IoWrite)
    (ii : Nat) (hfirst : (iowbWrite len iowb w1).2 = .allocated ii)
    (hblock : blockOf w1.pa = blockOf w2.pa) (hin : w2.inOneBlock = true) :
    (w1.storeLen = w2.storeLen →
        (iowbWrite len (iowbWrite len iowb w1).1 w2).2 = .merged ii ∧
        ((iowbWrite len (iowbWrite len iowb w1).1 w2).1 ii).mask = w1.mask ||| w2.mask ∧
        ∀ jj, jj ≠ ii →
          (iowbWrite len (iowbWrite len iowb w1).1 w2).1 jj =
            (iowbWrite len iowb w1).1 jj) ∧
      (w1.storeLen ≠ w2.storeLen →
        (iowbWrite len (iowbWrite len iowb w1).1 w2).2 ≠ .merged ii ∧
        ((iowbWrite len (iowbWrite len iowb w1).1 w2).1 ii).mask = w1.mask ∧
        (iowbWrite len (iowbWrite len iowb w1).1 w2).1 ii =
          (iowbWrite len iowb w1).1 ii) ∧
      (∀ jj, (iowbWrite len (iowbWrite len iowb w1).1 w2).2 = .merged jj →
        ((iowbWrite len iowb w1).1 jj).storeLen = w2.storeLen ∧
        blockOf ((iowbWrite len iowb w1).1 jj).pa = blockOf w2.pa) := by
  obtain ⟨hlt, hfree, hnone, heq⟩ := iowbWrite_allocated len iowb w1 ii hfirst
  have hentry : (iowbWrite len iowb w1).1 ii =
      { sysData := [], pa := w1.pa, bufLen := w1.storeLen, processed := false,
        valid := true, mask := w1.mask, storeLen := w1.storeLen,
        lqSqEntry := w1.refs } := by
    rw [heq]
    simp [iowbSet]
  refine ⟨?_, ?_, ?_⟩
  · intro hlen
    have hfind : (List.range len).find?
        (fun jj => iowbMergeable ((iowbWrite len iowb w1).1 jj) w2) = some ii := by
      apply find?_eq_some_of_unique
      · exact List.mem_range.mpr hlt
      · rw [hentry]
        simp [iowbMergeable, hlen, hblock]
      · intro jj hjj hne
        have : (iowbWrite len iowb w1).1 jj = iowb jj := by
          rw [heq]
          simp [iowbSet, hne]
        rw [this, ← iowbMergeable_congr (iowb jj) w1 w2 hlen hblock]
        exact hnone jj hjj
    rw [iowbWrite_of_mergeable len _ w2 ii hin hfind]
    refine ⟨rfl, ?_, ?_⟩
    · simp [iowbSet, hentry]
    · intro jj hne
      simp [iowbSet, hne]
  · intro hlen
    have hv : ((iowbWrite len iowb w1).1 ii).valid = true := by rw [hentry]
    have hm : iowbMergeable ((iowbWrite len iowb w1).1 ii) w2 = false := by
      rw [hentry]
      simp [iowbMergeable, hlen]
    obtain ⟨hne, hsame⟩ := iowbWrite_keeps_unmergeable_valid len _ w2 ii hv hm
    refine ⟨hne, ?_, hsame⟩
    rw [hsame, hentry]
  · intro jj hj
    have hm := (iowbWrite_merged len _ w2 jj hj).2.1
    simp only [iowbMergeable, Bool.and_eq_true, decide_eq_true_eq] at hm
    exact ⟨hm.1.2, hm.2⟩

theorem iowb_merge_needs_equal_store_length_witness :
    (iowbWrite 8 (iowbWrite 8 iowbInit { pa := 4096, mask := 1, storeLen := 8, refs := [] }).1
        { pa := 4104, mask := 2, storeLen := 8, refs := [] }).2 = .merged 0 ∧
      ((iowbWrite 8 (iowbWrite 8 iowbInit
          { pa := 4096, mask := 1, storeLen := 8, refs := [] }).1
        { pa := 4104, mask := 2, storeLen := 8, refs := [] }).1 0).mask = 1 ||| 2 ∧
      ∀ jj, jj ≠ 0 →
        (iowbWrite 8 (iowbWrite 8 iowbInit
            { pa := 4096, mask := 1, storeLen := 8, refs := [] }).1
          { pa := 4104, mask := 2, storeLen := 8, refs := [] }).1 jj =
        (iowbWrite 8 iowbInit { pa := 4096, mask := 1, storeLen := 8, refs := [] }).1 jj :=
  (iowb_merge_needs_equal_store_length 8 iowbInit
    { pa := 4096, mask := 1, storeLen := 8, refs := [] }
    { pa := 4104, mask := 2, storeLen := 8, refs := [] } 0
    (by decide) (by decide) (by decide)).1 rfl

/-- Two writes to one block with store lengths 8 and 4 take two entries, each keeping
its own mask. -/
theorem iowb_different_store_lengths_example :
    (iowbWrite 8 (iowbWrite 8 iowbInit { pa := 4096, mask := 1, storeLen := 8, refs := [] }).1
        { pa := 4104, mask := 2, storeLen := 4, refs := [] }).2 = .allocated 1 ∧
      ((iowbWrite 8 (iowbWrite 8 iowbInit
          { pa := 4096, mask := 1, storeLen := 8, refs := [] }).1
        { pa := 4104, mask := 2, storeLen := 4, refs := [] }).1 0).mask = 1 ∧
      ((iowbWrite 8 (iowbWrite 8 iowbInit
          { pa := 4096, mask := 1, storeLen := 8, refs := [] }).1
        { pa := 4104, mask := 2, storeLen := 4, refs := [] }).1 1).mask = 2 := by
  decide

/-! ### Floating-point helpers -/

theorem bitField_natCast (w n : Nat) : bitField w (n : Int) = n % 2 ^ w := by
  unfold bitField
  have h : ((n : Int) % (2 : Int) ^ w) = ((n % 2 ^ w : Nat) : Int) := by
    push_cast
    rfl
  rw [h, Int.toNat_ofNat]

theorem bitField_of_lt (w n : Nat) (h : n < 2 ^ w) : bitField w (n : Int) = n := by
  rw [bitField_natCast, Nat.mod_eq_of_lt h]

set_option maxRecDepth 100000 in
theorem exponent_fold_unfold :
    ∀ e < 256, ((((if e = 255 then 2047 else if e = 0 then 0 else e + 896) &&& 0x400) >>> 3)
      ||| ((if e = 255 then 2047 else if e = 0 then 0 else e + 896) &&& 0x07f)) = e := by
  decide

theorem widened_exponent (h : FpHeader) (hI : h.IEEE) (e : Nat) (he : e < 256) :
    bitField 11
        (if e = h.AXP_S_NAN then (h.AXP_T_NAN : Int)
          else if e = 0 then 0 else (e : Int) + h.AXP_T_BIAS - h.AXP_S_BIAS) =
      (if e = 255 then 2047 else if e = 0 then 0 else e + 896) := by
  obtain ⟨h1, h2, h3, h4⟩ := hI
  rw [h1, h2, h3, h4]
  by_cases e255 : e = 255
  · simp [e255, bitField]
  · by_cases e0 : e = 0
    · simp [e0, bitField]
    · simp only [e255, e0, if_false]
      have : ((e : Int) + ((0x3ff : Nat) : Int) - ((0x7f : Nat) : Int)) =
          ((e + 896 : Nat) : Int) := by
        push_cast
        omega
      rw [this, bitField_of_lt]
      omega

/-- C15: for every IEEE S pattern (sign bit, 8-bit exponent, 23-bit fraction), with the
IEEE values of the exponent constants, converting it to register format with
`AXP_FP_CvtFloatToFPR` and back with `AXP_FP_CvtFPRToFloat` gives the same sign,
exponent and fraction, exponents 0 and 0xFF included. -/
theorem cvt_float_to_fpr_and_back (h : FpHeader) (hI : h.IEEE) (x : AXP_S_MEMORY)
    (hs : x.sign < 2) (he : x.exponent < 2 ^ 8) (hf : x.fraction < 2 ^ 23) :
    AXP_FP_CvtFPRToFloat (AXP_FP_CvtFloatToFPR h x) = x := by
  obtain ⟨s, e, f⟩ := x
  simp only at hs he hf
  have hexp := widened_exponent h hI e (by omega)
  have hfold := exponent_fold_unfold e (by omega)
  unfold AXP_FP_CvtFPRToFloat AXP_FP_CvtFloatToFPR AXP_FP_REGISTER.ofFpr32
    AXP_FP_REGISTER.fpr32_fraction
  simp only [hexp, hfold]
  have hs1 : bitField 1 (s : Int) = s := bitField_of_lt 1 s (by omega)
  have hf1 : bitField 23 (f : Int) = f := bitField_of_lt 23 f hf
  have hz : bitField 29 (0 : Int) = 0 := by simp [bitField]
  have hfr : (f * 2 ^ 29 + 0) / 2 ^ 29 % 2 ^ 23 = f := by omega
  rw [hs1, hf1, hz, hfr, hs1, hf1, bitField_of_lt 8 e he]

theorem cvt_float_to_fpr_and_back_witness :
    AXP_FP_CvtFPRToFloat (AXP_FP_CvtFloatToFPR exampleFpHeader
        { sign := 1, exponent := 0xff, fraction := 0x400001 }) =
      { sign := 1, exponent := 0xff, fraction := 0x400001 } :=
  cvt_float_to_fpr_and_back exampleFpHeader ⟨rfl, rfl, rfl, rfl⟩
    { sign := 1, exponent := 0xff, fraction := 0x400001 } (by decide) (by decide)
    (by decide)

/-- C16: in `AXP_FP_CvtX2G` the exponent of the first operand goes through
`AXP_FP_CVT_EXP_X2G` and that of the second through `AXP_FP_CVT_EXP_G2X`, whatever the
two macros are; with macros that shift by the bias difference, the IEEE X value 1.0
becomes exponent 0x400 as first operand and 0x3fe as second, so the second operand is
not converted like the first. -/
theorem cvtX2G_second_operand_differs :
    (∀ (h : FpHeader) (v w : AXP_X_MEMORY) (g : AXP_FPR_REGISTER),
        (AXP_FP_CvtX2G h v none g).1 =
          { sign := bitField 1 v.sign,
            exponent := bitField 11 (h.AXP_FP_CVT_EXP_X2G v.sign v.exponent v.fraction),
            fraction := bitField 52 v.fraction } ∧
        (AXP_FP_CvtX2G h w (some v) g).2 =
          { sign := bitField 1 v.sign,
            exponent := bitField 11 (h.AXP_FP_CVT_EXP_G2X v.sign v.exponent v.fraction),
            fraction := bitField 52 v.fraction }) ∧
      (AXP_FP_CvtX2G exampleFpHeader xOne none tOne).1 =
        { sign := 0, exponent := 0x400, fraction := 0 } ∧
      (AXP_FP_CvtX2G exampleFpHeader xOne (some xOne) tOne).2 =
        { sign := 0, exponent := 0x3fe, fraction := 0 } ∧
      (AXP_FP_CvtX2G exampleFpHeader xOne (some xOne) tOne).2 ≠
        (AXP_FP_CvtX2G exampleFpHeader xOne none tOne).1 := by
  refine ⟨fun h v w g => ⟨rfl, rfl⟩, by decide, by decide, by decide⟩

/-- Whenever the overflow test fails and the converted value is classified Finite or
Zero, `AXP_FP_CvtX2GOverUnderflow` returns what its local `retVal` held on entry. -/
theorem cvtX2GOverUnderflow_unassigned (h : FpHeader) (fe : FenvConsts) (retVal : Int)
    (src1 : AXP_X_MEMORY)
    (hov : ¬ ((src1.exponent : Int) - h.AXP_X_BIAS > h.AXP_S_BIAS))
    (henc : h.AXP_FP_ENCODE (AXP_FP_CvtX2GOverUnderflow h fe retVal src1).2 false = .Finite ∨
      h.AXP_FP_ENCODE (AXP_FP_CvtX2GOverUnderflow h fe retVal src1).2 false = .Zero) :
    (AXP_FP_CvtX2GOverUnderflow h fe retVal src1).1 = retVal := by
  unfold AXP_FP_CvtX2GOverUnderflow at henc ⊢
  simp only [hov, if_false] at henc ⊢
  split <;> simp_all

/-- C17: for the IEEE X value 1.0 the overflow test of `AXP_FP_CvtX2GOverUnderflow` is
false and the converted value is classified Finite, yet the function returns 7 when its
local `retVal`, which has no initialiser and is not assigned on this path, holds 7; it
does not return 0. -/
theorem cvtX2GOverUnderflow_returns_stale_value :
    ¬ ((xOne.exponent : Int) - exampleFpHeader.AXP_X_BIAS > exampleFpHeader.AXP_S_BIAS) ∧
      exampleFpHeader.AXP_FP_ENCODE
        (AXP_FP_CvtX2GOverUnderflow exampleFpHeader exampleFenv 7 xOne).2 false = .Finite ∧
      (AXP_FP_CvtX2GOverUnderflow exampleFpHeader exampleFenv 7 xOne).1 = 7 ∧
      (AXP_FP_CvtX2GOverUnderflow exampleFpHeader exampleFenv 7 xOne).1 ≠ 0 := by
  decide

/-- C18: with a NULL `src2`, `AXP_FP_CheckForIEEEInvalid` reads through the NULL pointer,
for every `src1` and every `AXP_FP_ENCODE`: it does not complete with a result. -/
theorem checkForIEEEInvalid_null_src2 (h : FpHeader) (src1 : AXP_FP_REGISTER) :
    AXP_FP_CheckForIEEEInvalid h src1 none = none := by
  rfl

/-- Independently of the values of the header and `fenv.h` constants: when only
FE_INEXACT is raised and the function field carries the /I qualifier, `AXP_FP_SetFPCR`
returns the FPCR image unchanged. -/
theorem setFPCR_skips_inexact_under_I (h : FpHeader) (fe : FenvConsts) (func : AXP_FP_FUNC)
    (insFpcr : AXP_FBOX_FPCR) (integerOverflow : Bool)
    (hI : func.trp &&& h.AXP_FP_TRP_I ≠ 0)
    (h1 : fe.FE_INEXACT &&& fe.FE_DIVBYZERO = 0) (h2 : fe.FE_INEXACT &&& fe.FE_INVALID = 0)
    (h3 : fe.FE_INEXACT &&& fe.FE_OVERFLOW = 0)
    (h4 : fe.FE_INEXACT &&& fe.FE_UNDERFLOW = 0) :
    (AXP_FP_SetFPCR h fe func insFpcr fe.FE_INEXACT integerOverflow).1 = insFpcr := by
  unfold AXP_FP_SetFPCR
  simp [h1, h2, h3, h4, hI]

/-- Independently of the values of the header and `fenv.h` constants: when only
FE_UNDERFLOW is raised and the function field lacks the /U qualifier, `AXP_FP_SetFPCR`
returns the FPCR image unchanged. -/
theorem setFPCR_skips_underflow_without_U (h : FpHeader) (fe : FenvConsts)
    (func : AXP_FP_FUNC) (insFpcr : AXP_FBOX_FPCR) (integerOverflow : Bool)
    (hU : func.trp &&& h.AXP_FP_TRP_U = 0)
    (h1 : fe.FE_UNDERFLOW &&& fe.FE_DIVBYZERO = 0)
    (h2 : fe.FE_UNDERFLOW &&& fe.FE_INVALID = 0)
    (h3 : fe.FE_UNDERFLOW &&& fe.FE_OVERFLOW = 0)
    (h4 : fe.FE_UNDERFLOW &&& fe.FE_INEXACT = 0) :
    (AXP_FP_SetFPCR h fe func insFpcr fe.FE_UNDERFLOW integerOverflow).1 = insFpcr := by
  unfold AXP_FP_SetFPCR
  simp [h1, h2, h3, h4, hU]

/-- C19: `AXP_FP_SetFPCR` leaves the instruction's FPCR image untouched (`ine` and `sum`
stay 0) when FE_INEXACT is raised under the /I trap qualifier, and likewise (`unf` and
`sum` stay 0) when FE_UNDERFLOW is raised without the /U qualifier; the same flags are
recorded with the opposite qualifier setting. -/
theorem setFPCR_misses_inexact_and_underflow :
    (AXP_FP_SetFPCR exampleFpHeader exampleFenv
        { fnc := 0, src := 0, rnd := 0, trp := exampleFpHeader.AXP_FP_TRP_I, res := 0 }
        fpcrZero exampleFenv.FE_INEXACT false).1 = fpcrZero ∧
      (AXP_FP_SetFPCR exampleFpHeader exampleFenv
        { fnc := 0, src := 0, rnd := 0, trp := 0, res := 0 }
        fpcrZero exampleFenv.FE_UNDERFLOW false).1 = fpcrZero ∧
      (AXP_FP_SetFPCR exampleFpHeader exampleFenv
        { fnc := 0, src := 0, rnd := 0, trp := 0, res := 0 }
        fpcrZero exampleFenv.FE_INEXACT false).1 = { fpcrZero with ine := 1, sum := 1 } ∧
      (AXP_FP_SetFPCR exampleFpHeader exampleFenv
        { fnc := 0, src := 0, rnd := 0, trp := exampleFpHeader.AXP_FP_TRP_U, res := 0 }
        fpcrZero exampleFenv.FE_UNDERFLOW false).1 = { fpcrZero with unf := 1, sum := 1 } := by
  decide

theorem fesetround_of_mem (fe : FenvConsts) (round : Int) (st : FenvState)
    (h : round ∈ fe.roundingModes) :
    fesetround fe round st = (0, { st with rounding := round }) := by
  unfold fesetround
  rw [if_pos h]

/-- C20: `AXP_FP_SetRoundingMode` returns the rounding mode in force before the call,
for every function field, FPCR and header constants; calling it again with cpu = NULL
and the returned value puts the floating-point environment back as it was before the
first call (the saved mode being one `fesetround` accepts), without an error message. -/
theorem setRoundingMode_save_restore (h : FpHeader) (fe : FenvConsts)
    (fpcr : AXP_FBOX_FPCR) (func func2 : AXP_FP_FUNC)
    (resetRoundingMode junk junk2 : Int) (st : FenvState)
    (hvalid : st.rounding ∈ fe.roundingModes) :
    (AXP_FP_SetRoundingMode h fe (some fpcr) func resetRoundingMode junk st).ret =
        st.rounding ∧
      (AXP_FP_SetRoundingMode h fe none func2
        (AXP_FP_SetRoundingMode h fe (some fpcr) func resetRoundingMode junk st).ret junk2
        (AXP_FP_SetRoundingMode h fe (some fpcr) func resetRoundingMode junk st).env).env =
        st ∧
      (AXP_FP_SetRoundingMode h fe none func2
        (AXP_FP_SetRoundingMode h fe (some fpcr) func resetRoundingMode junk st).ret junk2
        (AXP_FP_SetRoundingMode h fe (some fpcr) func resetRoundingMode junk st).env
        ).complained = false := by
  have hret : (AXP_FP_SetRoundingMode h fe (some fpcr) func resetRoundingMode junk st).ret =
      st.rounding := rfl
  have henv : ∀ m, (fesetround fe m st).2.enabled = st.enabled := by
    intro m
    unfold fesetround
    split_ifs <;> rfl
  have hen : (AXP_FP_SetRoundingMode h fe (some fpcr) func resetRoundingMode junk
      st).env.enabled = st.enabled := henv _
  refine ⟨hret, ?_, ?_⟩
  · rw [hret]
    simp only [AXP_FP_SetRoundingMode, fesetround_of_mem fe st.rounding _ hvalid]
    cases st
    simp only [FenvState.mk.injEq, true_and]
    exact hen
  · rw [hret]
    simp only [AXP_FP_SetRoundingMode, fesetround_of_mem fe st.rounding _ hvalid]
    simp

theorem setRoundingMode_save_restore_witness :
    (AXP_FP_SetRoundingMode exampleFpHeader exampleFenv (some { fpcrZero with dyn := 3 })
        { fnc := 0, src := 0, rnd := 3, trp := 0, res := 0 } 0 99
        { rounding := 0, enabled := 0 }).ret = 0 ∧
      (AXP_FP_SetRoundingMode exampleFpHeader exampleFenv none
        { fnc := 0, src := 0, rnd := 0, trp := 0, res := 0 }
        (AXP_FP_SetRoundingMode exampleFpHeader exampleFenv (some { fpcrZero with dyn := 3 })
          { fnc := 0, src := 0, rnd := 3, trp := 0, res := 0 } 0 99
          { rounding := 0, enabled := 0 }).ret 98
        (AXP_FP_SetRoundingMode exampleFpHeader exampleFenv (some { fpcrZero with dyn := 3 })
          { fnc := 0, src := 0, rnd := 3, trp := 0, res := 0 } 0 99
          { rounding := 0, enabled := 0 }).env).env = { rounding := 0, enabled := 0 } ∧
      (AXP_FP_SetRoundingMode exampleFpHeader exampleFenv none
        { fnc := 0, src := 0, rnd := 0, trp := 0, res := 0 }
        (AXP_FP_SetRoundingMode exampleFpHeader exampleFenv (some { fpcrZero with dyn := 3 })
          { fnc := 0, src := 0, rnd := 3, trp := 0, res := 0 } 0 99
          { rounding := 0, enabled := 0 }).ret 98
        (AXP_FP_SetRoundingMode exampleFpHeader exampleFenv (some { fpcrZero with dyn := 3 })
          { fnc := 0, src := 0, rnd := 3, trp := 0, res := 0 } 0 99
          { rounding := 0, enabled := 0 }).env).complained = false :=
  setRoundingMode_save_restore exampleFpHeader exampleFenv { fpcrZero with dyn := 3 }
    { fnc := 0, src := 0, rnd := 3, trp := 0, res := 0 }
    { fnc := 0, src := 0, rnd := 0, trp := 0, res := 0 } 0 99 98
    { rounding := 0, enabled := 0 } (by decide)

/-- The first call of the example really changes the mode: dynamic rounding with
`dyn` = plus infinity installs FE_UPWARD. -/
theorem setRoundingMode_example_changes_mode :
    (AXP_FP_SetRoundingMode exampleFpHeader exampleFenv (some { fpcrZero with dyn := 3 })
        { fnc := 0, src := 0, rnd := 3, trp := 0, res := 0 } 0 99
        { rounding := 0, enabled := 0 }).env.rounding = 0x800 := by
  decide

/-! ### The Cbox CSR bit-fields -/

/-- C28: in `AXP_21264_CBOX_CSRS` the bit-field widths fill their storage units exactly:
cut after the reserved members `res_1` .. `res_4`, the members form four groups whose
widths sum to 64, 64, 32 and 32 bits, each the width of the declared type of its
members (`u64`, `u64`, `u32`, `u32`); the third group is SysFrameLdVector, BcRdWrBubbles,
res_3 and the fourth BcLatTagPattern, res_4; and the 4-bit BcSize field can hold each of
the five backup-cache size codes. -/
theorem cbox_csr_bitfields_fill_units :
    (splitAfterReserved cboxCsrBitFields).map widthSum = [64, 64, 32, 32] ∧
      (splitAfterReserved cboxCsrBitFields).map (fun g => (g.getLast?).map (fun f => f.1)) =
        [some "res_1", some "res_2", some "res_3", some "res_4"] ∧
      (∀ g ∈ splitAfterReserved cboxCsrBitFields, ∀ f ∈ g, f.2.1 = widthSum g) ∧
      (splitAfterReserved cboxCsrBitFields).flatten = cboxCsrBitFields ∧
      (splitAfterReserved cboxCsrBitFields).drop 2 =
        [[("SysFrameLdVector", 32, 5), ("BcRdWrBubbles", 32, 6), ("res_3", 32, 21)],
         [("BcLatTagPattern", 32, 24), ("res_4", 32, 8)]] ∧
      csrFieldWidth "BcSize" = some 4 ∧
      (∀ s : BcacheSize, s.code < 2 ^ 4) := by
  refine ⟨by decide, by decide, by decide, by decide, by decide, by decide, ?_⟩
  intro s
  cases s <;> decide

/-! ### The probe packing macro as written -/

theorem shiftLeft_three_eq_zero_iff (a : Nat) : a <<< 3 = 0 ↔ a = 0 := by
  rw [Nat.shiftLeft_eq]
  omega

/-- C27: `AXP_21264_SET_PROBE` combines its fields with the logical OR.  For every dm and
ns its value is 0 when `dm & 3 = 0` and `ns & 7 = 0`, and 1 otherwise; so the value is
always 0 or 1, and distinct pairs of named codes are not kept apart: (RDHIT, NOP) and
(RDDIRTY, INVALID) both give 1, as does every pair other than (NOP, NOP) of the named
codes. -/
theorem set_probe_value_is_zero_or_one (dm ns : Nat) :
    AXP_21264_SET_PROBE dm ns = (if dm &&& 0x03 = 0 ∧ ns &&& 0x07 = 0 then 0 else 1) ∧
      (AXP_21264_SET_PROBE dm ns = 0 ∨ AXP_21264_SET_PROBE dm ns = 1) ∧
      AXP_21264_SET_PROBE AXP_21264_DM_RDHIT AXP_21264_NS_NOP =
        AXP_21264_SET_PROBE AXP_21264_DM_RDDIRTY AXP_21264_NS_INVALID ∧
      (∀ d ∈ dmCodes, ∀ n ∈ nsCodes,
        AXP_21264_SET_PROBE d n = if d = AXP_21264_DM_NOP ∧ n = AXP_21264_NS_NOP then 0 else 1) := by
  have hval : AXP_21264_SET_PROBE dm ns =
      (if dm &&& 0x03 = 0 ∧ ns &&& 0x07 = 0 then 0 else 1) := by
    unfold AXP_21264_SET_PROBE logicalOr
    by_cases h1 : dm &&& 0x03 = 0 <;> by_cases h2 : ns &&& 0x07 = 0 <;>
      simp [h1, h2, shiftLeft_three_eq_zero_iff]
  refine ⟨hval, ?_, by decide, by decide⟩
  rw [hval]
  split_ifs
  · exact Or.inl rfl
  · exact Or.inr rfl

/-! ### Invalid-operation check with two operands -/

/-- C23: for two non-NULL operands `AXP_FP_CheckForIEEEInvalid` completes, and returns
true iff both operands are infinities of opposite sign, or `src1` is a NaN with quiet
bit 0, or `src2` is a NaN with quiet bit 0; the result is the same with the operands
swapped.  This holds for every classification macro `AXP_FP_ENCODE`. -/
theorem checkForIEEEInvalid_two_operands (h : FpHeader) (src1 src2 : AXP_FP_REGISTER) :
    AXP_FP_CheckForIEEEInvalid h src1 (some src2) =
        some (decide
          ((h.AXP_FP_ENCODE src1 true = AXP_FP_ENCODING.Infinity ∧
              h.AXP_FP_ENCODE src2 true = AXP_FP_ENCODING.Infinity ∧
              src1.sign ≠ src2.sign) ∨
            (h.AXP_FP_ENCODE src1 true = AXP_FP_ENCODING.NotANumber ∧
              src1.fprQ_quiet = 0) ∨
            (h.AXP_FP_ENCODE src2 true = AXP_FP_ENCODING.NotANumber ∧
              src2.fprQ_quiet = 0))) ∧
      AXP_FP_CheckForIEEEInvalid h src1 (some src2) =
        AXP_FP_CheckForIEEEInvalid h src2 (some src1) := by
  have hval : ∀ a b : AXP_FP_REGISTER,
      AXP_FP_CheckForIEEEInvalid h a (some b) =
        some (decide
          ((h.AXP_FP_ENCODE a true = AXP_FP_ENCODING.Infinity ∧
              h.AXP_FP_ENCODE b true = AXP_FP_ENCODING.Infinity ∧ a.sign ≠ b.sign) ∨
            (h.AXP_FP_ENCODE a true = AXP_FP_ENCODING.NotANumber ∧ a.fprQ_quiet = 0) ∨
            (h.AXP_FP_ENCODE b true = AXP_FP_ENCODING.NotANumber ∧ b.fprQ_quiet = 0))) := by
    intro a b
    unfold AXP_FP_CheckForIEEEInvalid
    by_cases h1 : h.AXP_FP_ENCODE a true = AXP_FP_ENCODING.Infinity <;>
      by_cases h2 : h.AXP_FP_ENCODE b true = AXP_FP_ENCODING.Infinity <;>
      by_cases h3 : a.sign = b.sign <;>
      by_cases h4 : h.AXP_FP_ENCODE a true = AXP_FP_ENCODING.NotANumber <;>
      by_cases h5 : h.AXP_FP_ENCODE b true = AXP_FP_ENCODING.NotANumber <;>
      by_cases h6 : a.fprQ_quiet = 0 <;>
      by_cases h7 : b.fprQ_quiet = 0 <;>
      simp_all
  refine ⟨hval src1 src2, ?_⟩
  rw [hval src1 src2, hval src2 src1]
  congr 1
  by_cases h3 : src1.sign = src2.sign
  · simp only [h3, ne_eq, not_true_eq_false, and_false, false_or, decide_eq_decide]
    tauto
  · have h3b : ¬ src2.sign = src1.sign := fun e => h3 e.symm
    simp only [h3, h3b, ne_eq, not_false_eq_true, and_true, decide_eq_decide]
    tauto

/-- An instance with the example classification: +infinity with -infinity is an invalid
operation, +infinity with +infinity is not, and a NaN with quiet bit 0 is on either
side. -/
theorem checkForIEEEInvalid_examples :
    AXP_FP_CheckForIEEEInvalid exampleFpHeader
        { sign := 0, exponent := 0x7ff, fraction := 0 }
        (some { sign := 1, exponent := 0x7ff, fraction := 0 }) = some true ∧
      AXP_FP_CheckForIEEEInvalid exampleFpHeader
        { sign := 0, exponent := 0x7ff, fraction := 0 }
        (some { sign := 0, exponent := 0x7ff, fraction := 0 }) = some false ∧
      AXP_FP_CheckForIEEEInvalid exampleFpHeader
        { sign := 0, exponent := 0x7ff, fraction := 1 } (some tOne) = some true ∧
      AXP_FP_CheckForIEEEInvalid exampleFpHeader tOne
        (some { sign := 0, exponent := 0x7ff, fraction := 1 }) = some true ∧
      AXP_FP_CheckForIEEEInvalid exampleFpHeader tOne (some tOne) = some false := by
  decide

/-! ### Branch prediction -/

/-- C24: when the fall-through bit of `bp_mode` is set, `AXP_Branch_Prediction` returns
false and stores false in `*localTaken`, `*globalTaken` and `*choice`, for every vpc and
every content of the four tables and of the global path history. -/
theorem branch_prediction_fall_through (p : PredHeader) (cpu : PredictorState) (vpc : Nat)
    (hfall : cpu.bp_mode &&& p.AXP_I_CTL_BP_MODE_FALL = p.AXP_I_CTL_BP_MODE_FALL) :
    AXP_Branch_Prediction p cpu vpc =
      { retVal := false, localTaken := false, globalTaken := false, choice := false } := by
  unfold AXP_Branch_Prediction
  simp [hfall]

theorem branch_prediction_fall_through_witness :
    (examplePredictorState 3).bp_mode &&& examplePredHeader.AXP_I_CTL_BP_MODE_FALL =
        examplePredHeader.AXP_I_CTL_BP_MODE_FALL ∧
      AXP_Branch_Prediction examplePredHeader (examplePredictorState 3) 0x1000 =
        { retVal := false, localTaken := false, globalTaken := false, choice := false } :=
  ⟨by decide,
    branch_prediction_fall_through examplePredHeader (examplePredictorState 3) 0x1000
      (by decide)⟩

/-- C25: for every predictor state and vpc the value `AXP_Branch_Prediction` returns is
`*choice ? *globalTaken : *localTaken` of the outputs it stores.  When the fall-through
bit is clear and `bp_mode` is not the choice mode (local-history mode), it stores false
in `*globalTaken` and `*choice` and returns the decision of the local predictor, the
3-bit counter selected by the local history of the vpc. -/
theorem branch_prediction_returns_selected (p : PredHeader) (cpu : PredictorState)
    (vpc : Nat) :
    (AXP_Branch_Prediction p cpu vpc).retVal =
        (if (AXP_Branch_Prediction p cpu vpc).choice = true then
          (AXP_Branch_Prediction p cpu vpc).globalTaken
        else (AXP_Branch_Prediction p cpu vpc).localTaken) ∧
      (cpu.bp_mode &&& p.AXP_I_CTL_BP_MODE_FALL ≠ p.AXP_I_CTL_BP_MODE_FALL →
        cpu.bp_mode ≠ p.AXP_I_CTL_BP_MODE_CHOICE →
        (AXP_Branch_Prediction p cpu vpc).globalTaken = false ∧
          (AXP_Branch_Prediction p cpu vpc).choice = false ∧
          (AXP_Branch_Prediction p cpu vpc).localTaken =
            p.AXP_3BIT_TAKE (cpu.lcl_pred (cpu.lcl_history (p.lptIndex vpc))) ∧
          (AXP_Branch_Prediction p cpu vpc).retVal =
            p.AXP_3BIT_TAKE (cpu.lcl_pred (cpu.lcl_history (p.lptIndex vpc)))) := by
  constructor
  · unfold AXP_Branch_Prediction
    by_cases hf : cpu.bp_mode &&& p.AXP_I_CTL_BP_MODE_FALL = p.AXP_I_CTL_BP_MODE_FALL
    · simp [hf]
    · by_cases hc : cpu.bp_mode = p.AXP_I_CTL_BP_MODE_CHOICE
      · simp only [hf, ne_eq, not_false_eq_true, if_true]
        simp only [hc, if_true]
        cases p.AXP_3BIT_TAKE (cpu.lcl_pred (cpu.lcl_history (p.lptIndex vpc))) <;>
          cases p.AXP_2BIT_TAKE (cpu.gbl_pred cpu.globalPathHistory) <;>
          cases p.AXP_2BIT_TAKE (cpu.choice_pred cpu.globalPathHistory) <;> simp
      · simp [hf, hc]
  · intro hf hc
    unfold AXP_Branch_Prediction
    simp [hf, hc]

theorem branch_prediction_returns_selected_witness :
    (AXP_Branch_Prediction examplePredHeader (examplePredictorState 0) 0x1000).retVal =
        false ∧
      AXP_Branch_Prediction examplePredHeader (examplePredictorState 0) 0x1000 =
        { retVal := false, localTaken := true, globalTaken := false, choice := true } ∧
      AXP_Branch_Prediction examplePredHeader (examplePredictorState 1) 0x1000 =
        { retVal := true, localTaken := true, globalTaken := false, choice := false } ∧
      (AXP_Branch_Prediction examplePredHeader (examplePredictorState 1) 0x1000).retVal =
        examplePredHeader.AXP_3BIT_TAKE 5 :=
  ⟨((branch_prediction_returns_selected examplePredHeader (examplePredictorState 0)
      0x1000).1).trans (by decide),
    by decide, by decide,
    ((branch_prediction_returns_selected examplePredHeader (examplePredictorState 1)
      0x1000).2 (by decide) (by decide)).2.2.2⟩

/-- C26: `AXP_Branch_Direction` updates the choice-predictor counter at the global path
history of entry.  The new counter is the decrement of the old one exactly when the
local prediction matched the outcome and the global one did not, the increment exactly
when the global prediction matched and the local one did not, and the old counter when
both were right or both were wrong.  No other choice counter changes. -/
theorem branch_direction_choice_update (p : PredHeader) (cpu : PredictorState) (vpc : Nat)
    (taken localTaken globalTaken : Bool) :
    (AXP_Branch_Direction p cpu vpc taken localTaken globalTaken).choice_pred
          cpu.globalPathHistory =
        (if localTaken = taken ∧ globalTaken ≠ taken then
          p.AXP_2BIT_DECR (cpu.choice_pred cpu.globalPathHistory)
        else if globalTaken = taken ∧ localTaken ≠ taken then
          p.AXP_2BIT_INCR (cpu.choice_pred cpu.globalPathHistory)
        else cpu.choice_pred cpu.globalPathHistory) ∧
      ((localTaken = taken ↔ globalTaken = taken) →
        (AXP_Branch_Direction p cpu vpc taken localTaken globalTaken).choice_pred =
          cpu.choice_pred) ∧
      (∀ jj, jj ≠ cpu.globalPathHistory →
        (AXP_Branch_Direction p cpu vpc taken localTaken globalTaken).choice_pred jj =
          cpu.choice_pred jj) := by
  refine ⟨?_, ?_, ?_⟩
  · unfold AXP_Branch_Direction
    cases taken <;> cases localTaken <;> cases globalTaken <;> simp [tableSet]
  · intro hboth
    unfold AXP_Branch_Direction
    cases taken <;> cases localTaken <;> cases globalTaken <;> simp_all
  · intro jj hjj
    unfold AXP_Branch_Direction
    cases taken <;> cases localTaken <;> cases globalTaken <;> simp [tableSet, hjj]

theorem branch_direction_choice_update_witness :
    (AXP_Branch_Direction examplePredHeader (examplePredictorState 0) 0x1000
        true true false).choice_pred 0 = 1 ∧
      (AXP_Branch_Direction examplePredHeader (examplePredictorState 0) 0x1000
        false true false).choice_pred 0 = 3 ∧
      (AXP_Branch_Direction examplePredHeader (examplePredictorState 0) 0x1000
        true true true).choice_pred = (examplePredictorState 0).choice_pred :=
  ⟨((branch_direction_choice_update examplePredHeader (examplePredictorState 0) 0x1000
      true true false).1).trans (by decide),
    ((branch_direction_choice_update examplePredHeader (examplePredictorState 0) 0x1000
      false true false).1).trans (by decide),
    (branch_direction_choice_update examplePredHeader (examplePredictorState 0) 0x1000
      true true true).2.1 (by decide)⟩

/-! ### Exception mode -/

theorem lor_eq_zero_iff_both (a b : Nat) : a ||| b = 0 ↔ a = 0 ∧ b = 0 := by
  constructor
  · intro h
    have key : ∀ i, (a.testBit i || b.testBit i) = false := by
      intro i
      rw [← Nat.testBit_or, h]
      simp
    constructor <;> apply Nat.eq_of_testBit_eq <;> intro i <;> have hk := key i <;>
      simp_all
  · rintro ⟨rfl, rfl⟩
    rfl

theorem clear_then_set_restores (e b a : Nat) :
    (e ^^^ (e &&& (b &&& a))) ||| (e &&& a) = e := by
  apply Nat.eq_of_testBit_eq
  intro i
  simp only [Nat.testBit_or, Nat.testBit_xor, Nat.testBit_and]
  cases e.testBit i <;> cases b.testBit i <;> cases a.testBit i <;> rfl

theorem exceptionBitsOf_ne_zero_iff (fe : FenvConsts) (fpcr : AXP_FBOX_FPCR)
    (hfe : fe.FlagsNonzero) :
    exceptionBitsOf fe fpcr ≠ 0 ↔ fpcr.anyDisabled = true := by
  obtain ⟨h1, h2, h3, h4, h5⟩ := hfe
  unfold exceptionBitsOf AXP_FBOX_FPCR.anyDisabled
  by_cases c1 : fpcr.dzed = 1 <;> by_cases c2 : fpcr.ined = 1 <;>
    by_cases c3 : fpcr.invd = 1 <;> by_cases c4 : fpcr.ovfd = 1 <;>
    by_cases c5 : fpcr.unfd = 1 <;>
    simp [c1, c2, c3, c4, c5, lor_eq_zero_iff_both, h1, h2, h3, h4, h5]

/-- C21, the claim as stated fails: with a non-NULL cpu whose five disable bits are all
0, and invalid, divide-by-zero and overflow enabled at entry (`fegetexcept()` = 0x0d),
`AXP_FP_SetExceptionMode` returns 0, not the enabled set of entry. -/
theorem setExceptionMode_returns_zero_without_disable_bit :
    fegetexcept { rounding := 0, enabled := 0x0d } = 0x0d ∧
      (AXP_FP_SetExceptionMode exampleFenv (some fpcrZero) 0
        { rounding := 0, enabled := 0x0d }).1 = 0 ∧
      (AXP_FP_SetExceptionMode exampleFenv (some fpcrZero) 0
        { rounding := 0, enabled := 0x0d }).2 = { rounding := 0, enabled := 0x0d } := by
  decide

/-- C21, amended: with a non-NULL cpu and non-zero exception macros, whatever
`resetExceptionMode` is: when at least one of the FPCR disable bits dzed, ined, invd,
ovfd, unfd is 1, `AXP_FP_SetExceptionMode` returns the value of `fegetexcept()` at entry
and the environment afterwards is the one `fedisableexcept` leaves for the macros of the
set disable bits; when all five are 0 it returns 0 and leaves the floating-point
environment unchanged. -/
theorem setExceptionMode_return_value (fe : FenvConsts) (fpcr : AXP_FBOX_FPCR)
    (resetExceptionMode : Nat) (st : FenvState) (hfe : fe.FlagsNonzero) :
    AXP_FP_SetExceptionMode fe (some fpcr) resetExceptionMode st =
      if fpcr.anyDisabled = true then
        (fegetexcept st, fedisableexcept fe (exceptionBitsOf fe fpcr) st)
      else (0, st) := by
  have hiff := exceptionBitsOf_ne_zero_iff fe fpcr hfe
  unfold AXP_FP_SetExceptionMode
  by_cases hb : exceptionBitsOf fe fpcr ≠ 0
  · have ha : fpcr.anyDisabled = true := hiff.1 hb
    simp [hb, ha]
  · have ha : ¬ fpcr.anyDisabled = true := fun h => hb (hiff.2 h)
    simp [hb, ha]

theorem setExceptionMode_return_value_witness :
    exampleFenv.FlagsNonzero ∧
      AXP_FP_SetExceptionMode exampleFenv (some { fpcrZero with dzed := 1 }) 0
        { rounding := 0, enabled := 0x0d } = (0x0d, { rounding := 0, enabled := 0x09 }) ∧
      AXP_FP_SetExceptionMode exampleFenv (some fpcrZero) 7
        { rounding := 0, enabled := 0x0d } = (0, { rounding := 0, enabled := 0x0d }) :=
  ⟨by unfold FenvConsts.FlagsNonzero; decide,
    (setExceptionMode_return_value exampleFenv { fpcrZero with dzed := 1 } 0
      { rounding := 0, enabled := 0x0d }
      (by unfold FenvConsts.FlagsNonzero; decide)).trans (by decide),
    (setExceptionMode_return_value exampleFenv fpcrZero 7
      { rounding := 0, enabled := 0x0d }
      (by unfold FenvConsts.FlagsNonzero; decide)).trans (by decide)⟩

/-- C22: save and restore of the exception mode.  When `AXP_FP_SetExceptionMode` is
called with a non-NULL cpu and then with NULL and the value the first call returned, the
floating-point environment afterwards is the one of before the first call: the same
exceptions are enabled.  This holds for every enabled set of entry, every FPCR, every
value of the `fenv.h` macros and every `resetExceptionMode` of the first call. -/
theorem setExceptionMode_save_restore (fe : FenvConsts) (fpcr : AXP_FBOX_FPCR)
    (resetExceptionMode : Nat) (st : FenvState) :
    (AXP_FP_SetExceptionMode fe none
        (AXP_FP_SetExceptionMode fe (some fpcr) resetExceptionMode st).1
        (AXP_FP_SetExceptionMode fe (some fpcr) resetExceptionMode st).2).2 = st ∧
      fegetexcept (AXP_FP_SetExceptionMode fe none
        (AXP_FP_SetExceptionMode fe (some fpcr) resetExceptionMode st).1
        (AXP_FP_SetExceptionMode fe (some fpcr) resetExceptionMode st).2).2 =
          fegetexcept st := by
  have hst : (AXP_FP_SetExceptionMode fe none
        (AXP_FP_SetExceptionMode fe (some fpcr) resetExceptionMode st).1
        (AXP_FP_SetExceptionMode fe (some fpcr) resetExceptionMode st).2).2 = st := by
    obtain ⟨r, e⟩ := st
    unfold AXP_FP_SetExceptionMode
    by_cases hb : exceptionBitsOf fe fpcr = 0
    · simp [hb]
    · by_cases he : e = 0
      · simp [hb, he, fegetexcept, fedisableexcept]
      · simp [hb, he, fegetexcept, fedisableexcept, feenableexcept,
          clear_then_set_restores]
  exact ⟨hst, by rw [hst]⟩

/-- An instance of the round trip: underflow and inexact disabled in the FPCR, all five
exceptions enabled at entry.  The first call returns 0x3d and leaves 0x0d enabled, the
second call returns 0x0d and enables 0x3d again. -/
theorem setExceptionMode_round_trip_example :
    AXP_FP_SetExceptionMode exampleFenv (some { fpcrZero with ined := 1, unfd := 1 }) 0
        { rounding := 0, enabled := 0x3d } = (0x3d, { rounding := 0, enabled := 0x0d }) ∧
      AXP_FP_SetExceptionMode exampleFenv none 0x3d { rounding := 0, enabled := 0x0d } =
        (0x0d, { rounding := 0, enabled := 0x3d }) := by
  decide

end DECaxp
